import Mathlib

/-! SpartanEngine: the pipeline state cache (`Runtime/RHI/RHI_Pipeline.cpp`).

A shallow embedding of `Directus::RHI_Pipeline`.  The cache is a record of the
member variables the source file reads and writes.  The Device Adapter is an
external collaborator: every call made on it (and every `Bind()` made on an index
or vertex buffer) is recorded, in order, in a list of `DeviceCall`s.

Conventions of the embedding
* a `void*` is a `Handle`, a natural number, `0` being `nullptr`;
* a `shared_ptr<T>` (or `T*`) to a resource object is an `Option T`, `none` being
  the null pointer; the object is read as it is when the cache receives it;
* dereferencing a null pointer has no defined result: a function that may do so
  returns an `Option`, and `none` stands for that undefined behaviour;
* the profiler counters (`m_profiler->...++`) are bookkeeping of another
  subsystem and are not part of the cache or of the device trace: they are left out;
* `std::vector` sizes are taken below `2^32`, where the cast to `unsigned int` is
  the identity.
-/

namespace Directus

/-- A native handle (`void*`); `0` is `nullptr`. -/
abbrev Handle := Nat

/-- Modelled from the spec: `Cull_Mode` of RHI_Definition.h, which is absent; the
source names `Cull_Back`, the spec names the front mode. -/
inductive Cull_Mode where
  | Cull_None
  | Cull_Front
  | Cull_Back
  deriving DecidableEq, Repr

/-- Modelled from the spec: `Fill_Mode` of RHI_Definition.h, which is absent; the
source names `Fill_Solid`. -/
inductive Fill_Mode where
  | Fill_Solid
  | Fill_Wireframe
  deriving DecidableEq, Repr

/-- Modelled from the spec: `PrimitiveTopology_Mode` of RHI_Definition.h, which is
absent; the source names `PrimitiveTopology_TriangleList`. -/
inductive PrimitiveTopology_Mode where
  | PrimitiveTopology_TriangleList
  | PrimitiveTopology_LineList
  | PrimitiveTopology_NotAssigned
  deriving DecidableEq, Repr

/-- Modelled from the spec: `Buffer_Scope` of RHI_Definition.h, which is absent;
the spec lists the vertex stage, the pixel stage and the global scope, the source
names `Buffer_Global`. -/
inductive Buffer_Scope where
  | Buffer_VertexShader
  | Buffer_PixelShader
  | Buffer_Global
  deriving DecidableEq, Repr

/-- Modelled from the spec: the clear flags of RHI_Definition.h, which is absent;
the source names `Clear_Depth`. -/
inductive Clear_Flags where
  | Clear_Depth
  | Clear_Stencil
  deriving DecidableEq, Repr

/-- Modelled from the spec: `Math::Vector4`, whose header is absent; four scalars,
taken as rationals. -/
structure Vector4 where
  x : Rat
  y : Rat
  z : Rat
  w : Rat
  deriving DecidableEq, Repr

/-- Modelled from the spec: `RHI_Viewport`, whose header is absent; a value with
structural equality (`operator==`) and a maximum depth (`GetMaxDepth()`).  The
floating point components are taken as rationals. -/
structure RHI_Viewport where
  x : Rat
  y : Rat
  width : Rat
  height : Rat
  minDepth : Rat
  maxDepth : Rat
  deriving DecidableEq, Repr

/-- What the cache reads of an `RHI_InputLayout`: `GetInputLayout()` (an
enumerator, taken as a number) and `GetBuffer()`. -/
structure RHI_InputLayout where
  inputLayout : Nat
  buffer : Handle
  deriving DecidableEq, Repr

/-- What the cache reads of an `RHI_Shader`: `HasVertexShader()`,
`HasPixelShader()`, `RHI_GetID()`, `GetInputLayout()`, `GetVertexShaderBuffer()`
and `GetPixelShaderBuffer()`. -/
structure RHI_Shader where
  hasVertexShader : Bool
  hasPixelShader : Bool
  id : Nat
  inputLayoutPtr : Option RHI_InputLayout
  vertexShaderBuffer : Handle
  pixelShaderBuffer : Handle
  deriving DecidableEq, Repr

/-- An `RHI_IndexBuffer`: an object identity; the result of its `Bind()` is
reported by the native side. -/
structure RHI_IndexBuffer where
  id : Nat
  deriving DecidableEq, Repr

/-- An `RHI_VertexBuffer`: an object identity; the result of its `Bind()` is
reported by the native side. -/
structure RHI_VertexBuffer where
  id : Nat
  deriving DecidableEq, Repr

/-- What the cache reads of an `RHI_Sampler`: `GetBuffer()`. -/
structure RHI_Sampler where
  buffer : Handle
  deriving DecidableEq, Repr

/-- What the cache reads of an `RHI_ConstantBuffer`: `GetBuffer()`. -/
structure RHI_ConstantBuffer where
  buffer : Handle
  deriving DecidableEq, Repr

/-- What the cache reads of an `RHI_Texture`: `GetShaderResource()`. -/
structure RHI_Texture where
  shaderResource : Handle
  deriving DecidableEq, Repr

/-- What the cache reads of an `RHI_RenderTexture`: `GetShaderResource()` and
`GetRenderTargetView()`. -/
structure RHI_RenderTexture where
  shaderResource : Handle
  renderTargetView : Handle
  deriving DecidableEq, Repr

/-- An entry of `m_constantBuffers`: the triple built by
`m_constantBuffers.emplace_back(constantBuffer->GetBuffer(), slot, scope)`. -/
structure ConstantBuffer where
  buffer : Handle
  slot : Nat
  scope : Buffer_Scope
  deriving DecidableEq, Repr

/-- The `RHI_Device` the cache points to; only whether the pointer is null
matters to the cache. -/
structure RHI_Device where
  id : Nat
  deriving DecidableEq, Repr

/-- One call that reaches the native side, with its arguments.  An array argument
(`count` and a pointer to the first element) is the list of its elements; the
null pointer passed for an empty array is the empty list. -/
inductive DeviceCall where
  | Set_DepthEnabled (enabled : Bool)
  | Set_RenderTargets (count : Nat) (views : List Handle) (depthStencil : Handle)
  | ClearRenderTarget (view : Handle) (color : Vector4)
  | ClearDepthStencil (depthStencil : Handle) (flags : Clear_Flags) (depth : Rat)
      (stencil : Nat)
  | Set_Textures (startSlot : Nat) (count : Nat) (textures : List Handle)
  | Set_Samplers (startSlot : Nat) (count : Nat) (samplers : List Handle)
  | Set_ConstantBuffers (slot : Nat) (count : Nat) (scope : Buffer_Scope)
      (buffers : List Handle)
  | Set_VertexShader (buffer : Handle)
  | Set_PixelShader (buffer : Handle)
  | Set_InputLayout (buffer : Handle)
  | Set_Viewport (viewport : RHI_Viewport)
  | Set_PrimitiveTopology (mode : PrimitiveTopology_Mode)
  | Set_CullMode (mode : Cull_Mode)
  | Set_FillMode (mode : Fill_Mode)
  | IndexBuffer_Bind (buffer : RHI_IndexBuffer)
  | VertexBuffer_Bind (buffer : RHI_VertexBuffer)
  | Set_AlphaBlendingEnabled (enabled : Bool)
  | Draw (vertexCount : Nat)
  | DrawIndexed (indexCount : Nat) (indexOffset : Nat) (vertexOffset : Nat)
  deriving DecidableEq, Repr

/-- What the native side contributes to one call of the cache: the compile-time
switch `REVERSE_Z` (its header is absent, so it is a parameter) and the success
results of the three native operations whose result `Bind()` reads. -/
structure Native where
  REVERSE_Z : Bool
  indexBufferBind : Bool
  vertexBufferBind : Bool
  alphaBlendingEnabled : Bool
  deriving DecidableEq, Repr

/-- The member variables of `RHI_Pipeline` that RHI_Pipeline.cpp reads and
writes. -/
structure RHI_Pipeline where
  m_rhiDevice : Option RHI_Device
  m_vertexShader : Option RHI_Shader
  m_boundVertexShaderID : Nat
  m_vertexShaderDirty : Bool
  m_pixelShader : Option RHI_Shader
  m_boundPixelShaderID : Nat
  m_pixelShaderDirty : Bool
  m_indexBuffer : Option RHI_IndexBuffer
  m_indexBufferDirty : Bool
  m_vertexBuffer : Option RHI_VertexBuffer
  m_vertexBufferDirty : Bool
  m_samplers : List Handle
  m_samplersDirty : Bool
  m_textures : List Handle
  m_texturesDirty : Bool
  m_renderTargetViews : List Handle
  m_depthStencil : Handle
  m_renderTargetsClear : Bool
  m_renderTargetsDirty : Bool
  m_constantBuffers : List ConstantBuffer
  m_constantBufferDirty : Bool
  m_primitiveTopology : PrimitiveTopology_Mode
  m_primitiveTopologyDirty : Bool
  m_inputLayout : Nat
  m_inputLayoutBuffer : Handle
  m_inputLayoutDirty : Bool
  m_cullMode : Cull_Mode
  m_cullModeDirty : Bool
  m_fillMode : Fill_Mode
  m_fillModeDirty : Bool
  m_alphaBlending : Bool
  m_alphaBlendingDirty : Bool
  m_viewport : RHI_Viewport
  m_viewportDirty : Bool
  deriving DecidableEq, Repr

/-- The outcome of a call that returns a `bool`: the value returned, the cache
afterwards and the native calls issued, in order. -/
structure Outcome where
  ret : Bool
  p : RHI_Pipeline
  calls : List DeviceCall
  deriving DecidableEq, Repr

/-! ## The `Set*` operations -/

/-- `RHI_Pipeline::SetInputLayout`: the argument is dereferenced without a null
test, so the null pointer has no defined result. -/
def SetInputLayout (p : RHI_Pipeline) (inputLayout : Option RHI_InputLayout) :
    Option (Bool × RHI_Pipeline) :=
  match inputLayout with
  | none => none
  | some il =>
    if p.m_inputLayout = il.inputLayout then
      some (false, p)
    else
      some (true, { p with
        m_inputLayout := il.inputLayout
        m_inputLayoutBuffer := il.buffer
        m_inputLayoutDirty := true })

/-- `RHI_Pipeline::SetVertexShader`. -/
def SetVertexShader (p : RHI_Pipeline) (shader : Option RHI_Shader) :
    Option (Bool × RHI_Pipeline) :=
  match shader with
  | none => some (false, p)
  | some sh =>
    if sh.hasVertexShader = true ∧ p.m_boundVertexShaderID ≠ sh.id then
      match SetInputLayout p sh.inputLayoutPtr with
      | none => none
      | some (_, p1) =>
        some (true, { p1 with
          m_vertexShader := some sh
          m_boundVertexShaderID := sh.id
          m_vertexShaderDirty := true })
    else
      some (true, p)

/-- `RHI_Pipeline::SetPixelShader`. -/
def SetPixelShader (p : RHI_Pipeline) (shader : Option RHI_Shader) :
    Bool × RHI_Pipeline :=
  match shader with
  | none => (false, p)
  | some sh =>
    if sh.hasPixelShader = true ∧ p.m_boundPixelShaderID ≠ sh.id then
      (true, { p with
        m_pixelShader := some sh
        m_boundPixelShaderID := sh.id
        m_pixelShaderDirty := true })
    else
      (true, p)

/-- `RHI_Pipeline::SetShader`: both stages, the results dropped. -/
def SetShader (p : RHI_Pipeline) (shader : Option RHI_Shader) : Option RHI_Pipeline :=
  match SetVertexShader p shader with
  | none => none
  | some (_, p1) => some (SetPixelShader p1 shader).2

/-- `RHI_Pipeline::SetIndexBuffer`. -/
def SetIndexBuffer (p : RHI_Pipeline) (indexBuffer : Option RHI_IndexBuffer) :
    Bool × RHI_Pipeline :=
  match indexBuffer with
  | none => (false, p)
  | some ib => (true, { p with m_indexBuffer := some ib, m_indexBufferDirty := true })

/-- `RHI_Pipeline::SetVertexBuffer`. -/
def SetVertexBuffer (p : RHI_Pipeline) (vertexBuffer : Option RHI_VertexBuffer) :
    Bool × RHI_Pipeline :=
  match vertexBuffer with
  | none => (false, p)
  | some vb => (true, { p with m_vertexBuffer := some vb, m_vertexBufferDirty := true })

/-- `RHI_Pipeline::SetSampler`. -/
def SetSampler (p : RHI_Pipeline) (sampler : Option RHI_Sampler) : Bool × RHI_Pipeline :=
  match sampler with
  | none => (false, p)
  | some s => (true, { p with m_samplers := p.m_samplers ++ [s.buffer], m_samplersDirty := true })

/-- The handle `texture ? texture->GetShaderResource() : nullptr` of the two
`RHI_Texture` overloads of `SetTexture`. -/
def textureHandle (texture : Option RHI_Texture) : Handle :=
  match texture with
  | some t => t.shaderResource
  | none => 0

/-- The handle `texture ? texture->GetShaderResource() : nullptr` of the
`RHI_RenderTexture` overload of `SetTexture`. -/
def renderTextureHandle (texture : Option RHI_RenderTexture) : Handle :=
  match texture with
  | some t => t.shaderResource
  | none => 0

/-- `RHI_Pipeline::SetTexture(const shared_ptr<RHI_RenderTexture>&)`. -/
def SetTexture_RenderTexture (p : RHI_Pipeline) (texture : Option RHI_RenderTexture) :
    Bool × RHI_Pipeline :=
  (true, { p with
    m_textures := p.m_textures ++ [renderTextureHandle texture]
    m_texturesDirty := true })

/-- `RHI_Pipeline::SetTexture(const shared_ptr<RHI_Texture>&)`. -/
def SetTexture (p : RHI_Pipeline) (texture : Option RHI_Texture) : Bool × RHI_Pipeline :=
  (true, { p with
    m_textures := p.m_textures ++ [textureHandle texture]
    m_texturesDirty := true })

/-- `RHI_Pipeline::SetTexture(const RHI_Texture*)`. -/
def SetTexture_Ptr (p : RHI_Pipeline) (texture : Option RHI_Texture) : Bool × RHI_Pipeline :=
  (true, { p with
    m_textures := p.m_textures ++ [textureHandle texture]
    m_texturesDirty := true })

/-- `RHI_Pipeline::SetRenderTarget(const shared_ptr<RHI_RenderTexture>&, void*, bool)`. -/
def SetRenderTarget_RenderTexture (p : RHI_Pipeline) (renderTarget : Option RHI_RenderTexture)
    (depthStencilView : Handle) (clear : Bool) : Bool × RHI_Pipeline :=
  match renderTarget with
  | none => (false, p)
  | some rt =>
    (true, { p with
      m_renderTargetViews := [rt.renderTargetView]
      m_depthStencil := depthStencilView
      m_renderTargetsClear := clear
      m_renderTargetsDirty := true })

/-- `RHI_Pipeline::SetRenderTarget(void*, void*, bool)`. -/
def SetRenderTarget_View (p : RHI_Pipeline) (renderTargetView : Handle)
    (depthStencilView : Handle) (clear : Bool) : Bool × RHI_Pipeline :=
  if renderTargetView = 0 then
    (false, p)
  else
    (true, { p with
      m_renderTargetViews := [renderTargetView]
      m_depthStencil := depthStencilView
      m_renderTargetsClear := clear
      m_renderTargetsDirty := true })

/-- The loop of the list overload of `SetRenderTarget`: the views are appended in
order, a null view being skipped (`continue`). -/
def appendNonNull (acc : List Handle) : List Handle → List Handle
  | [] => acc
  | renderTarget :: rest =>
    if renderTarget = 0 then appendNonNull acc rest
    else appendNonNull (acc ++ [renderTarget]) rest

/-- `RHI_Pipeline::SetRenderTarget(const vector<void*>&, void*, bool)`. -/
def SetRenderTarget_Views (p : RHI_Pipeline) (renderTargetViews : List Handle)
    (depthStencilView : Handle) (clear : Bool) : Bool × RHI_Pipeline :=
  if renderTargetViews.isEmpty then
    (false, p)
  else
    (true, { p with
      m_renderTargetViews := appendNonNull [] renderTargetViews
      m_depthStencil := depthStencilView
      m_renderTargetsClear := clear
      m_renderTargetsDirty := true })

/-- `RHI_Pipeline::SetConstantBuffer`. -/
def SetConstantBuffer (p : RHI_Pipeline) (constantBuffer : Option RHI_ConstantBuffer)
    (slot : Nat) (scope : Buffer_Scope) : Bool × RHI_Pipeline :=
  match constantBuffer with
  | none => (false, p)
  | some cb =>
    (true, { p with
      m_constantBuffers := p.m_constantBuffers ++ [ConstantBuffer.mk cb.buffer slot scope]
      m_constantBufferDirty := true })

/-- `RHI_Pipeline::SetPrimitiveTopology`. -/
def SetPrimitiveTopology (p : RHI_Pipeline) (primitiveTopology : PrimitiveTopology_Mode) :
    RHI_Pipeline :=
  if p.m_primitiveTopology = primitiveTopology then p
  else { p with m_primitiveTopology := primitiveTopology, m_primitiveTopologyDirty := true }

/-- `RHI_Pipeline::SetCullMode`. -/
def SetCullMode (p : RHI_Pipeline) (cullMode : Cull_Mode) : RHI_Pipeline :=
  if p.m_cullMode = cullMode then p
  else { p with m_cullMode := cullMode, m_cullModeDirty := true }

/-- `RHI_Pipeline::SetFillMode`. -/
def SetFillMode (p : RHI_Pipeline) (fillMode : Fill_Mode) : RHI_Pipeline :=
  if p.m_fillMode = fillMode then p
  else { p with m_fillMode := fillMode, m_fillModeDirty := true }

/-- `RHI_Pipeline::SetAlphaBlending`. -/
def SetAlphaBlending (p : RHI_Pipeline) (enabled : Bool) : RHI_Pipeline :=
  if p.m_alphaBlending = enabled then p
  else { p with m_alphaBlending := enabled, m_alphaBlendingDirty := true }

/-- `RHI_Pipeline::SetViewport`. -/
def SetViewport (p : RHI_Pipeline) (viewport : RHI_Viewport) : RHI_Pipeline :=
  if viewport = p.m_viewport then p
  else { p with m_viewport := viewport, m_viewportDirty := true }

/-! ## `Bind()`, one definition per commented block of the source -/

/-! ### Single-precision arithmetic

A `float` is the rational number it stands for; infinities and NaN are outside
the model.  An arithmetic operation on `float`s gives the exact result rounded to
the nearest single-precision value, ties going to the even significand. -/

/-- The integer part of the binary logarithm of a positive natural number, by
repeated halving; `steps` bounds the number of halvings. -/
def log2_steps : Nat → Nat → Nat
  | 0, _ => 0
  | steps + 1, n => if 2 ≤ n then log2_steps steps (n / 2) + 1 else 0

/-- The integer part of the binary logarithm of the positive rational `n / d`:
the exponent `e` with `2^e ≤ n / d < 2^(e+1)`. -/
def floorLog2 (n d : Nat) : Int :=
  let l : Int := (log2_steps n n : Int) - (log2_steps d d : Int)
  if d * 2 ^ l.toNat ≤ n * 2 ^ (-l).toNat then l else l - 1

/-- The natural number nearest to `n / d`, a tie going to the even one. -/
def roundHalfEven (n d : Nat) : Nat :=
  if 2 * (n % d) < d then n / d
  else if d < 2 * (n % d) then n / d + 1
  else if (n / d) % 2 = 0 then n / d
  else n / d + 1

/-- The single-precision value nearest to a rational, ties to even: a significand
of 24 bits at the exponent of the value, which is not taken below -126 (the
subnormal range).  The exponent is not bounded above, a value that would round to
infinity being outside the model; the difference `1.0f - depth` of a finite
`float` never is. -/
def roundToFloat (q : Rat) : Rat :=
  if q.num = 0 then 0
  else
    let e : Int := max (floorLog2 q.num.natAbs q.den) (-126)
    let k : Int := e - 23
    let m := roundHalfEven (q.num.natAbs * 2 ^ (-k).toNat) (q.den * 2 ^ k.toNat)
    let v : Rat := mkRat (m * 2 ^ k.toNat : Nat) (2 ^ (-k).toNat)
    if q.num < 0 then -v else v

/-- The `float` subtraction `a - b`. -/
def float_sub (a b : Rat) : Rat :=
  roundToFloat (a - b)

/-- The depth passed to `ClearDepthStencil`: the viewport's maximum depth, and
under `REVERSE_Z` the `float` difference `1.0f - depth`. -/
def clearDepth (n : Native) (p : RHI_Pipeline) : Rat :=
  if n.REVERSE_Z then float_sub 1 p.m_viewport.maxDepth else p.m_viewport.maxDepth

/-- The clears of the render-target block, made when `m_renderTargetsClear` is
set: every view in order, then the depth-stencil view when it is not null. -/
def Bind_clears (n : Native) (p : RHI_Pipeline) : List DeviceCall :=
  if p.m_renderTargetsClear then
    p.m_renderTargetViews.map (fun renderTargetView =>
      DeviceCall.ClearRenderTarget renderTargetView (Vector4.mk 0 0 0 0))
    ++ (if p.m_depthStencil ≠ 0 then
          [DeviceCall.ClearDepthStencil p.m_depthStencil Clear_Flags.Clear_Depth
            (clearDepth n p) 0]
        else [])
  else []

/-- The block `// Render Targets` of `Bind()`, entered past the test for an empty
sequence. -/
def Bind_renderTargets (n : Native) (p : RHI_Pipeline) : RHI_Pipeline × List DeviceCall :=
  if p.m_renderTargetsDirty then
    ({ p with m_renderTargetsClear := false, m_renderTargetsDirty := false },
     [DeviceCall.Set_DepthEnabled (decide (p.m_depthStencil ≠ 0)),
      DeviceCall.Set_RenderTargets p.m_renderTargetViews.length p.m_renderTargetViews
        p.m_depthStencil]
     ++ Bind_clears n p)
  else (p, [])

/-- The block `// Textures` of `Bind()`. -/
def Bind_textures (p : RHI_Pipeline) : RHI_Pipeline × List DeviceCall :=
  if p.m_texturesDirty then
    ({ p with m_textures := [], m_texturesDirty := false },
     [DeviceCall.Set_Textures 0 p.m_textures.length p.m_textures])
  else (p, [])

/-- The block `// Samplers` of `Bind()`. -/
def Bind_samplers (p : RHI_Pipeline) : RHI_Pipeline × List DeviceCall :=
  if p.m_samplersDirty then
    ({ p with m_samplers := [], m_samplersDirty := false },
     [DeviceCall.Set_Samplers 0 p.m_samplers.length p.m_samplers])
  else (p, [])

/-- The block `// Constant buffers` of `Bind()`: one call per pending entry. -/
def Bind_constantBuffers (p : RHI_Pipeline) : RHI_Pipeline × List DeviceCall :=
  if p.m_constantBufferDirty then
    ({ p with m_constantBuffers := [], m_constantBufferDirty := false },
     p.m_constantBuffers.map (fun constantBuffer =>
       DeviceCall.Set_ConstantBuffers constantBuffer.slot 1 constantBuffer.scope
         [constantBuffer.buffer]))
  else (p, [])

/-- The block `// Vertex shader` of `Bind()`; `m_vertexShader` is dereferenced. -/
def Bind_vertexShader (p : RHI_Pipeline) : Option (RHI_Pipeline × List DeviceCall) :=
  if p.m_vertexShaderDirty then
    match p.m_vertexShader with
    | none => none
    | some sh =>
      some ({ p with m_vertexShaderDirty := false },
            [DeviceCall.Set_VertexShader sh.vertexShaderBuffer])
  else some (p, [])

/-- The block `// Pixel shader` of `Bind()`; `m_pixelShader` is dereferenced. -/
def Bind_pixelShader (p : RHI_Pipeline) : Option (RHI_Pipeline × List DeviceCall) :=
  if p.m_pixelShaderDirty then
    match p.m_pixelShader with
    | none => none
    | some sh =>
      some ({ p with m_pixelShaderDirty := false },
            [DeviceCall.Set_PixelShader sh.pixelShaderBuffer])
  else some (p, [])

/-- The block `// Input layout` of `Bind()`. -/
def Bind_inputLayout (p : RHI_Pipeline) : RHI_Pipeline × List DeviceCall :=
  if p.m_inputLayoutDirty then
    ({ p with m_inputLayoutDirty := false }, [DeviceCall.Set_InputLayout p.m_inputLayoutBuffer])
  else (p, [])

/-- The block `// Viewport` of `Bind()`. -/
def Bind_viewport (p : RHI_Pipeline) : RHI_Pipeline × List DeviceCall :=
  if p.m_viewportDirty then
    ({ p with m_viewportDirty := false }, [DeviceCall.Set_Viewport p.m_viewport])
  else (p, [])

/-- The block `// Primitive topology` of `Bind()`. -/
def Bind_primitiveTopology (p : RHI_Pipeline) : RHI_Pipeline × List DeviceCall :=
  if p.m_primitiveTopologyDirty then
    ({ p with m_primitiveTopologyDirty := false },
     [DeviceCall.Set_PrimitiveTopology p.m_primitiveTopology])
  else (p, [])

/-- The block `// Cull mode` of `Bind()`. -/
def Bind_cullMode (p : RHI_Pipeline) : RHI_Pipeline × List DeviceCall :=
  if p.m_cullModeDirty then
    ({ p with m_cullModeDirty := false }, [DeviceCall.Set_CullMode p.m_cullMode])
  else (p, [])

/-- The block `// Fill mode` of `Bind()`. -/
def Bind_fillMode (p : RHI_Pipeline) : RHI_Pipeline × List DeviceCall :=
  if p.m_fillModeDirty then
    ({ p with m_fillModeDirty := false }, [DeviceCall.Set_FillMode p.m_fillMode])
  else (p, [])

/-- The block `// Index buffer` of `Bind()`: `resultIndexBuffer` starts `false` and
is assigned only when the group is dirty; `m_indexBuffer` is dereferenced. -/
def Bind_indexBuffer (n : Native) (p : RHI_Pipeline) :
    Option (Bool × RHI_Pipeline × List DeviceCall) :=
  if p.m_indexBufferDirty then
    match p.m_indexBuffer with
    | none => none
    | some ib =>
      some (n.indexBufferBind, { p with m_indexBufferDirty := false },
            [DeviceCall.IndexBuffer_Bind ib])
  else some (false, p, [])

/-- The block `// Vertex buffer` of `Bind()`: `resultVertexBuffer` starts `false`
and is assigned only when the group is dirty; `m_vertexBuffer` is dereferenced. -/
def Bind_vertexBuffer (n : Native) (p : RHI_Pipeline) :
    Option (Bool × RHI_Pipeline × List DeviceCall) :=
  if p.m_vertexBufferDirty then
    match p.m_vertexBuffer with
    | none => none
    | some vb =>
      some (n.vertexBufferBind, { p with m_vertexBufferDirty := false },
            [DeviceCall.VertexBuffer_Bind vb])
  else some (false, p, [])

/-- The block `// Alpha blending` of `Bind()`: `resultAlphaBlending` starts `false`
and is assigned only when the group is dirty. -/
def Bind_alphaBlending (n : Native) (p : RHI_Pipeline) :
    Bool × RHI_Pipeline × List DeviceCall :=
  if p.m_alphaBlendingDirty then
    (n.alphaBlendingEnabled, { p with m_alphaBlendingDirty := false },
     [DeviceCall.Set_AlphaBlendingEnabled p.m_alphaBlending])
  else (false, p, [])

/-- `RHI_Pipeline::Bind`.  The two early returns (`!m_rhiDevice`, and a dirty
render-target group whose sequence is empty) give `false` with the cache as it was
and no native call; otherwise the blocks run in the order of the source and the
result is `resultIndexBuffer && resultVertexBuffer && resultAlphaBlending`. -/
def Bind (p : RHI_Pipeline) (n : Native) : Option Outcome :=
  if p.m_rhiDevice.isNone then
    some (Outcome.mk false p [])
  else if p.m_renderTargetsDirty && p.m_renderTargetViews.isEmpty then
    some (Outcome.mk false p [])
  else
    let (p1, c1) := Bind_renderTargets n p
    let (p2, c2) := Bind_textures p1
    let (p3, c3) := Bind_samplers p2
    let (p4, c4) := Bind_constantBuffers p3
    match Bind_vertexShader p4 with
    | none => none
    | some (p5, c5) =>
    match Bind_pixelShader p5 with
    | none => none
    | some (p6, c6) =>
    let (p7, c7) := Bind_inputLayout p6
    let (p8, c8) := Bind_viewport p7
    let (p9, c9) := Bind_primitiveTopology p8
    let (p10, c10) := Bind_cullMode p9
    let (p11, c11) := Bind_fillMode p10
    match Bind_indexBuffer n p11 with
    | none => none
    | some (resultIndexBuffer, p12, c12) =>
    match Bind_vertexBuffer n p12 with
    | none => none
    | some (resultVertexBuffer, p13, c13) =>
    let (resultAlphaBlending, p14, c14) := Bind_alphaBlending n p13
    some (Outcome.mk (resultIndexBuffer && resultVertexBuffer && resultAlphaBlending) p14
      (c1 ++ c2 ++ c3 ++ c4 ++ c5 ++ c6 ++ c7 ++ c8 ++ c9 ++ c10 ++ c11 ++ c12 ++ c13 ++ c14))

/-- `RHI_Pipeline::DrawIndexed`: `Bind()`, then the native draw whatever `Bind()`
returned; `m_rhiDevice` is dereferenced without a null test. -/
def DrawIndexed (p : RHI_Pipeline) (n : Native) (indexCount indexOffset vertexOffset : Nat) :
    Option Outcome :=
  match Bind p n with
  | none => none
  | some b =>
    match b.p.m_rhiDevice with
    | none => none
    | some _ =>
      some (Outcome.mk b.ret b.p
        (b.calls ++ [DeviceCall.DrawIndexed indexCount indexOffset vertexOffset]))

/-- `RHI_Pipeline::Draw`: `Bind()`, then the native draw whatever `Bind()`
returned; `m_rhiDevice` is dereferenced without a null test. -/
def Draw (p : RHI_Pipeline) (n : Native) (vertexCount : Nat) : Option Outcome :=
  match Bind p n with
  | none => none
  | some b =>
    match b.p.m_rhiDevice with
    | none => none
    | some _ => some (Outcome.mk b.ret b.p (b.calls ++ [DeviceCall.Draw vertexCount]))

/-! ## `Reset()` and construction -/

/-- `RHI_Pipeline::Reset`: `m_rhiDevice` is dereferenced without a null test.  The
slot arrays are unbound with an array of ten null entries; a scalar is pushed to
the device, and its dirty bit cleared, only when it is not at its default. -/
def Reset (p : RHI_Pipeline) : Option (RHI_Pipeline × List DeviceCall) :=
  match p.m_rhiDevice with
  | none => none
  | some _ =>
    let empty : List Handle := List.replicate 10 0
    let c1 := [DeviceCall.Set_Textures 0 empty.length empty]
    let p1 := { p with m_textures := [], m_texturesDirty := false }
    let c2 := [DeviceCall.Set_Samplers 0 empty.length empty]
    let p2 := { p1 with m_samplers := [], m_samplersDirty := false }
    let c3 := [DeviceCall.Set_ConstantBuffers 0 empty.length Buffer_Scope.Buffer_Global empty]
    let p3 := { p2 with m_constantBuffers := [], m_constantBufferDirty := false }
    let (p4, c4) :=
      if p3.m_fillMode ≠ Fill_Mode.Fill_Solid then
        ({ p3 with m_fillMode := Fill_Mode.Fill_Solid, m_fillModeDirty := false },
         [DeviceCall.Set_FillMode Fill_Mode.Fill_Solid])
      else (p3, [])
    let (p5, c5) :=
      if p4.m_cullMode ≠ Cull_Mode.Cull_Back then
        ({ p4 with m_cullMode := Cull_Mode.Cull_Back, m_cullModeDirty := false },
         [DeviceCall.Set_CullMode Cull_Mode.Cull_Back])
      else (p4, [])
    let (p6, c6) :=
      if p5.m_primitiveTopology ≠ PrimitiveTopology_Mode.PrimitiveTopology_TriangleList then
        ({ p5 with
            m_primitiveTopology := PrimitiveTopology_Mode.PrimitiveTopology_TriangleList
            m_primitiveTopologyDirty := false },
         [DeviceCall.Set_PrimitiveTopology
            PrimitiveTopology_Mode.PrimitiveTopology_TriangleList])
      else (p5, [])
    let (p7, c7) :=
      if p6.m_alphaBlending = true then
        ({ p6 with m_alphaBlending := false, m_alphaBlendingDirty := false },
         [DeviceCall.Set_AlphaBlendingEnabled false])
      else (p6, [])
    some (p7, c1 ++ c2 ++ c3 ++ c4 ++ c5 ++ c6 ++ c7)

/-- Modelled from the spec: the member initialisers of RHI_Pipeline.h, which is
absent.  The spec has the cache start with no pending change: every dirty bit
false, every pending sequence empty, no clear requested, no resource referenced,
and the scalar state at the defaults `Reset()` names.  The device pointer is the
constructor's argument. -/
def RHI_Pipeline.initial (rhiDevice : Option RHI_Device) : RHI_Pipeline where
  m_rhiDevice := rhiDevice
  m_vertexShader := none
  m_boundVertexShaderID := 0
  m_vertexShaderDirty := false
  m_pixelShader := none
  m_boundPixelShaderID := 0
  m_pixelShaderDirty := false
  m_indexBuffer := none
  m_indexBufferDirty := false
  m_vertexBuffer := none
  m_vertexBufferDirty := false
  m_samplers := []
  m_samplersDirty := false
  m_textures := []
  m_texturesDirty := false
  m_renderTargetViews := []
  m_depthStencil := 0
  m_renderTargetsClear := false
  m_renderTargetsDirty := false
  m_constantBuffers := []
  m_constantBufferDirty := false
  m_primitiveTopology := PrimitiveTopology_Mode.PrimitiveTopology_TriangleList
  m_primitiveTopologyDirty := false
  m_inputLayout := 0
  m_inputLayoutBuffer := 0
  m_inputLayoutDirty := false
  m_cullMode := Cull_Mode.Cull_Back
  m_cullModeDirty := false
  m_fillMode := Fill_Mode.Fill_Solid
  m_fillModeDirty := false
  m_alphaBlending := false
  m_alphaBlendingDirty := false
  m_viewport := RHI_Viewport.mk 0 0 0 0 0 0
  m_viewportDirty := false

/-- `RHI_Pipeline::RHI_Pipeline`: the device pointer is stored and `Reset()` runs
on the freshly initialised members. -/
def RHI_Pipeline.construct (rhiDevice : Option RHI_Device) :
    Option (RHI_Pipeline × List DeviceCall) :=
  Reset (RHI_Pipeline.initial rhiDevice)

/-! ## The public operations as one step function -/

/-- A call of a public member function of `RHI_Pipeline`, with its arguments. -/
inductive Op where
  | DrawIndexed (indexCount indexOffset vertexOffset : Nat)
  | Draw (vertexCount : Nat)
  | SetShader (shader : Option RHI_Shader)
  | SetVertexShader (shader : Option RHI_Shader)
  | SetPixelShader (shader : Option RHI_Shader)
  | SetIndexBuffer (indexBuffer : Option RHI_IndexBuffer)
  | SetVertexBuffer (vertexBuffer : Option RHI_VertexBuffer)
  | SetSampler (sampler : Option RHI_Sampler)
  | SetTexture_RenderTexture (texture : Option RHI_RenderTexture)
  | SetTexture (texture : Option RHI_Texture)
  | SetTexture_Ptr (texture : Option RHI_Texture)
  | SetRenderTarget_RenderTexture (renderTarget : Option RHI_RenderTexture)
      (depthStencilView : Handle) (clear : Bool)
  | SetRenderTarget_View (renderTargetView : Handle) (depthStencilView : Handle) (clear : Bool)
  | SetRenderTarget_Views (renderTargetViews : List Handle) (depthStencilView : Handle)
      (clear : Bool)
  | SetConstantBuffer (constantBuffer : Option RHI_ConstantBuffer) (slot : Nat)
      (scope : Buffer_Scope)
  | SetPrimitiveTopology (primitiveTopology : PrimitiveTopology_Mode)
  | SetInputLayout (inputLayout : Option RHI_InputLayout)
  | SetCullMode (cullMode : Cull_Mode)
  | SetFillMode (fillMode : Fill_Mode)
  | SetAlphaBlending (enabled : Bool)
  | SetViewport (viewport : RHI_Viewport)
  | Bind
  | Reset
  deriving DecidableEq, Repr

/-- A `Set*` call that returns a `bool` and touches only the cache: it issues no
native call. -/
def Outcome.ofSet (r : Bool × RHI_Pipeline) : Outcome :=
  Outcome.mk r.1 r.2 []

/-- A `void` call that touches only the cache: it issues no native call, and
`true` is recorded for the value it does not return. -/
def Outcome.ofVoid (p : RHI_Pipeline) : Outcome :=
  Outcome.mk true p []

/-- One public call on the cache `p`, the native side answering `n`: the outcome,
or `none` when the call dereferences a null pointer. -/
def exec (op : Op) (n : Native) (p : RHI_Pipeline) : Option Outcome :=
  match op with
  | Op.DrawIndexed c i v => DrawIndexed p n c i v
  | Op.Draw c => Draw p n c
  | Op.SetShader s => (SetShader p s).map Outcome.ofVoid
  | Op.SetVertexShader s => (SetVertexShader p s).map Outcome.ofSet
  | Op.SetPixelShader s => some (Outcome.ofSet (SetPixelShader p s))
  | Op.SetIndexBuffer b => some (Outcome.ofSet (SetIndexBuffer p b))
  | Op.SetVertexBuffer b => some (Outcome.ofSet (SetVertexBuffer p b))
  | Op.SetSampler s => some (Outcome.ofSet (SetSampler p s))
  | Op.SetTexture_RenderTexture t => some (Outcome.ofSet (SetTexture_RenderTexture p t))
  | Op.SetTexture t => some (Outcome.ofSet (SetTexture p t))
  | Op.SetTexture_Ptr t => some (Outcome.ofSet (SetTexture_Ptr p t))
  | Op.SetRenderTarget_RenderTexture r d c =>
      some (Outcome.ofSet (SetRenderTarget_RenderTexture p r d c))
  | Op.SetRenderTarget_View r d c => some (Outcome.ofSet (SetRenderTarget_View p r d c))
  | Op.SetRenderTarget_Views r d c => some (Outcome.ofSet (SetRenderTarget_Views p r d c))
  | Op.SetConstantBuffer b s sc => some (Outcome.ofSet (SetConstantBuffer p b s sc))
  | Op.SetPrimitiveTopology m => some (Outcome.ofVoid (SetPrimitiveTopology p m))
  | Op.SetInputLayout l => (SetInputLayout p l).map Outcome.ofSet
  | Op.SetCullMode m => some (Outcome.ofVoid (SetCullMode p m))
  | Op.SetFillMode m => some (Outcome.ofVoid (SetFillMode p m))
  | Op.SetAlphaBlending e => some (Outcome.ofVoid (SetAlphaBlending p e))
  | Op.SetViewport v => some (Outcome.ofVoid (SetViewport p v))
  | Op.Bind => Bind p n
  | Op.Reset => (Reset p).map (fun r => Outcome.mk true r.1 r.2)

/-- The cache states reachable through the public interface: the state left by
the constructor, and every state left by a public call that has a defined result
on a reachable state. -/
inductive Reachable : RHI_Pipeline → Prop where
  | construct (rhiDevice : Option RHI_Device) (p : RHI_Pipeline) (calls : List DeviceCall) :
      RHI_Pipeline.construct rhiDevice = some (p, calls) → Reachable p
  | step (op : Op) (n : Native) (p : RHI_Pipeline) (r : Outcome) :
      Reachable p → exec op n p = some r → Reachable r.p

/-! ## State groups -/

/-- The state groups of `Bind()`, one per dirty bit. -/
inductive Group where
  | renderTargets
  | textures
  | samplers
  | constantBuffers
  | vertexShader
  | pixelShader
  | inputLayout
  | viewport
  | primitiveTopology
  | cullMode
  | fillMode
  | indexBuffer
  | vertexBuffer
  | alphaBlending
  deriving DecidableEq, Repr

/-- The dirty bit of a group. -/
def Group.dirty (p : RHI_Pipeline) : Group → Bool
  | Group.renderTargets => p.m_renderTargetsDirty
  | Group.textures => p.m_texturesDirty
  | Group.samplers => p.m_samplersDirty
  | Group.constantBuffers => p.m_constantBufferDirty
  | Group.vertexShader => p.m_vertexShaderDirty
  | Group.pixelShader => p.m_pixelShaderDirty
  | Group.inputLayout => p.m_inputLayoutDirty
  | Group.viewport => p.m_viewportDirty
  | Group.primitiveTopology => p.m_primitiveTopologyDirty
  | Group.cullMode => p.m_cullModeDirty
  | Group.fillMode => p.m_fillModeDirty
  | Group.indexBuffer => p.m_indexBufferDirty
  | Group.vertexBuffer => p.m_vertexBufferDirty
  | Group.alphaBlending => p.m_alphaBlendingDirty

/-- The groups in the order in which `Bind()` visits them. -/
def Group.order : List Group :=
  [Group.renderTargets, Group.textures, Group.samplers, Group.constantBuffers,
   Group.vertexShader, Group.pixelShader, Group.inputLayout, Group.viewport,
   Group.primitiveTopology, Group.cullMode, Group.fillMode, Group.indexBuffer,
   Group.vertexBuffer, Group.alphaBlending]

/-- The position of a group in `Group.order`. -/
def Group.rank : Group → Nat
  | Group.renderTargets => 0
  | Group.textures => 1
  | Group.samplers => 2
  | Group.constantBuffers => 3
  | Group.vertexShader => 4
  | Group.pixelShader => 5
  | Group.inputLayout => 6
  | Group.viewport => 7
  | Group.primitiveTopology => 8
  | Group.cullMode => 9
  | Group.fillMode => 10
  | Group.indexBuffer => 11
  | Group.vertexBuffer => 12
  | Group.alphaBlending => 13

/-- The group a native call belongs to; the two draw calls belong to none. -/
def DeviceCall.group : DeviceCall → Option Group
  | DeviceCall.Set_DepthEnabled _ => some Group.renderTargets
  | DeviceCall.Set_RenderTargets _ _ _ => some Group.renderTargets
  | DeviceCall.ClearRenderTarget _ _ => some Group.renderTargets
  | DeviceCall.ClearDepthStencil _ _ _ _ => some Group.renderTargets
  | DeviceCall.Set_Textures _ _ _ => some Group.textures
  | DeviceCall.Set_Samplers _ _ _ => some Group.samplers
  | DeviceCall.Set_ConstantBuffers _ _ _ _ => some Group.constantBuffers
  | DeviceCall.Set_VertexShader _ => some Group.vertexShader
  | DeviceCall.Set_PixelShader _ => some Group.pixelShader
  | DeviceCall.Set_InputLayout _ => some Group.inputLayout
  | DeviceCall.Set_Viewport _ => some Group.viewport
  | DeviceCall.Set_PrimitiveTopology _ => some Group.primitiveTopology
  | DeviceCall.Set_CullMode _ => some Group.cullMode
  | DeviceCall.Set_FillMode _ => some Group.fillMode
  | DeviceCall.IndexBuffer_Bind _ => some Group.indexBuffer
  | DeviceCall.VertexBuffer_Bind _ => some Group.vertexBuffer
  | DeviceCall.Set_AlphaBlendingEnabled _ => some Group.alphaBlending
  | DeviceCall.Draw _ => none
  | DeviceCall.DrawIndexed _ _ _ => none

/-- The calls the block of a group issues when it runs on the cache `p`. -/
def groupCalls (n : Native) (p : RHI_Pipeline) : Group → List DeviceCall
  | Group.renderTargets => (Bind_renderTargets n p).2
  | Group.textures => (Bind_textures p).2
  | Group.samplers => (Bind_samplers p).2
  | Group.constantBuffers => (Bind_constantBuffers p).2
  | Group.vertexShader => ((Bind_vertexShader p).map Prod.snd).getD []
  | Group.pixelShader => ((Bind_pixelShader p).map Prod.snd).getD []
  | Group.inputLayout => (Bind_inputLayout p).2
  | Group.viewport => (Bind_viewport p).2
  | Group.primitiveTopology => (Bind_primitiveTopology p).2
  | Group.cullMode => (Bind_cullMode p).2
  | Group.fillMode => (Bind_fillMode p).2
  | Group.indexBuffer => ((Bind_indexBuffer n p).map (fun r => r.2.2)).getD []
  | Group.vertexBuffer => ((Bind_vertexBuffer n p).map (fun r => r.2.2)).getD []
  | Group.alphaBlending => (Bind_alphaBlending n p).2.2

/-- `Bind()` takes one of its two early returns on `p`: the device pointer is
null, or the render-target group is dirty with an empty sequence. -/
def BindFailsEarly (p : RHI_Pipeline) : Bool :=
  p.m_rhiDevice.isNone || (p.m_renderTargetsDirty && p.m_renderTargetViews.isEmpty)

/-- Every pointer `Bind()` would dereference on `p` is non-null: a dirty shader or
buffer group has its resource. -/
def DerefSafe (p : RHI_Pipeline) : Prop :=
  (p.m_vertexShaderDirty = true → p.m_vertexShader ≠ none) ∧
  (p.m_pixelShaderDirty = true → p.m_pixelShader ≠ none) ∧
  (p.m_indexBufferDirty = true → p.m_indexBuffer ≠ none) ∧
  (p.m_vertexBufferDirty = true → p.m_vertexBuffer ≠ none)

/-- The number of calls of a group in a trace. -/
def countGroup (g : Group) (calls : List DeviceCall) : Nat :=
  calls.countP (fun c => decide (c.group = some g))

/-- Every dirty bit of the cache is false. -/
def AllClean (p : RHI_Pipeline) : Prop :=
  ∀ g : Group, g.dirty p = false

/-- The cache left by a `Bind()` that runs through all its blocks, written as one
record: a dirty group has its bit cleared, its pending sequence emptied and, for
the render targets, the clear request dropped; a clean group is untouched. -/
def Bind_commit (p : RHI_Pipeline) : RHI_Pipeline :=
  { p with
    m_renderTargetsClear := if p.m_renderTargetsDirty then false else p.m_renderTargetsClear
    m_renderTargetsDirty := false
    m_textures := if p.m_texturesDirty then [] else p.m_textures
    m_texturesDirty := false
    m_samplers := if p.m_samplersDirty then [] else p.m_samplers
    m_samplersDirty := false
    m_constantBuffers := if p.m_constantBufferDirty then [] else p.m_constantBuffers
    m_constantBufferDirty := false
    m_vertexShaderDirty := false
    m_pixelShaderDirty := false
    m_inputLayoutDirty := false
    m_viewportDirty := false
    m_primitiveTopologyDirty := false
    m_cullModeDirty := false
    m_fillModeDirty := false
    m_indexBufferDirty := false
    m_vertexBufferDirty := false
    m_alphaBlendingDirty := false }

/-- The value returned by a `Bind()` that runs through all its blocks: each of the
three sub-results is the native result when its group is dirty and `false` when it
is not. -/
def Bind_ret (p : RHI_Pipeline) (n : Native) : Bool :=
  (p.m_indexBufferDirty && n.indexBufferBind) &&
  (p.m_vertexBufferDirty && n.vertexBufferBind) &&
  (p.m_alphaBlendingDirty && n.alphaBlendingEnabled)

/-! ## Arguments of the overloaded and of the scalar operations -/

/-- The argument of one `SetTexture` call, one constructor per overload. -/
inductive TextureArg where
  | renderTexture (texture : Option RHI_RenderTexture)
  | texture (texture : Option RHI_Texture)
  | texturePtr (texture : Option RHI_Texture)
  deriving DecidableEq, Repr

/-- The native handle of a `SetTexture` argument; a null texture gives the null
handle. -/
def TextureArg.handle : TextureArg → Handle
  | TextureArg.renderTexture t => renderTextureHandle t
  | TextureArg.texture t => textureHandle t
  | TextureArg.texturePtr t => textureHandle t

/-- One `SetTexture` call, whichever the overload. -/
def SetTextureArg (p : RHI_Pipeline) : TextureArg → Bool × RHI_Pipeline
  | TextureArg.renderTexture t => SetTexture_RenderTexture p t
  | TextureArg.texture t => SetTexture p t
  | TextureArg.texturePtr t => SetTexture_Ptr p t

/-- A sequence of `SetTexture` calls, in order. -/
def SetTextures (p : RHI_Pipeline) : List TextureArg → RHI_Pipeline
  | [] => p
  | t :: ts => SetTextures (SetTextureArg p t).2 ts

/-- The first argument of one `SetRenderTarget` call, one constructor per
overload. -/
inductive RenderTargetArg where
  | renderTexture (renderTarget : Option RHI_RenderTexture)
  | view (renderTargetView : Handle)
  | views (renderTargetViews : List Handle)
  deriving DecidableEq, Repr

/-- One `SetRenderTarget` call, whichever the overload. -/
def SetRenderTarget (p : RHI_Pipeline) (a : RenderTargetArg) (depthStencilView : Handle)
    (clear : Bool) : Bool × RHI_Pipeline :=
  match a with
  | RenderTargetArg.renderTexture rt => SetRenderTarget_RenderTexture p rt depthStencilView clear
  | RenderTargetArg.view v => SetRenderTarget_View p v depthStencilView clear
  | RenderTargetArg.views l => SetRenderTarget_Views p l depthStencilView clear

/-- The view list a `SetRenderTarget` argument names: the one view of a render
texture, the one view, or the list given. -/
def RenderTargetArg.viewList : RenderTargetArg → List Handle
  | RenderTargetArg.renderTexture none => []
  | RenderTargetArg.renderTexture (some rt) => [rt.renderTargetView]
  | RenderTargetArg.view v => [v]
  | RenderTargetArg.views l => l

/-- The views of a `SetRenderTarget` argument that a successful call keeps: the
list overload drops its null entries, the other two keep their one view. -/
def RenderTargetArg.kept : RenderTargetArg → List Handle
  | RenderTargetArg.renderTexture none => []
  | RenderTargetArg.renderTexture (some rt) => [rt.renderTargetView]
  | RenderTargetArg.view v => [v]
  | RenderTargetArg.views l => l.filter (fun v => decide (v ≠ 0))

/-- A value for one of the five scalar aspects. -/
inductive ScalarValue where
  | cullMode (v : Cull_Mode)
  | fillMode (v : Fill_Mode)
  | primitiveTopology (v : PrimitiveTopology_Mode)
  | alphaBlending (v : Bool)
  | viewport (v : RHI_Viewport)
  deriving DecidableEq, Repr

/-- The `Set<Aspect>` call for a scalar value. -/
def SetScalar (p : RHI_Pipeline) : ScalarValue → RHI_Pipeline
  | ScalarValue.cullMode v => SetCullMode p v
  | ScalarValue.fillMode v => SetFillMode p v
  | ScalarValue.primitiveTopology v => SetPrimitiveTopology p v
  | ScalarValue.alphaBlending v => SetAlphaBlending p v
  | ScalarValue.viewport v => SetViewport p v

/-- The state group of a scalar value. -/
def ScalarValue.group : ScalarValue → Group
  | ScalarValue.cullMode _ => Group.cullMode
  | ScalarValue.fillMode _ => Group.fillMode
  | ScalarValue.primitiveTopology _ => Group.primitiveTopology
  | ScalarValue.alphaBlending _ => Group.alphaBlending
  | ScalarValue.viewport _ => Group.viewport

/-- The cache already stores the scalar value. -/
def ScalarValue.storedIn (p : RHI_Pipeline) : ScalarValue → Bool
  | ScalarValue.cullMode v => decide (p.m_cullMode = v)
  | ScalarValue.fillMode v => decide (p.m_fillMode = v)
  | ScalarValue.primitiveTopology v => decide (p.m_primitiveTopology = v)
  | ScalarValue.alphaBlending v => decide (p.m_alphaBlending = v)
  | ScalarValue.viewport v => decide (p.m_viewport = v)

/-- A native call is one of the two clears. -/
def DeviceCall.isClear : DeviceCall → Bool
  | DeviceCall.ClearRenderTarget _ _ => true
  | DeviceCall.ClearDepthStencil _ _ _ _ => true
  | _ => false

/-- A native call is one of the two draws. -/
def DeviceCall.isDraw : DeviceCall → Bool
  | DeviceCall.Draw _ => true
  | DeviceCall.DrawIndexed _ _ _ => true
  | _ => false

/-- A native call is `Set_RenderTargets`. -/
def DeviceCall.isSetRenderTargets : DeviceCall → Bool
  | DeviceCall.Set_RenderTargets _ _ _ => true
  | _ => false

/-- A public call is one of the three `SetRenderTarget` overloads. -/
def Op.isSetRenderTarget : Op → Bool
  | Op.SetRenderTarget_RenderTexture _ _ _ => true
  | Op.SetRenderTarget_View _ _ _ => true
  | Op.SetRenderTarget_Views _ _ _ => true
  | _ => false

/-- A run of public calls from `p`, each with the answer of the native side:
the trace of each call in order and the final cache, or `none` when a call
dereferences a null pointer. -/
def run (p : RHI_Pipeline) : List (Op × Native) → Option (List (List DeviceCall) × RHI_Pipeline)
  | [] => some ([], p)
  | (op, n) :: rest =>
    match exec op n p with
    | none => none
    | some r =>
      match run r.p rest with
      | none => none
      | some (traces, q) => some (r.calls :: traces, q)

/-! ## Concrete caches used as test inputs -/

/-- A device for the examples. -/
def device0 : RHI_Device := RHI_Device.mk 1

/-- The cache the constructor leaves when given `device0`. -/
def cache0 : RHI_Pipeline := RHI_Pipeline.initial (some device0)

/-- A native side on which every operation succeeds, without `REVERSE_Z`. -/
def native0 : Native := Native.mk false true true true

/-- The cache left by `SetRenderTarget({nullptr}, nullptr, true)` on `cache0`: the
render-target group is dirty, its sequence is empty and a clear is requested. -/
def cacheNoTarget : RHI_Pipeline := (SetRenderTarget_Views cache0 [0] 0 true).2

/-- The cache left by `SetCullMode(Cull_Front)` on `cache0`. -/
def cacheFront : RHI_Pipeline := SetCullMode cache0 Cull_Mode.Cull_Front

/-- The groups of two calls are in the order of `Bind()`. -/
def InBindOrder (a b : DeviceCall) : Prop :=
  ∃ g h, a.group = some g ∧ b.group = some h ∧ g.rank ≤ h.rank

/-- A cache with an index buffer, a vertex buffer and an alpha-blending change
pending: `SetIndexBuffer`, `SetVertexBuffer` and `SetAlphaBlending(true)` on
`cache0`. -/
def cacheBuffers : RHI_Pipeline :=
  SetAlphaBlending
    (SetVertexBuffer (SetIndexBuffer cache0 (some (RHI_IndexBuffer.mk 3))).2
      (some (RHI_VertexBuffer.mk 4))).2 true

/-- What holds of every reachable cache: it has a device, no dirty shader or
buffer group lacks its resource, and a clear is requested only while the
render-target group is dirty. -/
def Inv (p : RHI_Pipeline) : Prop :=
  p.m_rhiDevice ≠ none ∧ DerefSafe p ∧
  (p.m_renderTargetsClear = true → p.m_renderTargetsDirty = true)

/-- A trace holds a clear call. -/
def hasClear (calls : List DeviceCall) : Bool :=
  calls.any DeviceCall.isClear

/-! ## The values last committed to the device -/

/-- The five scalar state groups. -/
inductive ScalarAspect where
  | cullMode
  | fillMode
  | primitiveTopology
  | alphaBlending
  | viewport
  deriving DecidableEq, Repr

/-- The state group of a scalar aspect. -/
def ScalarAspect.group : ScalarAspect → Group
  | ScalarAspect.cullMode => Group.cullMode
  | ScalarAspect.fillMode => Group.fillMode
  | ScalarAspect.primitiveTopology => Group.primitiveTopology
  | ScalarAspect.alphaBlending => Group.alphaBlending
  | ScalarAspect.viewport => Group.viewport

/-- For each scalar state group, the value last passed to the Device Adapter for
that group, `none` while no call of the group has been made. -/
structure Committed where
  cullMode : Option Cull_Mode
  fillMode : Option Fill_Mode
  primitiveTopology : Option PrimitiveTopology_Mode
  alphaBlending : Option Bool
  viewport : Option RHI_Viewport
  deriving DecidableEq, Repr

/-- Nothing has been committed yet. -/
def Committed.nothing : Committed :=
  Committed.mk none none none none none

/-- The effect of one native call on the values last committed. -/
def Committed.apply (c : Committed) : DeviceCall → Committed
  | DeviceCall.Set_CullMode m => { c with cullMode := some m }
  | DeviceCall.Set_FillMode m => { c with fillMode := some m }
  | DeviceCall.Set_PrimitiveTopology m => { c with primitiveTopology := some m }
  | DeviceCall.Set_AlphaBlendingEnabled b => { c with alphaBlending := some b }
  | DeviceCall.Set_Viewport v => { c with viewport := some v }
  | _ => c

/-- The effect of a trace on the values last committed. -/
def Committed.applyAll (c : Committed) (calls : List DeviceCall) : Committed :=
  calls.foldl Committed.apply c

/-- A value has been committed for the aspect and the stored value differs from
it. -/
def ScalarAspect.differs (c : Committed) (p : RHI_Pipeline) : ScalarAspect → Bool
  | ScalarAspect.cullMode =>
      match c.cullMode with
      | some v => decide (v ≠ p.m_cullMode)
      | none => false
  | ScalarAspect.fillMode =>
      match c.fillMode with
      | some v => decide (v ≠ p.m_fillMode)
      | none => false
  | ScalarAspect.primitiveTopology =>
      match c.primitiveTopology with
      | some v => decide (v ≠ p.m_primitiveTopology)
      | none => false
  | ScalarAspect.alphaBlending =>
      match c.alphaBlending with
      | some v => decide (v ≠ p.m_alphaBlending)
      | none => false
  | ScalarAspect.viewport =>
      match c.viewport with
      | some v => decide (v ≠ p.m_viewport)
      | none => false

/-- The cache states reachable through the public interface, each with the values
last committed to the device along the way. -/
inductive ReachableWith : RHI_Pipeline → Committed → Prop where
  | construct (rhiDevice : Option RHI_Device) (p : RHI_Pipeline) (calls : List DeviceCall) :
      RHI_Pipeline.construct rhiDevice = some (p, calls) →
      ReachableWith p (Committed.nothing.applyAll calls)
  | step (op : Op) (n : Native) (p : RHI_Pipeline) (c : Committed) (r : Outcome) :
      ReachableWith p c → exec op n p = some r → ReachableWith r.p (c.applyAll r.calls)

/-- A cache whose fill mode is solid again but still marked dirty:
`SetFillMode(Fill_Wireframe); SetFillMode(Fill_Solid)` on `cache0`. -/
def cacheFillToggled : RHI_Pipeline :=
  SetFillMode (SetFillMode cache0 Fill_Mode.Fill_Wireframe) Fill_Mode.Fill_Solid

/-- A shader with both stages, identity 11 and an input layout. -/
def shader0 : RHI_Shader :=
  RHI_Shader.mk true true 11 (some (RHI_InputLayout.mk 2 30)) 31 32

/-- The link between the cache and the values last committed: whenever a value
has been committed for a scalar group and the stored value differs from it, the
group is dirty. -/
def CommittedInv (p : RHI_Pipeline) (c : Committed) : Prop :=
  ∀ a : ScalarAspect, a.differs c p = true → a.group.dirty p = true

/-- The stored value and the dirty bit of the five scalar groups. -/
def scalarPart (p : RHI_Pipeline) :
    (Cull_Mode × Bool) × (Fill_Mode × Bool) × (PrimitiveTopology_Mode × Bool) ×
      (Bool × Bool) × (RHI_Viewport × Bool) :=
  ((p.m_cullMode, p.m_cullModeDirty), (p.m_fillMode, p.m_fillModeDirty),
   (p.m_primitiveTopology, p.m_primitiveTopologyDirty),
   (p.m_alphaBlending, p.m_alphaBlendingDirty), (p.m_viewport, p.m_viewportDirty))

/-- The values committed once `Set_CullMode(Cull_Front)` has been the only scalar
call. -/
def committedFront : Committed :=
  { Committed.nothing with cullMode := some Cull_Mode.Cull_Front }

/-- The cache left by `SetCullMode(Cull_Front); Bind(); SetCullMode(Cull_Back)` on
`cache0`. -/
def cacheBackAgain : RHI_Pipeline :=
  SetCullMode (Bind_commit cacheFront) Cull_Mode.Cull_Back

/-- The cache left by `SetCullMode(Cull_Front); Bind(); SetCullMode(Cull_Back);
SetCullMode(Cull_Front)` on `cache0`: the stored cull mode is again the one last
committed. -/
def cacheToggled : RHI_Pipeline :=
  SetCullMode cacheBackAgain Cull_Mode.Cull_Front

/-! ## Pending sequences -/

/-- A sequence of successful `SetConstantBuffer` calls, each with a non-null
buffer, a slot and a scope, in order. -/
def SetConstantBuffers (p : RHI_Pipeline) :
    List (RHI_ConstantBuffer × Nat × Buffer_Scope) → RHI_Pipeline
  | [] => p
  | (constantBuffer, slot, scope) :: rest =>
    SetConstantBuffers (SetConstantBuffer p (some constantBuffer) slot scope).2 rest

/-- A non-empty pending texture, sampler or constant-buffer sequence has its
group's dirty bit set. -/
def PendingInv (p : RHI_Pipeline) : Prop :=
  (p.m_textures ≠ [] → p.m_texturesDirty = true) ∧
  (p.m_samplers ≠ [] → p.m_samplersDirty = true) ∧
  (p.m_constantBuffers ≠ [] → p.m_constantBufferDirty = true)

/-- A public call is a `Set*` call: any call but `Bind`, `Draw`, `DrawIndexed` and
`Reset`. -/
def Op.isSet : Op → Bool
  | Op.DrawIndexed _ _ _ => false
  | Op.Draw _ => false
  | Op.Bind => false
  | Op.Reset => false
  | _ => true

/-- The entries a public call sets in the pending texture sequence. -/
def Op.textures : Op → List Handle
  | Op.SetTexture_RenderTexture t => [renderTextureHandle t]
  | Op.SetTexture t => [textureHandle t]
  | Op.SetTexture_Ptr t => [textureHandle t]
  | _ => []

/-- The entries a public call sets in the pending sampler sequence. -/
def Op.samplers : Op → List Handle
  | Op.SetSampler (some s) => [s.buffer]
  | _ => []

/-- The entries a public call sets in the pending constant-buffer sequence. -/
def Op.constantBuffers : Op → List ConstantBuffer
  | Op.SetConstantBuffer (some cb) slot scope => [ConstantBuffer.mk cb.buffer slot scope]
  | _ => []

/-- The `Set_ConstantBuffers` call `Bind()` issues for a pending entry. -/
def ConstantBuffer.call (constantBuffer : ConstantBuffer) : DeviceCall :=
  DeviceCall.Set_ConstantBuffers constantBuffer.slot 1 constantBuffer.scope
    [constantBuffer.buffer]

/-- The cache left by `SetRenderTarget({5, 8}, depthStencilView, clear)` on
`cache0`: the render-target group is dirty with the two views 5 and 8. -/
def cacheTarget (depthStencilView : Handle) (clear : Bool) : RHI_Pipeline :=
  (SetRenderTarget_Views cache0 [5, 8] depthStencilView clear).2

/-- A native side on which every operation succeeds, with `REVERSE_Z`. -/
def nativeReverseZ : Native := Native.mk true true true true

/-- The `float` nearest to one tenth, `0.1f`. -/
def tenth : Rat := 13421773 / 134217728

/-- The cache `cacheTarget 6 true` after `SetViewport` with a viewport of maximum
depth `0.1f`. -/
def cacheTargetTenth : RHI_Pipeline :=
  SetViewport (cacheTarget 6 true) (RHI_Viewport.mk 0 0 800 600 0 tenth)

/-- A shader with both stages and identity 11 that has no input layout:
`GetInputLayout()` gives the null pointer. -/
def shaderNoLayout : RHI_Shader := RHI_Shader.mk true true 11 none 31 32

/-! ## The subsystem list of `Context` (`Runtime/Core/Context.h`) -/

/-- The member `m_subsystems` of `Context`: the registered subsystems, as
pointers. -/
structure Context where
  m_subsystems : List Handle
  deriving DecidableEq, Repr

/-- The largest value of `size_t`, the type `auto` gives the loop counter of
`RemoveSubsystems`; 64 bits wide. -/
def SIZE_MAX : Nat := 2 ^ 64 - 1

/-- How a run of the loop of `RemoveSubsystems` ends: the function returns, the
vector is indexed outside its range, or the loop is still running when the steps
granted are used up.  Each carries the objects deleted so far, in order. -/
inductive LoopEnd where
  | returned (m_subsystems : List Handle) (deleted : List Handle)
  | out_of_range (i : Nat) (deleted : List Handle)
  | running (i : Nat) (m_subsystems : List Handle) (deleted : List Handle)
  deriving DecidableEq, Repr

/-- Modelled from the spec: `SafeDelete` of EngineDefs.h, which is absent.  The
object is deleted when the pointer is not null and the pointer is set to null:
the pointer afterwards and the objects deleted. -/
def SafeDelete (ptr : Handle) : Handle × List Handle :=
  if ptr ≠ 0 then (0, [ptr]) else (ptr, [])

/-- `Context::RegisterSubsystem`, `subsystem` being the pointer `new T(this)`
gives. -/
def Context.RegisterSubsystem (c : Context) (subsystem : Handle) : Context :=
  { c with m_subsystems := c.m_subsystems ++ [subsystem] }

/-- The loop `for (...; i >= 0; i--) SafeDelete(m_subsystems[i]);` of
`RemoveSubsystems`, from counter `i`, for at most `steps` evaluations of its
condition.  The counter is a `size_t`: the condition compares an unsigned value
with zero and the decrement wraps around. -/
def RemoveSubsystems_loop : Nat → Nat → List Handle → List Handle → LoopEnd
  | 0, i, m_subsystems, deleted => LoopEnd.running i m_subsystems deleted
  | steps + 1, i, m_subsystems, deleted =>
    if i ≥ 0 then
      match m_subsystems[i]? with
      | none => LoopEnd.out_of_range i deleted
      | some ptr =>
        RemoveSubsystems_loop steps ((i + 2 ^ 64 - 1) % 2 ^ 64)
          (m_subsystems.set i (SafeDelete ptr).1) (deleted ++ (SafeDelete ptr).2)
    else LoopEnd.returned m_subsystems deleted

/-- `Context::RemoveSubsystems`, for at most `steps` evaluations of the loop
condition: the counter starts at `m_subsystems.size() - 1`, computed in
`size_t`. -/
def Context.RemoveSubsystems (c : Context) (steps : Nat) : LoopEnd :=
  RemoveSubsystems_loop steps ((c.m_subsystems.length + 2 ^ 64 - 1) % 2 ^ 64) c.m_subsystems []

end Directus

/-! The swap chain (`Runtime/RHI/Vulkan/Vulkan_SwapChain.cpp`).

The swap chain is a record of the members the source file reads and writes.  Every
call that reaches the native API, or a helper of `vulkan_common` that wraps one,
is recorded in order in a list of `VkCall`s; what the native side answers is an
argument of the operation.  A `uint32_t` is a natural number below `2^32`, the
wrap-around being written out where the source adds to one. -/

namespace Spartan

/-- A native handle (`void*`); `0` is `nullptr`. -/
abbrev Handle := Nat

/-- What the swap chain reads of an `RHI_Context`: the logical device handle. -/
structure RHI_Context where
  device : Handle
  deriving DecidableEq, Repr

/-- What the swap chain reads of an `RHI_Device`: `GetContextRhi()`. -/
structure RHI_Device where
  context_rhi : RHI_Context
  deriving DecidableEq, Repr

/-- One call that reaches the native side, with the arguments that matter. -/
inductive VkCall where
  | vkCreateWin32SurfaceKHR (window_handle : Handle)
  | vkGetPhysicalDeviceSurfaceSupportKHR (surface : Handle)
  | surface_capabilities (surface : Handle)
  | surface_detect_format_and_color_space (surface : Handle)
  | surface_set_present_mode (surface : Handle) (flags : Nat)
  | vkCreateSwapchainKHR (surface : Handle) (minImageCount : Nat) (width height : Nat)
  | vkGetSwapchainImagesKHR (swap_chain : Handle)
  | debug_set_image_name (image : Handle)
  | image_view_create (image : Handle)
  | render_pass_create
  | frame_buffer_create (render_pass : Handle) (attachment : Handle) (width height : Nat)
  | vkCreateSemaphore
  | vkDestroySemaphore (semaphore : Handle)
  | frame_buffer_destroy (frame_buffer : Handle)
  | image_view_destroy (image_view : Handle)
  | vkDestroySwapchainKHR (swap_chain : Handle)
  | vkDestroySurfaceKHR (surface : Handle)
  | vkDestroyCommandPool (command_pool : Handle)
  | vkDestroyRenderPass (render_pass : Handle)
  | vkCreateCommandPool
  | vkResetCommandPool (command_pool : Handle)
  | vkAcquireNextImageKHR (swap_chain : Handle) (semaphore : Handle)
  | vkQueuePresentKHR (swap_chain : Handle) (image_index : Nat)
  deriving DecidableEq, Repr

/-- What the native side answers during one `_Vulkan_SwapChain::create`: for each
step whether it succeeded (`check_result`, i.e. `VK_SUCCESS`) and the handle it
wrote, the surface capabilities, and the images of the chain.  Per-image and
per-slot answers are indexed by the loop counter. -/
structure CreateAnswers where
  surface_created : Bool
  surface : Handle
  support_queried : Bool
  present_support : Bool
  minImageExtent_width : Nat
  maxImageExtent_width : Nat
  minImageExtent_height : Nat
  maxImageExtent_height : Nat
  swap_chain_created : Bool
  swap_chain : Handle
  image_count : Nat
  images : Nat → Handle
  image_view : Nat → Bool × Handle
  render_pass_created : Bool
  render_pass : Handle
  frame_buffer : Nat → Bool × Handle
  semaphore : Nat → Bool × Handle

/-- What `vkAcquireNextImageKHR` answers: `VK_SUCCESS` or `VK_SUBOPTIMAL_KHR`, both
of which write the image index, or any other code (an error, a timeout), which
acquires no image and writes nothing. -/
inductive AcquireResult where
  | VK_SUCCESS (image_index : Nat)
  | VK_SUBOPTIMAL_KHR (image_index : Nat)
  | failure
  deriving DecidableEq, Repr

/-- The native call reported `VK_SUCCESS`. -/
def AcquireResult.succeeded : AcquireResult → Bool
  | AcquireResult.VK_SUCCESS _ => true
  | _ => false

/-- The presentation objects `create` and `destroy` receive by reference. -/
structure ChainObjects where
  render_pass : Handle
  surface : Handle
  swap_chain_view : Handle
  image_views : List Handle
  frame_buffers : List Handle
  semaphores_image_acquired : List Handle
  deriving DecidableEq, Repr

/-- The members of `RHI_SwapChain` that Vulkan_SwapChain.cpp reads and writes.
`m_cmd_lists` holds the index each command list was made with. -/
structure RHI_SwapChain where
  m_initialized : Bool
  m_format : Nat
  m_rhi_device : Option RHI_Device
  m_buffer_count : Nat
  m_width : Nat
  m_height : Nat
  m_window_handle : Handle
  m_flags : Nat
  m_max_resolution : Nat
  m_render_pass : Handle
  m_surface : Handle
  m_swap_chain_view : Handle
  m_image_views : List Handle
  m_frame_buffers : List Handle
  m_image_acquired_semaphores : List Handle
  m_cmd_pool : Handle
  m_cmd_lists : List Nat
  m_image_index : Nat
  m_image_acquired : Bool
  deriving DecidableEq, Repr

/-- The outcome of a call on the swap chain: the value returned, the swap chain
afterwards and the native calls issued, in order. -/
structure Outcome where
  ret : Bool
  s : RHI_SwapChain
  calls : List VkCall
  deriving DecidableEq, Repr

/-- The presentation objects of a swap chain, as passed to `create` and
`destroy`. -/
def RHI_SwapChain.objects (s : RHI_SwapChain) : ChainObjects :=
  { render_pass := s.m_render_pass
    surface := s.m_surface
    swap_chain_view := s.m_swap_chain_view
    image_views := s.m_image_views
    frame_buffers := s.m_frame_buffers
    semaphores_image_acquired := s.m_image_acquired_semaphores }

/-- The swap chain with the presentation objects written back through the
references. -/
def RHI_SwapChain.withObjects (s : RHI_SwapChain) (o : ChainObjects) : RHI_SwapChain :=
  { s with
    m_render_pass := o.render_pass
    m_surface := o.surface
    m_swap_chain_view := o.swap_chain_view
    m_image_views := o.image_views
    m_frame_buffers := o.frame_buffers
    m_image_acquired_semaphores := o.semaphores_image_acquired }

/-- Modelled from the spec: `Math::Clamp` of MathHelper.h, which is absent; a value
brought into the range between a lower and an upper bound. -/
def Clamp (x lo hi : Nat) : Nat :=
  if x < lo then lo else if x > hi then hi else x

/-- The effect of `std::vector::resize(n)` on a vector of handles: cut to `n`
entries, or filled up with null handles. -/
def resize (v : List Handle) (n : Nat) : List Handle :=
  v.take n ++ List.replicate (n - v.length) 0

/-- The loop `// Image views` of `create`, from counter `i` with `count` images
left: each image is named and given a view, written to entry `i`; the first
failure leaves the loop with `false`. -/
def create_image_views (a : CreateAnswers) :
    Nat → Nat → List Handle → List VkCall → Bool × List Handle × List VkCall
  | 0, _, image_views, calls => (true, image_views, calls)
  | count + 1, i, image_views, calls =>
    let calls1 := calls ++
      [VkCall.debug_set_image_name (a.images i), VkCall.image_view_create (a.images i)]
    if (a.image_view i).1 then
      create_image_views a count (i + 1) (image_views.set i (a.image_view i).2) calls1
    else (false, image_views, calls1)

/-- The loop `// Frame buffers` of `create`, from counter `i` with `count` images
left: each frame buffer is made from the render pass and the view at entry `i`;
the first failure leaves the loop with `false`. -/
def create_frame_buffers (a : CreateAnswers) (render_pass : Handle)
    (image_views : List Handle) (width height : Nat) :
    Nat → Nat → List Handle → List VkCall → Bool × List Handle × List VkCall
  | 0, _, frame_buffers, calls => (true, frame_buffers, calls)
  | count + 1, i, frame_buffers, calls =>
    let calls1 := calls ++
      [VkCall.frame_buffer_create render_pass (image_views.getD i 0) width height]
    if (a.frame_buffer i).1 then
      create_frame_buffers a render_pass image_views width height count (i + 1)
        (frame_buffers.set i (a.frame_buffer i).2) calls1
    else (false, frame_buffers, calls1)

/-- The last loop of `create`, from counter `i` with `count` slots left: a null
entry is appended to the ring and `semaphore::create` writes the new semaphore
into it when it succeeds; its result is not read. -/
def create_semaphores (a : CreateAnswers) :
    Nat → Nat → List Handle → List VkCall → List Handle × List VkCall
  | 0, _, semaphores, calls => (semaphores, calls)
  | count + 1, i, semaphores, calls =>
    create_semaphores a count (i + 1)
      (semaphores ++ [if (a.semaphore i).1 then (a.semaphore i).2 else 0])
      (calls ++ [VkCall.vkCreateSemaphore])

/-- `_Vulkan_SwapChain::create`.  A failed step returns `false` at once; the
surface and the swap chain handle are written back only at the end. -/
def create (a : CreateAnswers) (width height buffer_count flags : Nat)
    (window_handle : Handle) (o : ChainObjects) : Bool × ChainObjects × List VkCall :=
  let calls1 := [VkCall.vkCreateWin32SurfaceKHR window_handle]
  if !a.surface_created then (false, o, calls1)
  else
    let calls2 := calls1 ++ [VkCall.vkGetPhysicalDeviceSurfaceSupportKHR a.surface]
    if !a.support_queried then (false, o, calls2)
    else if !a.present_support then (false, o, calls2)
    else
      let extent_width := Clamp width a.minImageExtent_width a.maxImageExtent_width
      let extent_height := Clamp height a.minImageExtent_height a.maxImageExtent_height
      let calls3 := calls2 ++
        [VkCall.surface_capabilities a.surface,
         VkCall.surface_detect_format_and_color_space a.surface,
         VkCall.surface_set_present_mode a.surface flags,
         VkCall.vkCreateSwapchainKHR a.surface buffer_count extent_width extent_height]
      if !a.swap_chain_created then (false, o, calls3)
      else
        let calls4 := calls3 ++
          [VkCall.vkGetSwapchainImagesKHR a.swap_chain,
           VkCall.vkGetSwapchainImagesKHR a.swap_chain]
        let views := create_image_views a a.image_count 0
          (resize o.image_views a.image_count) calls4
        let o1 := { o with image_views := views.2.1 }
        if !views.1 then (false, o1, views.2.2)
        else
          let calls5 := views.2.2 ++ [VkCall.render_pass_create]
          if !a.render_pass_created then (false, o1, calls5)
          else
            let o2 := { o1 with render_pass := a.render_pass }
            let buffers := create_frame_buffers a o2.render_pass o2.image_views
              extent_width extent_height a.image_count 0
              (resize o2.frame_buffers a.image_count) calls5
            let o3 := { o2 with frame_buffers := buffers.2.1 }
            if !buffers.1 then (false, o3, buffers.2.2)
            else
              let ring := create_semaphores a buffer_count 0 o3.semaphores_image_acquired
                buffers.2.2
              (true,
               { o3 with
                 surface := a.surface
                 swap_chain_view := a.swap_chain
                 semaphores_image_acquired := ring.1 },
               ring.2)

/-- The non-null handles of a vector, in order: the ones a destroy helper that
skips null handles passes to the native side. -/
def nonNull (v : List Handle) : List Handle :=
  v.filter (fun h => decide (h ≠ 0))

/-- `_Vulkan_SwapChain::destroy`.  `semaphore::destroy` skips a null handle.
Modelled from the spec: `frame_buffer::destroy` and `image_view::destroy` belong
to a version of Vulkan_Common.h that is absent; as the spec has it, a null handle
is skipped, and the vector of image views is left empty. -/
def destroy (o : ChainObjects) : ChainObjects × List VkCall :=
  let calls1 := (nonNull o.semaphores_image_acquired).map VkCall.vkDestroySemaphore
  let calls2 := (nonNull o.frame_buffers).map VkCall.frame_buffer_destroy
  let calls3 := (nonNull o.image_views).map VkCall.image_view_destroy
  let calls4 :=
    if o.swap_chain_view ≠ 0 then [VkCall.vkDestroySwapchainKHR o.swap_chain_view] else []
  let calls5 := if o.surface ≠ 0 then [VkCall.vkDestroySurfaceKHR o.surface] else []
  ({ o with
     semaphores_image_acquired := []
     frame_buffers := []
     image_views := []
     swap_chain_view := 0
     surface := 0 },
   calls1 ++ calls2 ++ calls3 ++ calls4 ++ calls5)

/-- Modelled from the spec: the member initialisers of RHI_SwapChain.h, which is
absent.  The chain starts uninitialized, with no image acquired, null handles,
empty vectors and image index 0; the largest resolution is a parameter. -/
def RHI_SwapChain.initial (max_resolution : Nat) : RHI_SwapChain where
  m_initialized := false
  m_format := 0
  m_rhi_device := none
  m_buffer_count := 0
  m_width := 0
  m_height := 0
  m_window_handle := 0
  m_flags := 0
  m_max_resolution := max_resolution
  m_render_pass := 0
  m_surface := 0
  m_swap_chain_view := 0
  m_image_views := []
  m_frame_buffers := []
  m_image_acquired_semaphores := []
  m_cmd_pool := 0
  m_cmd_lists := []
  m_image_index := 0
  m_image_acquired := false

/-- `RHI_SwapChain::RHI_SwapChain`.  `is_window` is the answer of `IsWindow`,
`pool` the answer of `vkCreateCommandPool`.  A failed validation returns before
any member is written and before any native call. -/
def RHI_SwapChain.construct (max_resolution : Nat) (window_handle : Handle)
    (is_window : Bool) (rhi_device : Option RHI_Device)
    (width height format buffer_count flags : Nat) (a : CreateAnswers)
    (pool : Bool × Handle) : RHI_SwapChain × List VkCall :=
  let s := RHI_SwapChain.initial max_resolution
  match rhi_device with
  | none => (s, [])
  | some dev =>
    if dev.context_rhi.device = 0 then (s, [])
    else if window_handle = 0 ∨ is_window = false then (s, [])
    else if width = 0 ∨ width > s.m_max_resolution ∨ height = 0 ∨
        height > s.m_max_resolution then (s, [])
    else
      let s1 := { s with
        m_format := format
        m_rhi_device := some dev
        m_buffer_count := buffer_count
        m_width := width
        m_height := height
        m_window_handle := window_handle
        m_flags := flags }
      let created := create a s1.m_width s1.m_height s1.m_buffer_count s1.m_flags
        s1.m_window_handle s1.objects
      let s2 := { s1.withObjects created.2.1 with m_initialized := created.1 }
      let s3 := { s2 with m_cmd_pool := if pool.1 then pool.2 else s2.m_cmd_pool }
      ({ s3 with m_cmd_lists := s3.m_cmd_lists ++ List.range s3.m_buffer_count },
       created.2.2 ++ [VkCall.vkCreateCommandPool])

/-- `RHI_SwapChain::Resize`.  With unchanged dimensions it returns `true` at once;
otherwise `m_rhi_device` is dereferenced, the presentation objects are destroyed
and created again. -/
def Resize (s : RHI_SwapChain) (width height : Nat) (a : CreateAnswers) : Option Outcome :=
  if s.m_width = width ∧ s.m_height = height then some (Outcome.mk true s [])
  else
    let s1 := { s with m_width := width, m_height := height }
    match s1.m_rhi_device with
    | none => none
    | some _ =>
      let destroyed := destroy s1.objects
      let created := create a s1.m_width s1.m_height s1.m_buffer_count s1.m_flags
        s1.m_window_handle destroyed.1
      let s2 := { s1.withObjects created.2.1 with m_initialized := created.1 }
      some (Outcome.mk s2.m_initialized s2 (destroyed.2 ++ created.2.2))

/-- The command pool is reset before the acquire: the test
`m_image_index + 1 > m_buffer_count` of `AcquireNextImage`, in `uint32_t`
arithmetic. -/
def resetsCommandPool (s : RHI_SwapChain) : Bool :=
  decide ((s.m_image_index + 1) % 2 ^ 32 > s.m_buffer_count)

/-- The local `index` of `AcquireNextImage`: `0` when `m_image_acquired` is false,
else `(m_image_index + 1) % m_buffer_count` in `uint32_t` arithmetic; a remainder
by zero has no defined result. -/
def semaphoreSlot (s : RHI_SwapChain) : Option Nat :=
  if !s.m_image_acquired then some 0
  else if s.m_buffer_count = 0 then none
  else some ((s.m_image_index + 1) % 2 ^ 32 % s.m_buffer_count)

/-- `RHI_SwapChain::AcquireNextImage`.  `m_rhi_device` is dereferenced, the ring
is indexed without a bounds test, and `m_image_acquired` takes the checked result
of the native call, which writes `m_image_index` when it acquires an image. -/
def AcquireNextImage (s : RHI_SwapChain) (a : AcquireResult) : Option Outcome :=
  match s.m_rhi_device with
  | none => none
  | some _ =>
    let calls1 :=
      if resetsCommandPool s then [VkCall.vkResetCommandPool s.m_cmd_pool] else []
    match semaphoreSlot s with
    | none => none
    | some index =>
      match s.m_image_acquired_semaphores[index]? with
      | none => none
      | some semaphore =>
        let calls2 := calls1 ++ [VkCall.vkAcquireNextImageKHR s.m_swap_chain_view semaphore]
        match a with
        | AcquireResult.VK_SUCCESS image_index =>
          some (Outcome.mk true
            { s with m_image_acquired := true, m_image_index := image_index } calls2)
        | AcquireResult.VK_SUBOPTIMAL_KHR image_index =>
          some (Outcome.mk false
            { s with m_image_acquired := false, m_image_index := image_index } calls2)
        | AcquireResult.failure =>
          some (Outcome.mk false { s with m_image_acquired := false } calls2)

/-- `RHI_SwapChain::Present`.  `present_ok` is the checked result of
`vkQueuePresentKHR`.  No member is written. -/
def Present (s : RHI_SwapChain) (present_ok : Bool) : Option Outcome :=
  if !s.m_image_acquired then some (Outcome.mk false s [])
  else
    match s.m_rhi_device with
    | none => none
    | some _ =>
      some (Outcome.mk present_ok s
        [VkCall.vkQueuePresentKHR s.m_swap_chain_view s.m_image_index])

/-- A run of `AcquireNextImage` calls, one per native answer: the trace of each
call in order and the final swap chain. -/
def acquireAll (s : RHI_SwapChain) :
    List AcquireResult → Option (List (List VkCall) × RHI_SwapChain)
  | [] => some ([], s)
  | a :: rest =>
    match AcquireNextImage s a with
    | none => none
    | some r =>
      match acquireAll r.s rest with
      | none => none
      | some (traces, s2) => some (r.calls :: traces, s2)

/-- A run of `Resize` calls with the same dimensions, one per native answer: the
calls issued in all and the final swap chain. -/
def resizeAll (s : RHI_SwapChain) (width height : Nat) :
    List CreateAnswers → Option (List VkCall × RHI_SwapChain)
  | [] => some ([], s)
  | a :: rest =>
    match Resize s width height a with
    | none => none
    | some r =>
      match resizeAll r.s width height rest with
      | none => none
      | some (calls, s2) => some (r.calls ++ calls, s2)

/-- A native call is `vkResetCommandPool`. -/
def VkCall.isResetCommandPool : VkCall → Bool
  | VkCall.vkResetCommandPool _ => true
  | _ => false

/-! Concrete swap chains used as test inputs -/

/-- A native side on which every creation step succeeds, with two images. -/
def answers0 : CreateAnswers where
  surface_created := true
  surface := 50
  support_queried := true
  present_support := true
  minImageExtent_width := 1
  maxImageExtent_width := 4096
  minImageExtent_height := 1
  maxImageExtent_height := 4096
  swap_chain_created := true
  swap_chain := 60
  image_count := 2
  images := fun i => 100 + i
  image_view := fun i => (true, 200 + i)
  render_pass_created := true
  render_pass := 70
  frame_buffer := fun i => (true, 300 + i)
  semaphore := fun i => (true, 400 + i)

/-- A device with a non-null logical device handle. -/
def deviceVk0 : RHI_Device := RHI_Device.mk (RHI_Context.mk 7)

/-- The swap chain the constructor leaves for an 800x600 window with two
buffers, every native step succeeding. -/
def chain0 : RHI_SwapChain :=
  (RHI_SwapChain.construct 16384 9 true (some deviceVk0) 800 600 0 2 0 answers0 (true, 80)).1

/-- The swap chain `chain0` after a first successful acquire of image 0. -/
def chainAcquired : RHI_SwapChain :=
  { chain0 with m_image_acquired := true, m_image_index := 0 }

/-! Teardown -/

/-- `RHI_SwapChain::~RHI_SwapChain`.  `m_rhi_device` is dereferenced without a null
test.  After `destroy` the command lists are dropped (what the destructor of an
`RHI_CommandList` does is not part of this file and is left out);
`command::destroy` passes the pool to `vkDestroyCommandPool` without testing it
for null, whereas `render_pass::destroy` returns at once on a null handle. -/
def RHI_SwapChain.destruct (s : RHI_SwapChain) : Option (RHI_SwapChain × List VkCall) :=
  match s.m_rhi_device with
  | none => none
  | some _ =>
    let destroyed := destroy s.objects
    let s1 : RHI_SwapChain := { s.withObjects destroyed.1 with m_cmd_lists := [] }
    let calls2 := [VkCall.vkDestroyCommandPool s1.m_cmd_pool]
    let s2 : RHI_SwapChain := { s1 with m_cmd_pool := 0 }
    let calls3 :=
      if s2.m_render_pass ≠ 0 then [VkCall.vkDestroyRenderPass s2.m_render_pass] else []
    let s3 : RHI_SwapChain := { s2 with m_render_pass := 0 }
    some (s3, destroyed.2 ++ calls2 ++ calls3)

/-- A native call destroys an object. -/
def VkCall.isDestroy : VkCall → Bool
  | VkCall.vkDestroySemaphore _ => true
  | VkCall.frame_buffer_destroy _ => true
  | VkCall.image_view_destroy _ => true
  | VkCall.vkDestroySwapchainKHR _ => true
  | VkCall.vkDestroySurfaceKHR _ => true
  | VkCall.vkDestroyCommandPool _ => true
  | VkCall.vkDestroyRenderPass _ => true
  | _ => false

/-- A native call destroys an object through a null handle. -/
def VkCall.destroysNull : VkCall → Bool
  | VkCall.vkDestroySemaphore h => decide (h = 0)
  | VkCall.frame_buffer_destroy h => decide (h = 0)
  | VkCall.image_view_destroy h => decide (h = 0)
  | VkCall.vkDestroySwapchainKHR h => decide (h = 0)
  | VkCall.vkDestroySurfaceKHR h => decide (h = 0)
  | VkCall.vkDestroyCommandPool h => decide (h = 0)
  | VkCall.vkDestroyRenderPass h => decide (h = 0)
  | _ => false

/-- The destroy calls of the five presentation objects, in the order semaphores,
frame buffers, image views, swap chain, surface, each for the non-null handles
only. -/
def teardownCalls (o : ChainObjects) : List VkCall :=
  (nonNull o.semaphores_image_acquired).map VkCall.vkDestroySemaphore ++
  (nonNull o.frame_buffers).map VkCall.frame_buffer_destroy ++
  (nonNull o.image_views).map VkCall.image_view_destroy ++
  (if o.swap_chain_view ≠ 0 then [VkCall.vkDestroySwapchainKHR o.swap_chain_view] else []) ++
  (if o.surface ≠ 0 then [VkCall.vkDestroySurfaceKHR o.surface] else [])

/-- Every step of `create` whose result `create` tests has succeeded: the surface,
the support query and its answer, the swap chain, every image view, the render
pass and every frame buffer.  The answers for the semaphores are not part of
it. -/
def CreateAnswers.checked (a : CreateAnswers) : Prop :=
  a.surface_created = true ∧ a.support_queried = true ∧ a.present_support = true ∧
  a.swap_chain_created = true ∧
  (∀ i, i < a.image_count → (a.image_view i).1 = true) ∧
  a.render_pass_created = true ∧
  (∀ i, i < a.image_count → (a.frame_buffer i).1 = true)

/-- One of the three validations of the constructor fails: the device is null or
has a null logical device, the window handle is null or not a window, or a
dimension is zero or above the largest resolution. -/
def ValidationFails (max_resolution : Nat) (window_handle : Handle) (is_window : Bool)
    (rhi_device : Option RHI_Device) (width height : Nat) : Prop :=
  rhi_device = none ∨ (∃ dev, rhi_device = some dev ∧ dev.context_rhi.device = 0) ∨
  window_handle = 0 ∨ is_window = false ∨
  width = 0 ∨ width > max_resolution ∨ height = 0 ∨ height > max_resolution

/-- A native side like `answers0` on which every `vkCreateSemaphore` fails. -/
def answersNoSemaphore : CreateAnswers :=
  { answers0 with semaphore := fun _ => (false, 0) }

/-- The swap chain the constructor leaves for an 800x600 window with two buffers
when every `vkCreateSemaphore` and the `vkCreateCommandPool` fail. -/
def chainNoSemaphore : RHI_SwapChain :=
  (RHI_SwapChain.construct 16384 9 true (some deviceVk0) 800 600 0 2 0 answersNoSemaphore
    (false, 0)).1

/-- The swap chain the constructor leaves for an 800x600 window with two buffers
when only the `vkCreateCommandPool` fails. -/
def chainNoPool : RHI_SwapChain :=
  (RHI_SwapChain.construct 16384 9 true (some deviceVk0) 800 600 0 2 0 answers0 (false, 0)).1

/-! Queue families (`Runtime/RHI/Vulkan/Vulkan_Common.h`, namespace
`vulkan_common::device`).  A `VkQueueFlags` value is a natural number read as a
bit mask; a list of queue-family properties is the list of their `queueFlags`. -/

/-- The bit `VK_QUEUE_GRAPHICS_BIT` of the Vulkan API. -/
def VK_QUEUE_GRAPHICS_BIT : Nat := 1

/-- The bit `VK_QUEUE_COMPUTE_BIT` of the Vulkan API. -/
def VK_QUEUE_COMPUTE_BIT : Nat := 2

/-- The bit `VK_QUEUE_TRANSFER_BIT` of the Vulkan API. -/
def VK_QUEUE_TRANSFER_BIT : Nat := 4

/-- A loop `for (uint32_t i = 0; i < size; i++) if (test) { *index = i; return true; }`
of `get_queue_family_index`, from counter `i` over the families left: the counter
at which the test first succeeds, or `none` when the loop runs to its end. -/
def find_family (test : Nat → Bool) : List Nat → Nat → Option Nat
  | [], _ => none
  | queueFlags :: rest, i => if test queueFlags then some i else find_family test rest (i + 1)

/-- The test of the third loop of `get_queue_family_index`:
`queueFlags & queue_flags`. -/
def supports_requested (queue_flags queueFlags : Nat) : Bool :=
  decide (queueFlags &&& queue_flags ≠ 0)

/-- The test of the first loop of `get_queue_family_index`:
`(queueFlags & queue_flags) && ((queueFlags & VK_QUEUE_GRAPHICS_BIT) == 0)`. -/
def dedicated_compute (queue_flags queueFlags : Nat) : Bool :=
  decide (queueFlags &&& queue_flags ≠ 0) && decide (queueFlags &&& VK_QUEUE_GRAPHICS_BIT = 0)

/-- The test of the second loop of `get_queue_family_index`:
`(queueFlags & queue_flags) && ((queueFlags & VK_QUEUE_GRAPHICS_BIT) == 0) &&
((queueFlags & VK_QUEUE_COMPUTE_BIT) == 0)`. -/
def dedicated_transfer (queue_flags queueFlags : Nat) : Bool :=
  decide (queueFlags &&& queue_flags ≠ 0) && decide (queueFlags &&& VK_QUEUE_GRAPHICS_BIT = 0) &&
    decide (queueFlags &&& VK_QUEUE_COMPUTE_BIT = 0)

/-- `vulkan_common::device::get_queue_family_index`: the value returned, as a
truth value, and the content of `*index` afterwards, `index` being its content
before. -/
def get_queue_family_index (queue_flags : Nat) (queue_family_properties : List Nat)
    (index : Nat) : Bool × Nat :=
  let first :=
    if queue_flags &&& VK_QUEUE_COMPUTE_BIT ≠ 0 then
      find_family (dedicated_compute queue_flags) queue_family_properties 0
    else none
  match first with
  | some i => (true, i)
  | none =>
    let second :=
      if queue_flags &&& VK_QUEUE_TRANSFER_BIT ≠ 0 then
        find_family (dedicated_transfer queue_flags) queue_family_properties 0
      else none
    match second with
    | some i => (true, i)
    | none =>
      match find_family (supports_requested queue_flags) queue_family_properties 0 with
      | some i => (true, i)
      | none => (false, index)

/-- The three members of `RHI_Context` that `get_queue_family_indices` writes. -/
structure QueueFamilyIndices where
  queue_graphics_family_index : Nat
  queue_transfer_family_index : Nat
  queue_compute_family_index : Nat
  deriving DecidableEq, Repr

/-- `vulkan_common::device::get_queue_family_indices`, the queue families of the
physical device being `queue_families_properties`: the value returned and the
three indices of the context afterwards. -/
def get_queue_family_indices (c : QueueFamilyIndices) (queue_families_properties : List Nat) :
    Bool × QueueFamilyIndices :=
  let graphics := get_queue_family_index VK_QUEUE_GRAPHICS_BIT queue_families_properties
    c.queue_graphics_family_index
  let c1 := { c with queue_graphics_family_index := graphics.2 }
  if !graphics.1 then (false, c1)
  else
    let transfer := get_queue_family_index VK_QUEUE_TRANSFER_BIT queue_families_properties
      c1.queue_transfer_family_index
    let c2 := { c1 with queue_transfer_family_index := transfer.2 }
    if !transfer.1 then
      (true, { c2 with queue_transfer_family_index := c2.queue_graphics_family_index })
    else
      let compute := get_queue_family_index VK_QUEUE_COMPUTE_BIT queue_families_properties
        c2.queue_compute_family_index
      let c3 := { c2 with queue_compute_family_index := compute.2 }
      if !compute.1 then
        (true, { c3 with queue_compute_family_index := c3.queue_graphics_family_index })
      else (true, c3)

/-- The family at index `i` is the first of the list to pass the test. -/
def FirstFamily (test : Nat → Bool) (queue_family_properties : List Nat) (i : Nat) : Prop :=
  i < queue_family_properties.length ∧ test (queue_family_properties.getD i 0) = true ∧
  ∀ j, j < i → test (queue_family_properties.getD j 0) = false

/-- The index `i` names a family of the list that has the bit `flag`. -/
def FamilySupports (flag : Nat) (queue_family_properties : List Nat) (i : Nat) : Prop :=
  i < queue_family_properties.length ∧ queue_family_properties.getD i 0 &&& flag ≠ 0

end Spartan

namespace Directus

/-! ## The blocks of `Bind()` in closed form -/

theorem Bind_renderTargets_eq (n : Native) (p : RHI_Pipeline) :
    Bind_renderTargets n p =
      ({ p with
          m_renderTargetsClear :=
            if p.m_renderTargetsDirty then false else p.m_renderTargetsClear
          m_renderTargetsDirty := false },
       groupCalls n p Group.renderTargets) := by
  by_cases h : p.m_renderTargetsDirty = true
  · simp [Bind_renderTargets, groupCalls, h]
  · cases p; simp_all [Bind_renderTargets, groupCalls]

theorem Bind_textures_eq (n : Native) (p : RHI_Pipeline) :
    Bind_textures p =
      ({ p with
          m_textures := if p.m_texturesDirty then [] else p.m_textures
          m_texturesDirty := false },
       groupCalls n p Group.textures) := by
  by_cases h : p.m_texturesDirty = true
  · simp [Bind_textures, groupCalls, h]
  · cases p; simp_all [Bind_textures, groupCalls]

theorem Bind_samplers_eq (n : Native) (p : RHI_Pipeline) :
    Bind_samplers p =
      ({ p with
          m_samplers := if p.m_samplersDirty then [] else p.m_samplers
          m_samplersDirty := false },
       groupCalls n p Group.samplers) := by
  by_cases h : p.m_samplersDirty = true
  · simp [Bind_samplers, groupCalls, h]
  · cases p; simp_all [Bind_samplers, groupCalls]

theorem Bind_constantBuffers_eq (n : Native) (p : RHI_Pipeline) :
    Bind_constantBuffers p =
      ({ p with
          m_constantBuffers := if p.m_constantBufferDirty then [] else p.m_constantBuffers
          m_constantBufferDirty := false },
       groupCalls n p Group.constantBuffers) := by
  by_cases h : p.m_constantBufferDirty = true
  · simp [Bind_constantBuffers, groupCalls, h]
  · cases p; simp_all [Bind_constantBuffers, groupCalls]

theorem Bind_vertexShader_eq (n : Native) (p : RHI_Pipeline)
    (h : p.m_vertexShaderDirty = true → p.m_vertexShader ≠ none) :
    Bind_vertexShader p =
      some ({ p with m_vertexShaderDirty := false }, groupCalls n p Group.vertexShader) := by
  by_cases hd : p.m_vertexShaderDirty = true
  · obtain ⟨sh, hsh⟩ := Option.ne_none_iff_exists'.mp (h hd)
    simp [Bind_vertexShader, groupCalls, hd, hsh]
  · cases p; simp_all [Bind_vertexShader, groupCalls]

theorem Bind_pixelShader_eq (n : Native) (p : RHI_Pipeline)
    (h : p.m_pixelShaderDirty = true → p.m_pixelShader ≠ none) :
    Bind_pixelShader p =
      some ({ p with m_pixelShaderDirty := false }, groupCalls n p Group.pixelShader) := by
  by_cases hd : p.m_pixelShaderDirty = true
  · obtain ⟨sh, hsh⟩ := Option.ne_none_iff_exists'.mp (h hd)
    simp [Bind_pixelShader, groupCalls, hd, hsh]
  · cases p; simp_all [Bind_pixelShader, groupCalls]

theorem Bind_inputLayout_eq (n : Native) (p : RHI_Pipeline) :
    Bind_inputLayout p =
      ({ p with m_inputLayoutDirty := false }, groupCalls n p Group.inputLayout) := by
  by_cases h : p.m_inputLayoutDirty = true
  · simp [Bind_inputLayout, groupCalls, h]
  · cases p; simp_all [Bind_inputLayout, groupCalls]

theorem Bind_viewport_eq (n : Native) (p : RHI_Pipeline) :
    Bind_viewport p =
      ({ p with m_viewportDirty := false }, groupCalls n p Group.viewport) := by
  by_cases h : p.m_viewportDirty = true
  · simp [Bind_viewport, groupCalls, h]
  · cases p; simp_all [Bind_viewport, groupCalls]

theorem Bind_primitiveTopology_eq (n : Native) (p : RHI_Pipeline) :
    Bind_primitiveTopology p =
      ({ p with m_primitiveTopologyDirty := false },
       groupCalls n p Group.primitiveTopology) := by
  by_cases h : p.m_primitiveTopologyDirty = true
  · simp [Bind_primitiveTopology, groupCalls, h]
  · cases p; simp_all [Bind_primitiveTopology, groupCalls]

theorem Bind_cullMode_eq (n : Native) (p : RHI_Pipeline) :
    Bind_cullMode p =
      ({ p with m_cullModeDirty := false }, groupCalls n p Group.cullMode) := by
  by_cases h : p.m_cullModeDirty = true
  · simp [Bind_cullMode, groupCalls, h]
  · cases p; simp_all [Bind_cullMode, groupCalls]

theorem Bind_fillMode_eq (n : Native) (p : RHI_Pipeline) :
    Bind_fillMode p =
      ({ p with m_fillModeDirty := false }, groupCalls n p Group.fillMode) := by
  by_cases h : p.m_fillModeDirty = true
  · simp [Bind_fillMode, groupCalls, h]
  · cases p; simp_all [Bind_fillMode, groupCalls]

theorem Bind_indexBuffer_eq (n : Native) (p : RHI_Pipeline)
    (h : p.m_indexBufferDirty = true → p.m_indexBuffer ≠ none) :
    Bind_indexBuffer n p =
      some (p.m_indexBufferDirty && n.indexBufferBind,
            { p with m_indexBufferDirty := false }, groupCalls n p Group.indexBuffer) := by
  by_cases hd : p.m_indexBufferDirty = true
  · obtain ⟨ib, hib⟩ := Option.ne_none_iff_exists'.mp (h hd)
    simp [Bind_indexBuffer, groupCalls, hd, hib]
  · cases p; simp_all [Bind_indexBuffer, groupCalls]

theorem Bind_vertexBuffer_eq (n : Native) (p : RHI_Pipeline)
    (h : p.m_vertexBufferDirty = true → p.m_vertexBuffer ≠ none) :
    Bind_vertexBuffer n p =
      some (p.m_vertexBufferDirty && n.vertexBufferBind,
            { p with m_vertexBufferDirty := false }, groupCalls n p Group.vertexBuffer) := by
  by_cases hd : p.m_vertexBufferDirty = true
  · obtain ⟨vb, hvb⟩ := Option.ne_none_iff_exists'.mp (h hd)
    simp [Bind_vertexBuffer, groupCalls, hd, hvb]
  · cases p; simp_all [Bind_vertexBuffer, groupCalls]

theorem Bind_alphaBlending_eq (n : Native) (p : RHI_Pipeline) :
    Bind_alphaBlending n p =
      (p.m_alphaBlendingDirty && n.alphaBlendingEnabled,
       { p with m_alphaBlendingDirty := false }, groupCalls n p Group.alphaBlending) := by
  by_cases h : p.m_alphaBlendingDirty = true
  · simp [Bind_alphaBlending, groupCalls, h]
  · cases p; simp_all [Bind_alphaBlending, groupCalls]






theorem groupCalls_renderTargets (n : Native) (p : RHI_Pipeline) :
    groupCalls n p Group.renderTargets =
      if p.m_renderTargetsDirty then
        [DeviceCall.Set_DepthEnabled (decide (p.m_depthStencil ≠ 0)),
         DeviceCall.Set_RenderTargets p.m_renderTargetViews.length p.m_renderTargetViews
           p.m_depthStencil] ++ Bind_clears n p
      else [] := by
  by_cases h : p.m_renderTargetsDirty = true <;> simp [groupCalls, Bind_renderTargets, h]

theorem groupCalls_textures (n : Native) (p : RHI_Pipeline) :
    groupCalls n p Group.textures =
      if p.m_texturesDirty then [DeviceCall.Set_Textures 0 p.m_textures.length p.m_textures]
      else [] := by
  by_cases h : p.m_texturesDirty = true <;> simp [groupCalls, Bind_textures, h]

theorem groupCalls_samplers (n : Native) (p : RHI_Pipeline) :
    groupCalls n p Group.samplers =
      if p.m_samplersDirty then [DeviceCall.Set_Samplers 0 p.m_samplers.length p.m_samplers]
      else [] := by
  by_cases h : p.m_samplersDirty = true <;> simp [groupCalls, Bind_samplers, h]

theorem groupCalls_constantBuffers (n : Native) (p : RHI_Pipeline) :
    groupCalls n p Group.constantBuffers =
      if p.m_constantBufferDirty then
        p.m_constantBuffers.map (fun constantBuffer =>
          DeviceCall.Set_ConstantBuffers constantBuffer.slot 1 constantBuffer.scope
            [constantBuffer.buffer])
      else [] := by
  by_cases h : p.m_constantBufferDirty = true <;> simp [groupCalls, Bind_constantBuffers, h]

theorem groupCalls_vertexShader (n : Native) (p : RHI_Pipeline) :
    groupCalls n p Group.vertexShader =
      if p.m_vertexShaderDirty then
        match p.m_vertexShader with
        | none => []
        | some sh => [DeviceCall.Set_VertexShader sh.vertexShaderBuffer]
      else [] := by
  by_cases h : p.m_vertexShaderDirty = true <;> cases hp : p.m_vertexShader <;> simp [groupCalls, Bind_vertexShader, h, hp]

theorem groupCalls_pixelShader (n : Native) (p : RHI_Pipeline) :
    groupCalls n p Group.pixelShader =
      if p.m_pixelShaderDirty then
        match p.m_pixelShader with
        | none => []
        | some sh => [DeviceCall.Set_PixelShader sh.pixelShaderBuffer]
      else [] := by
  by_cases h : p.m_pixelShaderDirty = true <;> cases hp : p.m_pixelShader <;> simp [groupCalls, Bind_pixelShader, h, hp]

theorem groupCalls_inputLayout (n : Native) (p : RHI_Pipeline) :
    groupCalls n p Group.inputLayout =
      if p.m_inputLayoutDirty then [DeviceCall.Set_InputLayout p.m_inputLayoutBuffer]
      else [] := by
  by_cases h : p.m_inputLayoutDirty = true <;> simp [groupCalls, Bind_inputLayout, h]

theorem groupCalls_viewport (n : Native) (p : RHI_Pipeline) :
    groupCalls n p Group.viewport =
      if p.m_viewportDirty then [DeviceCall.Set_Viewport p.m_viewport] else [] := by
  by_cases h : p.m_viewportDirty = true <;> simp [groupCalls, Bind_viewport, h]

theorem groupCalls_primitiveTopology (n : Native) (p : RHI_Pipeline) :
    groupCalls n p Group.primitiveTopology =
      if p.m_primitiveTopologyDirty then
        [DeviceCall.Set_PrimitiveTopology p.m_primitiveTopology]
      else [] := by
  by_cases h : p.m_primitiveTopologyDirty = true <;> simp [groupCalls, Bind_primitiveTopology, h]

theorem groupCalls_cullMode (n : Native) (p : RHI_Pipeline) :
    groupCalls n p Group.cullMode =
      if p.m_cullModeDirty then [DeviceCall.Set_CullMode p.m_cullMode] else [] := by
  by_cases h : p.m_cullModeDirty = true <;> simp [groupCalls, Bind_cullMode, h]

theorem groupCalls_fillMode (n : Native) (p : RHI_Pipeline) :
    groupCalls n p Group.fillMode =
      if p.m_fillModeDirty then [DeviceCall.Set_FillMode p.m_fillMode] else [] := by
  by_cases h : p.m_fillModeDirty = true <;> simp [groupCalls, Bind_fillMode, h]

theorem groupCalls_indexBuffer (n : Native) (p : RHI_Pipeline) :
    groupCalls n p Group.indexBuffer =
      if p.m_indexBufferDirty then
        match p.m_indexBuffer with
        | none => []
        | some ib => [DeviceCall.IndexBuffer_Bind ib]
      else [] := by
  by_cases h : p.m_indexBufferDirty = true <;> cases hp : p.m_indexBuffer <;> simp [groupCalls, Bind_indexBuffer, h, hp]

theorem groupCalls_vertexBuffer (n : Native) (p : RHI_Pipeline) :
    groupCalls n p Group.vertexBuffer =
      if p.m_vertexBufferDirty then
        match p.m_vertexBuffer with
        | none => []
        | some vb => [DeviceCall.VertexBuffer_Bind vb]
      else [] := by
  by_cases h : p.m_vertexBufferDirty = true <;> cases hp : p.m_vertexBuffer <;> simp [groupCalls, Bind_vertexBuffer, h, hp]

theorem groupCalls_alphaBlending (n : Native) (p : RHI_Pipeline) :
    groupCalls n p Group.alphaBlending =
      if p.m_alphaBlendingDirty then [DeviceCall.Set_AlphaBlendingEnabled p.m_alphaBlending]
      else [] := by
  by_cases h : p.m_alphaBlendingDirty = true <;> simp [groupCalls, Bind_alphaBlending, h]

theorem Bind_eq (p : RHI_Pipeline) (n : Native) (hs : DerefSafe p)
    (he : BindFailsEarly p = false) :
    Bind p n = some (Outcome.mk (Bind_ret p n) (Bind_commit p)
      (Group.order.flatMap (groupCalls n p))) := by
  obtain ⟨h1, h2, h3, h4⟩ := hs
  simp only [BindFailsEarly, Bool.or_eq_false_iff] at he
  obtain ⟨hdev, hrt⟩ := he
  unfold Bind
  rw [if_neg (by simp [hdev]), if_neg (by simp [hrt])]
  simp only [Bind_renderTargets_eq n, Bind_textures_eq n, Bind_samplers_eq n,
    Bind_constantBuffers_eq n]
  rw [Bind_vertexShader_eq n _ (by exact h1)]
  simp only []
  rw [Bind_pixelShader_eq n _ (by exact h2)]
  simp only [Bind_inputLayout_eq n, Bind_viewport_eq n, Bind_primitiveTopology_eq n,
    Bind_cullMode_eq n, Bind_fillMode_eq n]
  rw [Bind_indexBuffer_eq n _ (by exact h3)]
  simp only []
  rw [Bind_vertexBuffer_eq n _ (by exact h4)]
  simp only [Bind_alphaBlending_eq n]
  simp only [Group.order, List.flatMap_cons, List.flatMap_nil, List.append_nil,
    List.append_assoc, Bind_ret, Bind_commit]
  simp only [groupCalls_renderTargets, groupCalls_textures, groupCalls_samplers,
    groupCalls_constantBuffers, groupCalls_vertexShader, groupCalls_pixelShader,
    groupCalls_inputLayout, groupCalls_viewport, groupCalls_primitiveTopology,
    groupCalls_cullMode, groupCalls_fillMode, groupCalls_indexBuffer, groupCalls_vertexBuffer,
    groupCalls_alphaBlending, Bind_clears, clearDepth]


theorem Bind_early (p : RHI_Pipeline) (n : Native) (he : BindFailsEarly p = true) :
    Bind p n = some (Outcome.mk false p []) := by
  unfold Bind
  by_cases hdev : p.m_rhiDevice.isNone = true
  · rw [if_pos hdev]
  · rw [if_neg hdev]
    simp only [BindFailsEarly, Bool.or_eq_true] at he
    rcases he with he | he
    · exact absurd he hdev
    · rw [if_pos he]

theorem Bind_fault (p : RHI_Pipeline) (n : Native) (he : BindFailsEarly p = false)
    (hs : ¬ DerefSafe p) : Bind p n = none := by
  simp only [BindFailsEarly, Bool.or_eq_false_iff] at he
  obtain ⟨hdev, hrt⟩ := he
  unfold Bind
  rw [if_neg (by simp [hdev]), if_neg (by simp [hrt])]
  simp only [Bind_renderTargets_eq n, Bind_textures_eq n, Bind_samplers_eq n,
    Bind_constantBuffers_eq n]
  by_cases h1 : p.m_vertexShaderDirty = true → p.m_vertexShader ≠ none
  swap
  · push_neg at h1
    simp [Bind_vertexShader, h1.1, h1.2]
  rw [Bind_vertexShader_eq n _ (by exact h1)]
  simp only []
  by_cases h2 : p.m_pixelShaderDirty = true → p.m_pixelShader ≠ none
  swap
  · push_neg at h2
    simp [Bind_pixelShader, h2.1, h2.2]
  rw [Bind_pixelShader_eq n _ (by exact h2)]
  simp only [Bind_inputLayout_eq n, Bind_viewport_eq n, Bind_primitiveTopology_eq n,
    Bind_cullMode_eq n, Bind_fillMode_eq n]
  by_cases h3 : p.m_indexBufferDirty = true → p.m_indexBuffer ≠ none
  swap
  · push_neg at h3
    simp [Bind_indexBuffer, h3.1, h3.2]
  rw [Bind_indexBuffer_eq n _ (by exact h3)]
  simp only []
  by_cases h4 : p.m_vertexBufferDirty = true → p.m_vertexBuffer ≠ none
  swap
  · push_neg at h4
    simp [Bind_vertexBuffer, h4.1, h4.2]
  exact absurd ⟨h1, h2, h3, h4⟩ hs

/-- The three ways a `Bind()` can go: an early return, a run through every block,
or a null dereference. -/
theorem Bind_cases (p : RHI_Pipeline) (n : Native) :
    (BindFailsEarly p = true ∧ Bind p n = some (Outcome.mk false p [])) ∨
    (BindFailsEarly p = false ∧ DerefSafe p ∧
      Bind p n = some (Outcome.mk (Bind_ret p n) (Bind_commit p)
        (Group.order.flatMap (groupCalls n p)))) ∨
    (BindFailsEarly p = false ∧ ¬ DerefSafe p ∧ Bind p n = none) := by
  by_cases he : BindFailsEarly p = true
  · exact Or.inl ⟨he, Bind_early p n he⟩
  · have he2 : BindFailsEarly p = false := by simpa using he
    by_cases hs : DerefSafe p
    · exact Or.inr (Or.inl ⟨he2, hs, Bind_eq p n hs he2⟩)
    · exact Or.inr (Or.inr ⟨he2, hs, Bind_fault p n he2 hs⟩)

/-! ## The calls of a group -/

theorem groupCalls_group (n : Native) (p : RHI_Pipeline) (g : Group) (c : DeviceCall)
    (hc : c ∈ groupCalls n p g) : c.group = some g := by
  cases g
  case renderTargets =>
    rw [groupCalls_renderTargets] at hc
    split at hc
    · simp only [Bind_clears, List.cons_append, List.nil_append, List.mem_cons] at hc
      rcases hc with rfl | rfl | hc
      · rfl
      · rfl
      · split at hc
        · rw [List.mem_append] at hc
          rcases hc with hc | hc
          · obtain ⟨v, _, rfl⟩ := List.mem_map.mp hc
            rfl
          · split at hc
            · rw [List.mem_singleton] at hc
              subst hc
              rfl
            · simp at hc
        · simp at hc
    · simp at hc
  case constantBuffers =>
    rw [groupCalls_constantBuffers] at hc
    split at hc
    · obtain ⟨b, _, rfl⟩ := List.mem_map.mp hc
      rfl
    · simp at hc
  case vertexShader =>
    rw [groupCalls_vertexShader] at hc
    split at hc
    · split at hc
      · simp at hc
      · rw [List.mem_singleton] at hc; subst hc; rfl
    · simp at hc
  case pixelShader =>
    rw [groupCalls_pixelShader] at hc
    split at hc
    · split at hc
      · simp at hc
      · rw [List.mem_singleton] at hc; subst hc; rfl
    · simp at hc
  case indexBuffer =>
    rw [groupCalls_indexBuffer] at hc
    split at hc
    · split at hc
      · simp at hc
      · rw [List.mem_singleton] at hc; subst hc; rfl
    · simp at hc
  case vertexBuffer =>
    rw [groupCalls_vertexBuffer] at hc
    split at hc
    · split at hc
      · simp at hc
      · rw [List.mem_singleton] at hc; subst hc; rfl
    · simp at hc
  case textures =>
    rw [groupCalls_textures] at hc
    split at hc
    · rw [List.mem_singleton] at hc; subst hc; rfl
    · simp at hc
  case samplers =>
    rw [groupCalls_samplers] at hc
    split at hc
    · rw [List.mem_singleton] at hc; subst hc; rfl
    · simp at hc
  case inputLayout =>
    rw [groupCalls_inputLayout] at hc
    split at hc
    · rw [List.mem_singleton] at hc; subst hc; rfl
    · simp at hc
  case viewport =>
    rw [groupCalls_viewport] at hc
    split at hc
    · rw [List.mem_singleton] at hc; subst hc; rfl
    · simp at hc
  case primitiveTopology =>
    rw [groupCalls_primitiveTopology] at hc
    split at hc
    · rw [List.mem_singleton] at hc; subst hc; rfl
    · simp at hc
  case cullMode =>
    rw [groupCalls_cullMode] at hc
    split at hc
    · rw [List.mem_singleton] at hc; subst hc; rfl
    · simp at hc
  case fillMode =>
    rw [groupCalls_fillMode] at hc
    split at hc
    · rw [List.mem_singleton] at hc; subst hc; rfl
    · simp at hc
  case alphaBlending =>
    rw [groupCalls_alphaBlending] at hc
    split at hc
    · rw [List.mem_singleton] at hc; subst hc; rfl
    · simp at hc

theorem groupCalls_clean (n : Native) (p : RHI_Pipeline) (g : Group)
    (hg : g.dirty p = false) : groupCalls n p g = [] := by
  cases g <;> simp only [Group.dirty] at hg
  case renderTargets => rw [groupCalls_renderTargets, hg]; rfl
  case textures => rw [groupCalls_textures, hg]; rfl
  case samplers => rw [groupCalls_samplers, hg]; rfl
  case constantBuffers => rw [groupCalls_constantBuffers, hg]; rfl
  case vertexShader => rw [groupCalls_vertexShader, hg]; rfl
  case pixelShader => rw [groupCalls_pixelShader, hg]; rfl
  case inputLayout => rw [groupCalls_inputLayout, hg]; rfl
  case viewport => rw [groupCalls_viewport, hg]; rfl
  case primitiveTopology => rw [groupCalls_primitiveTopology, hg]; rfl
  case cullMode => rw [groupCalls_cullMode, hg]; rfl
  case fillMode => rw [groupCalls_fillMode, hg]; rfl
  case indexBuffer => rw [groupCalls_indexBuffer, hg]; rfl
  case vertexBuffer => rw [groupCalls_vertexBuffer, hg]; rfl
  case alphaBlending => rw [groupCalls_alphaBlending, hg]; rfl

theorem countGroup_append (g : Group) (xs ys : List DeviceCall) :
    countGroup g (xs ++ ys) = countGroup g xs + countGroup g ys := by
  simp [countGroup, List.countP_append]

theorem countGroup_groupCalls_ne (n : Native) (p : RHI_Pipeline) (g h : Group) (hne : h ≠ g) :
    countGroup g (groupCalls n p h) = 0 := by
  unfold countGroup
  rw [List.countP_eq_zero]
  intro c hc
  have := groupCalls_group n p h c hc
  simp [this, hne]

theorem countGroup_trace (n : Native) (p : RHI_Pipeline) (g : Group) :
    countGroup g (Group.order.flatMap (groupCalls n p)) = countGroup g (groupCalls n p g) := by
  simp only [Group.order, List.flatMap_cons, List.flatMap_nil, List.append_nil,
    countGroup_append]
  cases g <;> simp [countGroup_groupCalls_ne]

theorem filter_group_groupCalls_ne (n : Native) (p : RHI_Pipeline) (g h : Group) (hne : h ≠ g) :
    (groupCalls n p h).filter (fun c => decide (c.group = some g)) = [] := by
  rw [List.filter_eq_nil_iff]
  intro c hc
  have := groupCalls_group n p h c hc
  simp [this, hne]

theorem filter_group_groupCalls_self (n : Native) (p : RHI_Pipeline) (g : Group) :
    (groupCalls n p g).filter (fun c => decide (c.group = some g)) = groupCalls n p g := by
  rw [List.filter_eq_self]
  intro c hc
  simp [groupCalls_group n p g c hc]

theorem filter_group_trace (n : Native) (p : RHI_Pipeline) (g : Group) :
    (Group.order.flatMap (groupCalls n p)).filter (fun c => decide (c.group = some g)) =
      groupCalls n p g := by
  simp only [Group.order, List.flatMap_cons, List.flatMap_nil, List.append_nil,
    List.filter_append]
  cases g <;> simp [filter_group_groupCalls_ne, filter_group_groupCalls_self]

/-! ## The cache after a `Bind()` that runs through -/

theorem Bind_commit_allClean (p : RHI_Pipeline) : AllClean (Bind_commit p) := by
  intro g
  cases g <;> rfl

theorem Bind_commit_derefSafe (p : RHI_Pipeline) : DerefSafe (Bind_commit p) := by
  refine ⟨?_, ?_, ?_, ?_⟩ <;> intro h <;> exact absurd h (by simp [Bind_commit])

theorem Bind_commit_notEarly (p : RHI_Pipeline) (he : BindFailsEarly p = false) :
    BindFailsEarly (Bind_commit p) = false := by
  simp only [BindFailsEarly, Bool.or_eq_false_iff] at he ⊢
  exact ⟨he.1, by simp [Bind_commit]⟩

theorem trace_of_allClean (n : Native) (p : RHI_Pipeline) (h : AllClean p) :
    Group.order.flatMap (groupCalls n p) = [] := by
  simp only [Group.order, List.flatMap_cons, List.flatMap_nil, List.append_nil]
  simp [groupCalls_clean n p _ (h _)]


/-! ## Facts about the test inputs -/

theorem construct_cache0 :
    RHI_Pipeline.construct (some device0) =
      some (cache0,
        [DeviceCall.Set_Textures 0 10 (List.replicate 10 0),
         DeviceCall.Set_Samplers 0 10 (List.replicate 10 0),
         DeviceCall.Set_ConstantBuffers 0 10 Buffer_Scope.Buffer_Global (List.replicate 10 0)]) := by
  rfl

theorem reachable_cache0 : Reachable cache0 :=
  Reachable.construct (some device0) cache0 _ construct_cache0

theorem reachable_cacheNoTarget : Reachable cacheNoTarget :=
  Reachable.step (Op.SetRenderTarget_Views [0] 0 true) native0 cache0 _ reachable_cache0 rfl

theorem derefSafe_cache0 : DerefSafe cache0 := by
  refine ⟨?_, ?_, ?_, ?_⟩ <;> intro h <;> exact absurd h (by decide)

theorem allClean_cache0 : AllClean cache0 := by
  intro g
  cases g <;> rfl

/-! ## Scalar aspects -/

theorem SetScalar_early (p : RHI_Pipeline) (v : ScalarValue) :
    BindFailsEarly (SetScalar p v) = BindFailsEarly p := by
  cases v <;>
    simp only [SetScalar, SetCullMode, SetFillMode, SetPrimitiveTopology, SetAlphaBlending,
      SetViewport] <;>
    split <;> rfl

theorem SetScalar_derefSafe (p : RHI_Pipeline) (v : ScalarValue) :
    DerefSafe (SetScalar p v) ↔ DerefSafe p := by
  cases v <;>
    simp only [SetScalar, SetCullMode, SetFillMode, SetPrimitiveTopology, SetAlphaBlending,
      SetViewport] <;>
    split <;> exact Iff.rfl

theorem SetScalar_stored (p : RHI_Pipeline) (v : ScalarValue) :
    v.storedIn (SetScalar p v) = true := by
  cases v <;>
    simp only [SetScalar, SetCullMode, SetFillMode, SetPrimitiveTopology, SetAlphaBlending,
      SetViewport] <;>
    split <;> simp_all [ScalarValue.storedIn]

theorem SetScalar_of_stored (p : RHI_Pipeline) (v : ScalarValue)
    (h : v.storedIn p = true) : SetScalar p v = p := by
  cases v <;>
    simp_all [SetScalar, SetCullMode, SetFillMode, SetPrimitiveTopology, SetAlphaBlending,
      SetViewport, ScalarValue.storedIn]

theorem SetScalar_dirty (p : RHI_Pipeline) (v : ScalarValue) :
    v.group.dirty (SetScalar p v) = (v.group.dirty p || !v.storedIn p) := by
  cases v <;>
    simp only [SetScalar, SetCullMode, SetFillMode, SetPrimitiveTopology, SetAlphaBlending,
      SetViewport, ScalarValue.storedIn, ScalarValue.group] <;>
    split <;> simp_all [Group.dirty, eq_comm]

theorem storedIn_Bind_commit (p : RHI_Pipeline) (v : ScalarValue) :
    v.storedIn (Bind_commit p) = v.storedIn p := by
  cases v <;> rfl

theorem countGroup_scalar (n : Native) (p : RHI_Pipeline) (v : ScalarValue) :
    countGroup v.group (groupCalls n p v.group) = if v.group.dirty p then 1 else 0 := by
  cases v <;> simp only [ScalarValue.group, Group.dirty]
  case cullMode => rw [groupCalls_cullMode]; split <;> simp_all [countGroup, DeviceCall.group]
  case fillMode => rw [groupCalls_fillMode]; split <;> simp_all [countGroup, DeviceCall.group]
  case primitiveTopology =>
    rw [groupCalls_primitiveTopology]; split <;> simp_all [countGroup, DeviceCall.group]
  case alphaBlending =>
    rw [groupCalls_alphaBlending]; split <;> simp_all [countGroup, DeviceCall.group]
  case viewport => rw [groupCalls_viewport]; split <;> simp_all [countGroup, DeviceCall.group]

/-! ## C1 -/

/-- C1, as stated, fails: on the freshly constructed cache, whose cull mode is
already back-face, `SetCullMode(Cull_Back); Bind(); SetCullMode(Cull_Back); Bind()`
runs through both `Bind()` calls and issues no `Set_CullMode` call at all, not
exactly one. -/
theorem C1_counterexample :
    ∃ o1 o2,
      Bind (SetScalar cache0 (ScalarValue.cullMode Cull_Mode.Cull_Back)) native0 = some o1 ∧
      Bind (SetScalar o1.p (ScalarValue.cullMode Cull_Mode.Cull_Back)) native0 = some o2 ∧
      countGroup Group.cullMode o1.calls + countGroup Group.cullMode o2.calls = 0 ∧
      countGroup Group.cullMode o1.calls + countGroup Group.cullMode o2.calls ≠ 1 :=
  ⟨Outcome.mk false cache0 [], Outcome.mk false cache0 [], by decide, by decide, by decide,
    by decide⟩

/-- C1, amended: for every cache on which `Bind()` has a defined result, every
scalar value `v` and all native answers, `Set<Aspect>(v); Bind(); Set<Aspect>(v);
Bind()` has a defined result, the second `Bind()` issues no call for the aspect,
the two together issue at most one, and they issue exactly one precisely when the
first `Bind()` does not return early and the aspect is pending on entry or `v`
differs from the stored value. -/
theorem C1_same_value_twice (p : RHI_Pipeline) (v : ScalarValue) (n1 n2 : Native)
    (hp : DerefSafe p ∨ BindFailsEarly p = true) :
    ∃ o1 o2,
      Bind (SetScalar p v) n1 = some o1 ∧
      Bind (SetScalar o1.p v) n2 = some o2 ∧
      countGroup v.group o2.calls = 0 ∧
      countGroup v.group o1.calls + countGroup v.group o2.calls ≤ 1 ∧
      (countGroup v.group o1.calls + countGroup v.group o2.calls = 1 ↔
        (BindFailsEarly p = false ∧ (v.group.dirty p = true ∨ v.storedIn p = false))) := by
  by_cases he : BindFailsEarly p = true
  · have he1 : BindFailsEarly (SetScalar p v) = true := by rw [SetScalar_early]; exact he
    refine ⟨Outcome.mk false (SetScalar p v) [], Outcome.mk false (SetScalar p v) [],
      Bind_early _ n1 he1, ?_, ?_, ?_, ?_⟩
    · show Bind (SetScalar (SetScalar p v) v) n2 = _
      rw [SetScalar_of_stored _ v (SetScalar_stored p v)]
      exact Bind_early _ n2 he1
    · rfl
    · simp [countGroup]
    · simp [countGroup, he]
  · have he0 : BindFailsEarly p = false := by simpa using he
    have hs : DerefSafe p := hp.resolve_right he
    have he1 : BindFailsEarly (SetScalar p v) = false := by rw [SetScalar_early]; exact he0
    have hs1 : DerefSafe (SetScalar p v) := (SetScalar_derefSafe p v).mpr hs
    have hst : SetScalar (Bind_commit (SetScalar p v)) v = Bind_commit (SetScalar p v) :=
      SetScalar_of_stored _ v (by rw [storedIn_Bind_commit]; exact SetScalar_stored p v)
    have h2 :
        Group.order.flatMap (groupCalls n2 (Bind_commit (SetScalar p v))) = [] :=
      trace_of_allClean n2 _ (Bind_commit_allClean _)
    refine ⟨_, Outcome.mk (Bind_ret (Bind_commit (SetScalar p v)) n2)
      (Bind_commit (Bind_commit (SetScalar p v)))
      (Group.order.flatMap (groupCalls n2 (Bind_commit (SetScalar p v)))),
      Bind_eq _ n1 hs1 he1, ?_, ?_, ?_, ?_⟩
    · show Bind (SetScalar (Bind_commit (SetScalar p v)) v) n2 = _
      rw [hst]
      exact Bind_eq _ n2 (Bind_commit_derefSafe _) (Bind_commit_notEarly _ he1)
    · show countGroup v.group (Group.order.flatMap _) = 0
      rw [h2]; rfl
    · show countGroup v.group (Group.order.flatMap _) +
        countGroup v.group (Group.order.flatMap _) ≤ 1
      rw [h2, countGroup_trace, countGroup_scalar]
      split <;> simp [countGroup]
    · show countGroup v.group (Group.order.flatMap _) +
        countGroup v.group (Group.order.flatMap _) = 1 ↔ _
      rw [h2, countGroup_trace, countGroup_scalar, SetScalar_dirty]
      cases hd : v.group.dirty p <;> cases hst2 : v.storedIn p <;> simp [countGroup, he0]

/-- C1, amended, at a concrete input: on the freshly constructed cache,
`SetCullMode(Cull_Front)` twice with a `Bind()` after each. -/
theorem C1_same_value_twice_witness :
    ∃ o1 o2,
      Bind (SetScalar cache0 (ScalarValue.cullMode Cull_Mode.Cull_Front)) native0 = some o1 ∧
      Bind (SetScalar o1.p (ScalarValue.cullMode Cull_Mode.Cull_Front)) native0 = some o2 ∧
      countGroup Group.cullMode o2.calls = 0 ∧
      countGroup Group.cullMode o1.calls + countGroup Group.cullMode o2.calls ≤ 1 ∧
      (countGroup Group.cullMode o1.calls + countGroup Group.cullMode o2.calls = 1 ↔
        (BindFailsEarly cache0 = false ∧
          (Group.cullMode.dirty cache0 = true ∨
            (ScalarValue.cullMode Cull_Mode.Cull_Front).storedIn cache0 = false))) :=
  C1_same_value_twice cache0 (ScalarValue.cullMode Cull_Mode.Cull_Front) native0 native0
    (Or.inl derefSafe_cache0)

/-! ## C2 -/

theorem Bind_calls_dirty (p : RHI_Pipeline) (n : Native) (out : Outcome)
    (h : Bind p n = some out) (c : DeviceCall) (hc : c ∈ out.calls) :
    ∃ g, c.group = some g ∧ g.dirty p = true := by
  rcases Bind_cases p n with ⟨_, hb⟩ | ⟨_, _, hb⟩ | ⟨_, _, hb⟩
  · rw [hb] at h
    cases h
    simp at hc
  · rw [hb] at h
    cases h
    obtain ⟨g, _, hg⟩ := List.mem_flatMap.mp hc
    refine ⟨g, groupCalls_group n p g c hg, ?_⟩
    by_contra hd
    rw [groupCalls_clean n p g (by simpa using hd)] at hg
    simp at hg
  · rw [hb] at h
    cases h

theorem Bind_defined (p : RHI_Pipeline) (n : Native)
    (hp : DerefSafe p ∨ BindFailsEarly p = true) : ∃ out, Bind p n = some out := by
  rcases Bind_cases p n with ⟨_, hb⟩ | ⟨_, _, hb⟩ | ⟨he, hs, _⟩
  · exact ⟨_, hb⟩
  · exact ⟨_, hb⟩
  · rcases hp with hp | hp
    · exact absurd hp hs
    · rw [he] at hp
      cases hp

theorem allClean_bits (p : RHI_Pipeline) (h : AllClean p) :
    p.m_renderTargetsDirty = false ∧ p.m_texturesDirty = false ∧ p.m_samplersDirty = false ∧
    p.m_constantBufferDirty = false ∧ p.m_vertexShaderDirty = false ∧
    p.m_pixelShaderDirty = false ∧ p.m_inputLayoutDirty = false ∧ p.m_viewportDirty = false ∧
    p.m_primitiveTopologyDirty = false ∧ p.m_cullModeDirty = false ∧
    p.m_fillModeDirty = false ∧ p.m_indexBufferDirty = false ∧
    p.m_vertexBufferDirty = false ∧ p.m_alphaBlendingDirty = false :=
  ⟨h Group.renderTargets, h Group.textures, h Group.samplers, h Group.constantBuffers,
    h Group.vertexShader, h Group.pixelShader, h Group.inputLayout, h Group.viewport,
    h Group.primitiveTopology, h Group.cullMode, h Group.fillMode, h Group.indexBuffer,
    h Group.vertexBuffer, h Group.alphaBlending⟩

/-- C2: for every cache and all native answers, every call `Bind()` issues belongs
to a group whose dirty bit is set on entry, so a group whose dirty bit is false
contributes no call; `Bind()` has a defined result whenever no dirty shader or
buffer group lacks its resource.  In particular, on a cache with a device and no
pending change whose cull mode is not yet front-face, `SetCullMode(Cull_Front)`
followed by `Bind()` issues the one call `Set_CullMode(Cull_Front)` and nothing
else. -/
theorem C2_bind_calls_only_dirty_groups (p : RHI_Pipeline) (n : Native) :
    (∀ out, Bind p n = some out → ∀ c ∈ out.calls, ∃ g, c.group = some g ∧ g.dirty p = true) ∧
    (∀ out g, Bind p n = some out → g.dirty p = false → countGroup g out.calls = 0) ∧
    (DerefSafe p → ∃ out, Bind p n = some out) ∧
    (p.m_rhiDevice ≠ none → AllClean p → p.m_cullMode ≠ Cull_Mode.Cull_Front →
      ∃ out, Bind (SetCullMode p Cull_Mode.Cull_Front) n = some out ∧
        out.calls = [DeviceCall.Set_CullMode Cull_Mode.Cull_Front] ∧
        countGroup Group.cullMode out.calls = 1 ∧
        countGroup Group.fillMode out.calls = 0 ∧
        countGroup Group.primitiveTopology out.calls = 0 ∧
        countGroup Group.alphaBlending out.calls = 0) := by
  refine ⟨fun out h c hc => Bind_calls_dirty p n out h c hc, ?_,
    fun hs => Bind_defined p n (Or.inl hs), ?_⟩
  · intro out g h hg
    unfold countGroup
    rw [List.countP_eq_zero]
    intro c hc
    obtain ⟨g2, hg2, hd⟩ := Bind_calls_dirty p n out h c hc
    have hne : g2 ≠ g := by
      rintro rfl
      rw [hg] at hd
      cases hd
    simp [hg2, hne]
  · intro hdev hclean hcull
    obtain ⟨h1, h2, h3, h4, h5, h6, h7, h8, h9, h10, h11, h12, h13, h14⟩ :=
      allClean_bits p hclean
    have hq : SetCullMode p Cull_Mode.Cull_Front =
        { p with m_cullMode := Cull_Mode.Cull_Front, m_cullModeDirty := true } := by
      unfold SetCullMode
      rw [if_neg hcull]
    have hs : DerefSafe (SetCullMode p Cull_Mode.Cull_Front) := by
      rw [hq]
      refine ⟨?_, ?_, ?_, ?_⟩ <;> intro h <;> simp_all
    have he : BindFailsEarly (SetCullMode p Cull_Mode.Cull_Front) = false := by
      rw [hq]
      cases hd : p.m_rhiDevice
      · exact absurd hd hdev
      · simp [BindFailsEarly, hd, h1]
    have hcalls : Group.order.flatMap (groupCalls n (SetCullMode p Cull_Mode.Cull_Front)) =
        [DeviceCall.Set_CullMode Cull_Mode.Cull_Front] := by
      rw [hq]
      simp [Group.order, groupCalls_renderTargets, groupCalls_textures, groupCalls_samplers,
        groupCalls_constantBuffers, groupCalls_vertexShader, groupCalls_pixelShader,
        groupCalls_inputLayout, groupCalls_viewport, groupCalls_primitiveTopology,
        groupCalls_cullMode, groupCalls_fillMode, groupCalls_indexBuffer,
        groupCalls_vertexBuffer, groupCalls_alphaBlending, h1, h2, h3, h4, h5, h6, h7, h8, h9,
        h11, h12, h13, h14]
    refine ⟨_, Bind_eq _ n hs he, hcalls, ?_, ?_, ?_, ?_⟩ <;>
      · show countGroup _ (Group.order.flatMap _) = _
        rw [hcalls]
        rfl

/-- C2 at a concrete input: the freshly constructed cache, then
`SetCullMode(Cull_Front)` and `Bind()`; every part of the statement is exercised
there. -/
theorem C2_bind_calls_only_dirty_groups_witness :
    (∀ c ∈ [DeviceCall.Set_CullMode Cull_Mode.Cull_Front],
      ∃ g, c.group = some g ∧ g.dirty cacheFront = true) ∧
    countGroup Group.fillMode [DeviceCall.Set_CullMode Cull_Mode.Cull_Front] = 0 ∧
    (∃ out, Bind cache0 native0 = some out) ∧
    (∃ out, Bind (SetCullMode cache0 Cull_Mode.Cull_Front) native0 = some out ∧
      out.calls = [DeviceCall.Set_CullMode Cull_Mode.Cull_Front] ∧
      countGroup Group.cullMode out.calls = 1 ∧
      countGroup Group.fillMode out.calls = 0 ∧
      countGroup Group.primitiveTopology out.calls = 0 ∧
      countGroup Group.alphaBlending out.calls = 0) :=
  ⟨(C2_bind_calls_only_dirty_groups cacheFront native0).1
      (Outcome.mk false (Bind_commit cacheFront) [DeviceCall.Set_CullMode Cull_Mode.Cull_Front])
      (by decide),
    (C2_bind_calls_only_dirty_groups cacheFront native0).2.1
      (Outcome.mk false (Bind_commit cacheFront) [DeviceCall.Set_CullMode Cull_Mode.Cull_Front])
      Group.fillMode (by decide) (by decide),
    (C2_bind_calls_only_dirty_groups cache0 native0).2.2.1 derefSafe_cache0,
    (C2_bind_calls_only_dirty_groups cache0 native0).2.2.2 (by decide) allClean_cache0
      (by decide)⟩

/-! ## C3 -/

theorem SetTextureArg_eq (p : RHI_Pipeline) (t : TextureArg) :
    SetTextureArg p t =
      (true, { p with m_textures := p.m_textures ++ [t.handle], m_texturesDirty := true }) := by
  cases t <;> rfl

theorem SetTextures_cons_eq (p : RHI_Pipeline) (t : TextureArg) (ts : List TextureArg) :
    SetTextures p (t :: ts) =
      { p with
        m_textures := p.m_textures ++ (t :: ts).map TextureArg.handle
        m_texturesDirty := true } := by
  induction ts generalizing p t with
  | nil => simp [SetTextures, SetTextureArg_eq]
  | cons u us ih =>
    rw [SetTextures, SetTextureArg_eq, ih]
    simp

/-- C3, as stated, fails: the cache left by `SetRenderTarget({nullptr})` has an
empty pending texture sequence, yet after `SetTexture(A); SetTexture(nullptr);
SetTexture(B)` the next `Bind()` returns early with `false` and passes nothing to
`Set_Textures`. -/
theorem C3_counterexample :
    cacheNoTarget.m_textures = [] ∧
    ∃ out,
      Bind (SetTextures cacheNoTarget
        [TextureArg.texture (some (RHI_Texture.mk 7)), TextureArg.texture none,
         TextureArg.texture (some (RHI_Texture.mk 9))]) native0 = some out ∧
      out.ret = false ∧ out.calls = [] ∧
      DeviceCall.Set_Textures 0 3 [7, 0, 9] ∉ out.calls :=
  ⟨by decide, _, rfl, by decide, by decide, by decide⟩

/-- C3, amended: for every non-empty sequence of `SetTexture` calls (any overload,
null textures allowed) made on a cache whose pending texture sequence is empty,
the next `Bind()`, when it has a defined result and does not take an early
failure return, issues exactly one `Set_Textures` call, with start slot 0, the
number of calls as count and their handles in call order, a null texture giving a
null entry. -/
theorem C3_texture_slot_order (p : RHI_Pipeline) (ts : List TextureArg) (n : Native)
    (hempty : p.m_textures = []) (hts : ts ≠ []) (hs : DerefSafe p)
    (he : BindFailsEarly p = false) :
    ∃ out, Bind (SetTextures p ts) n = some out ∧
      out.calls.filter (fun c => decide (c.group = some Group.textures)) =
        [DeviceCall.Set_Textures 0 ts.length (ts.map TextureArg.handle)] := by
  obtain ⟨t, us, rfl⟩ := List.exists_cons_of_ne_nil hts
  have hs1 : DerefSafe (SetTextures p (t :: us)) := by
    rw [SetTextures_cons_eq]; exact hs
  have he1 : BindFailsEarly (SetTextures p (t :: us)) = false := by
    rw [SetTextures_cons_eq]; exact he
  refine ⟨_, Bind_eq _ n hs1 he1, ?_⟩
  show (Group.order.flatMap _).filter _ = _
  rw [filter_group_trace, groupCalls_textures, SetTextures_cons_eq]
  simp [hempty]

/-- C3, amended, at the input of the spec: `SetTexture(A); SetTexture(nullptr);
SetTexture(B)` on the freshly constructed cache gives the array `[A, null, B]`. -/
theorem C3_texture_slot_order_witness :
    ∃ out,
      Bind (SetTextures cache0
        [TextureArg.texture (some (RHI_Texture.mk 7)), TextureArg.texturePtr none,
         TextureArg.renderTexture (some (RHI_RenderTexture.mk 9 4))]) native0 = some out ∧
      out.calls.filter (fun c => decide (c.group = some Group.textures)) =
        [DeviceCall.Set_Textures 0 3 [7, 0, 9]] :=
  C3_texture_slot_order cache0 _ native0 rfl (by decide) derefSafe_cache0 (by decide)

/-! ## C4 -/

theorem appendNonNull_eq (acc l : List Handle) :
    appendNonNull acc l = acc ++ l.filter (fun v => decide (v ≠ 0)) := by
  induction l generalizing acc with
  | nil => simp [appendNonNull]
  | cons v vs ih =>
    unfold appendNonNull
    by_cases hv : v = 0
    · simp [hv, ih]
    · simp [hv, ih]

theorem SetRenderTarget_success (p : RHI_Pipeline) (a : RenderTargetArg) (d : Handle)
    (c : Bool) (h : (SetRenderTarget p a d c).1 = true) :
    (SetRenderTarget p a d c).2 =
      { p with
        m_renderTargetViews := a.kept
        m_depthStencil := d
        m_renderTargetsClear := c
        m_renderTargetsDirty := true } := by
  cases a with
  | renderTexture rt =>
    cases rt with
    | none => simp [SetRenderTarget, SetRenderTarget_RenderTexture] at h
    | some rt => rfl
  | view v =>
    by_cases hv : v = 0
    · simp [SetRenderTarget, SetRenderTarget_View, hv] at h
    · simp [SetRenderTarget, SetRenderTarget_View, hv, RenderTargetArg.kept]
  | views l =>
    cases l with
    | nil => simp [SetRenderTarget, SetRenderTarget_Views] at h
    | cons v vs =>
      simp [SetRenderTarget, SetRenderTarget_Views, RenderTargetArg.kept, appendNonNull_eq]

/-- C4, as stated, fails: on the freshly constructed cache, a successful
`SetRenderTarget(view 5)` followed by a successful `SetRenderTarget({nullptr}, 7)`
leaves an empty stored sequence, which is not the second list, and the next
`Bind()` returns early with `false` and passes nothing to `Set_RenderTargets`. -/
theorem C4_counterexample :
    ∃ r1 r2 out,
      SetRenderTarget cache0 (RenderTargetArg.view 5) 0 false = (true, r1) ∧
      SetRenderTarget r1 (RenderTargetArg.views [0]) 7 false = (true, r2) ∧
      r2.m_renderTargetViews = [] ∧
      r2.m_renderTargetViews ≠ (RenderTargetArg.views [0]).viewList ∧
      Bind r2 native0 = some out ∧
      out.ret = false ∧ out.calls = [] ∧
      out.calls.filter DeviceCall.isSetRenderTargets = [] :=
  ⟨_, _, _, rfl, rfl, by decide, by decide, rfl, by decide, by decide, by decide⟩

/-- C4, amended: after two successful consecutive `SetRenderTarget` calls (any of
the three overloads) the stored render-target sequence is the views the second
call keeps (its one view for the single-target overloads, the non-null entries of
its list in order for the list overload), nothing of the first call remaining, and
the stored depth-stencil view is the second call's.  When the cache has a device,
no dirty shader or buffer group lacks its resource and that sequence is not empty,
the next `Bind()` issues exactly one `Set_RenderTargets` call, with that sequence,
its length and the second call's depth-stencil view; when that sequence is empty
the next `Bind()` returns `false` and issues no call. -/
theorem C4_render_target_replace (p : RHI_Pipeline) (a1 a2 : RenderTargetArg)
    (d1 d2 : Handle) (c1 c2 : Bool) (n : Native)
    (h1 : (SetRenderTarget p a1 d1 c1).1 = true)
    (h2 : (SetRenderTarget (SetRenderTarget p a1 d1 c1).2 a2 d2 c2).1 = true) :
    (SetRenderTarget (SetRenderTarget p a1 d1 c1).2 a2 d2 c2).2.m_renderTargetViews = a2.kept ∧
    (SetRenderTarget (SetRenderTarget p a1 d1 c1).2 a2 d2 c2).2.m_depthStencil = d2 ∧
    (DerefSafe p → p.m_rhiDevice ≠ none → a2.kept ≠ [] →
      ∃ out, Bind (SetRenderTarget (SetRenderTarget p a1 d1 c1).2 a2 d2 c2).2 n = some out ∧
        out.calls.filter DeviceCall.isSetRenderTargets =
          [DeviceCall.Set_RenderTargets a2.kept.length a2.kept d2]) ∧
    (a2.kept = [] →
      Bind (SetRenderTarget (SetRenderTarget p a1 d1 c1).2 a2 d2 c2).2 n =
        some (Outcome.mk false (SetRenderTarget (SetRenderTarget p a1 d1 c1).2 a2 d2 c2).2 [])) := by
  rw [SetRenderTarget_success _ a2 d2 c2 h2, SetRenderTarget_success p a1 d1 c1 h1]
  refine ⟨rfl, rfl, ?_, ?_⟩
  · intro hs hdev hk
    have hs1 : DerefSafe
        { p with
          m_renderTargetViews := a2.kept
          m_depthStencil := d2
          m_renderTargetsClear := c2
          m_renderTargetsDirty := true } := hs
    have he1 : BindFailsEarly
        { p with
          m_renderTargetViews := a2.kept
          m_depthStencil := d2
          m_renderTargetsClear := c2
          m_renderTargetsDirty := true } = false := by
      cases hd : p.m_rhiDevice
      · exact absurd hd hdev
      · cases hk2 : a2.kept
        · exact absurd hk2 hk
        · simp [BindFailsEarly, hd, hk2]
    refine ⟨_, Bind_eq _ n hs1 he1, ?_⟩
    show (Group.order.flatMap _).filter _ = _
    simp only [Group.order, List.flatMap_cons, List.flatMap_nil, List.append_nil,
      List.filter_append]
    have hother : ∀ g, g ≠ Group.renderTargets → ∀ q : RHI_Pipeline,
        (groupCalls n q g).filter DeviceCall.isSetRenderTargets = [] := by
      intro g hg q
      rw [List.filter_eq_nil_iff]
      intro c hc
      have := groupCalls_group n q g c hc
      cases c <;> simp_all [DeviceCall.group, DeviceCall.isSetRenderTargets]
    rw [hother Group.textures (by decide),
      hother Group.samplers (by decide),
      hother Group.constantBuffers (by decide),
      hother Group.vertexShader (by decide),
      hother Group.pixelShader (by decide),
      hother Group.inputLayout (by decide),
      hother Group.viewport (by decide),
      hother Group.primitiveTopology (by decide),
      hother Group.cullMode (by decide),
      hother Group.fillMode (by decide),
      hother Group.indexBuffer (by decide),
      hother Group.vertexBuffer (by decide),
      hother Group.alphaBlending (by decide)]
    rw [groupCalls_renderTargets]
    simp only [Bind_clears, List.append_nil]
    have hmap : ∀ l : List Handle,
        (l.map (fun v => DeviceCall.ClearRenderTarget v (Vector4.mk 0 0 0 0))).filter
          DeviceCall.isSetRenderTargets = [] := by
      intro l
      rw [List.filter_eq_nil_iff]
      intro c hc
      obtain ⟨v, _, rfl⟩ := List.mem_map.mp hc
      simp [DeviceCall.isSetRenderTargets]
    by_cases hc2 : c2 = true <;> by_cases hd2 : d2 = 0 <;>
      simp [hc2, hd2, List.filter_cons, List.filter_append, hmap, DeviceCall.isSetRenderTargets]
  · intro hk
    apply Bind_early
    simp [BindFailsEarly, hk]

/-- C4, amended, at a concrete input: a one-view call replaced by a list call with
a null entry in the middle. -/
theorem C4_render_target_replace_witness :
    (SetRenderTarget (SetRenderTarget cache0 (RenderTargetArg.view 5) 0 false).2
      (RenderTargetArg.views [6, 0, 8]) 7 true).2.m_renderTargetViews = [6, 8] ∧
    (SetRenderTarget (SetRenderTarget cache0 (RenderTargetArg.view 5) 0 false).2
      (RenderTargetArg.views [6, 0, 8]) 7 true).2.m_depthStencil = 7 ∧
    ∃ out,
      Bind (SetRenderTarget (SetRenderTarget cache0 (RenderTargetArg.view 5) 0 false).2
        (RenderTargetArg.views [6, 0, 8]) 7 true).2 native0 = some out ∧
      out.calls.filter DeviceCall.isSetRenderTargets =
        [DeviceCall.Set_RenderTargets 2 [6, 8] 7] :=
  have h := C4_render_target_replace cache0 (RenderTargetArg.view 5)
    (RenderTargetArg.views [6, 0, 8]) 0 7 false true native0 (by decide) (by decide)
  ⟨h.1, h.2.1, h.2.2.1 derefSafe_cache0 (by decide) (by decide)⟩

/-! ## C5 -/

theorem flatMap_filter_dirty (n : Native) (p : RHI_Pipeline) (l : List Group) :
    (l.filter (fun g => g.dirty p)).flatMap (groupCalls n p) = l.flatMap (groupCalls n p) := by
  induction l with
  | nil => rfl
  | cons g gs ih =>
    by_cases hg : g.dirty p = true
    · simp [List.filter_cons, hg, ih]
    · have hg0 : g.dirty p = false := by simpa using hg
      simp [List.filter_cons, hg0, ih, groupCalls_clean n p g hg0]

theorem pairwise_of_forall_mem {α : Type} (R : α → α → Prop) (l : List α)
    (h : ∀ a ∈ l, ∀ b ∈ l, R a b) : l.Pairwise R := by
  induction l with
  | nil => exact List.Pairwise.nil
  | cons x xs ih =>
    refine List.Pairwise.cons ?_ (ih ?_)
    · intro b hb
      exact h x (List.mem_cons_self x xs) b (List.mem_cons_of_mem x hb)
    · intro a ha b hb
      exact h a (List.mem_cons_of_mem x ha) b (List.mem_cons_of_mem x hb)

theorem pairwise_trace (n : Native) (p : RHI_Pipeline) (l : List Group)
    (hl : l.Pairwise (fun g h => g.rank ≤ h.rank)) :
    (l.flatMap (groupCalls n p)).Pairwise InBindOrder := by
  induction l with
  | nil => exact List.Pairwise.nil
  | cons g gs ih =>
    rw [List.pairwise_cons] at hl
    rw [List.flatMap_cons, List.pairwise_append]
    refine ⟨?_, ih hl.2, ?_⟩
    · apply pairwise_of_forall_mem
      intro a ha b hb
      exact ⟨g, g, groupCalls_group n p g a ha, groupCalls_group n p g b hb, le_refl _⟩
    · intro a ha b hb
      obtain ⟨h, hh, hbh⟩ := List.mem_flatMap.mp hb
      exact ⟨g, h, groupCalls_group n p g a ha, groupCalls_group n p h b hbh, hl.1 h hh⟩

theorem order_sorted : Group.order.Pairwise (fun g h => g.rank ≤ h.rank) := by
  simp [Group.order, Group.rank]

/-- C5, as stated, fails: on the cache left by `SetRenderTarget({nullptr})` and then
`SetTexture(A)`, the texture group is dirty and its block would issue
`Set_Textures`, yet `Bind()` returns early and its trace is empty, which is not
the concatenation of the calls of the dirty groups. -/
theorem C5_counterexample :
    ∃ out,
      Bind (SetTextures cacheNoTarget [TextureArg.texture (some (RHI_Texture.mk 7))]) native0 =
        some out ∧
      out.calls = [] ∧
      Group.textures.dirty
        (SetTextures cacheNoTarget [TextureArg.texture (some (RHI_Texture.mk 7))]) = true ∧
      groupCalls native0
        (SetTextures cacheNoTarget [TextureArg.texture (some (RHI_Texture.mk 7))])
        Group.textures = [DeviceCall.Set_Textures 0 1 [7]] ∧
      out.calls ≠
        (Group.order.filter (fun g => g.dirty
          (SetTextures cacheNoTarget [TextureArg.texture (some (RHI_Texture.mk 7))]))).flatMap
          (groupCalls native0
            (SetTextures cacheNoTarget [TextureArg.texture (some (RHI_Texture.mk 7))])) :=
  ⟨_, rfl, by decide, by decide, by decide, by decide⟩

/-- C5, amended: for every cache on which `Bind()` does not take an early failure
return and no dirty shader or buffer group lacks its resource, the trace of
`Bind()` is the concatenation, in the fixed order render targets (with clears),
textures, samplers, constant buffers, vertex shader, pixel shader, input layout,
viewport, primitive topology, cull mode, fill mode, index buffer, vertex buffer,
alpha blending, of the calls of exactly the groups that were dirty; every call of
a group's block belongs to that group, so the groups of the calls never go back in
that order.  On an early failure return the trace is empty. -/
theorem C5_bind_group_order (p : RHI_Pipeline) (n : Native) :
    (BindFailsEarly p = false → DerefSafe p →
      ∃ out, Bind p n = some out ∧
        out.calls = (Group.order.filter (fun g => g.dirty p)).flatMap (groupCalls n p) ∧
        (∀ g c, c ∈ groupCalls n p g → c.group = some g) ∧
        out.calls.Pairwise InBindOrder) ∧
    (BindFailsEarly p = true → Bind p n = some (Outcome.mk false p [])) := by
  refine ⟨fun he hs => ⟨_, Bind_eq p n hs he, ?_, ?_, ?_⟩, fun he => Bind_early p n he⟩
  · exact (flatMap_filter_dirty n p Group.order).symm
  · intro g c hc
    exact groupCalls_group n p g c hc
  · exact pairwise_trace n p Group.order order_sorted

/-- C5, amended, at concrete inputs: a cache with a render target, a texture, a
cull mode and an alpha-blending change pending, and the cache without a target. -/
theorem C5_bind_group_order_witness :
    (∃ out,
      Bind (SetAlphaBlending (SetCullMode (SetTextures
        (SetRenderTarget_View cache0 5 0 false).2
        [TextureArg.texture (some (RHI_Texture.mk 7))]) Cull_Mode.Cull_Front) true) native0 =
        some out ∧
      out.calls =
        [DeviceCall.Set_DepthEnabled false, DeviceCall.Set_RenderTargets 1 [5] 0,
         DeviceCall.Set_Textures 0 1 [7], DeviceCall.Set_CullMode Cull_Mode.Cull_Front,
         DeviceCall.Set_AlphaBlendingEnabled true]) ∧
    Bind cacheNoTarget native0 = some (Outcome.mk false cacheNoTarget []) :=
  ⟨(C5_bind_group_order (SetAlphaBlending (SetCullMode (SetTextures
        (SetRenderTarget_View cache0 5 0 false).2
        [TextureArg.texture (some (RHI_Texture.mk 7))]) Cull_Mode.Cull_Front) true) native0).1
      (by decide) (by unfold DerefSafe; decide) |>.imp (fun _ h => ⟨h.1, h.2.1.trans (by decide)⟩),
    (C5_bind_group_order cacheNoTarget native0).2 (by decide)⟩

/-! ## C6 -/

/-- C6: for every cache and all native answers, `Bind()` has a defined result
whenever no dirty shader or buffer group lacks its resource, and whenever it does
not take an early failure return (null device, or dirty render-target group with
an empty sequence), in particular whenever it returns `true`, every dirty bit of
the cache is false afterwards. -/
theorem C6_bind_leaves_no_dirty_bit (p : RHI_Pipeline) (n : Native) :
    (DerefSafe p → ∃ out, Bind p n = some out) ∧
    (∀ out, Bind p n = some out → BindFailsEarly p = false → AllClean out.p) ∧
    (∀ out, Bind p n = some out → out.ret = true → AllClean out.p) := by
  refine ⟨fun hs => Bind_defined p n (Or.inl hs), ?_, ?_⟩
  · intro out h he
    rcases Bind_cases p n with ⟨he2, _⟩ | ⟨_, _, hb⟩ | ⟨_, _, hb⟩
    · rw [he] at he2
      cases he2
    · rw [hb] at h
      cases h
      exact Bind_commit_allClean p
    · rw [hb] at h
      cases h
  · intro out h hr
    rcases Bind_cases p n with ⟨_, hb⟩ | ⟨_, _, hb⟩ | ⟨_, _, hb⟩
    · rw [hb] at h
      cases h
      cases hr
    · rw [hb] at h
      cases h
      exact Bind_commit_allClean p
    · rw [hb] at h
      cases h

/-- C6 at a concrete input: a cache with an index buffer, a vertex buffer and an
alpha-blending change pending, on which `Bind()` returns `true`. -/
theorem C6_bind_leaves_no_dirty_bit_witness :
    (∃ out, Bind cacheBuffers native0 = some out) ∧
    AllClean (Bind_commit cacheFront) ∧
    AllClean (Bind_commit cacheBuffers) ∧
    Bind cacheBuffers native0 =
      some (Outcome.mk true (Bind_commit cacheBuffers)
        [DeviceCall.IndexBuffer_Bind (RHI_IndexBuffer.mk 3),
         DeviceCall.VertexBuffer_Bind (RHI_VertexBuffer.mk 4),
         DeviceCall.Set_AlphaBlendingEnabled true]) :=
  ⟨(C6_bind_leaves_no_dirty_bit cacheBuffers native0).1 (by unfold DerefSafe; decide),
    (C6_bind_leaves_no_dirty_bit cacheFront native0).2.1
      (Outcome.mk false (Bind_commit cacheFront) [DeviceCall.Set_CullMode Cull_Mode.Cull_Front])
      (by decide) (by decide),
    (C6_bind_leaves_no_dirty_bit cacheBuffers native0).2.2
      (Outcome.mk true (Bind_commit cacheBuffers)
        [DeviceCall.IndexBuffer_Bind (RHI_IndexBuffer.mk 3),
         DeviceCall.VertexBuffer_Bind (RHI_VertexBuffer.mk 4),
         DeviceCall.Set_AlphaBlendingEnabled true]) (by decide) rfl,
    by decide⟩

/-! ## C7 -/

theorem Bind_ret_eq (p : RHI_Pipeline) (n : Native) (out : Outcome)
    (h : Bind p n = some out) (he : BindFailsEarly p = false) :
    out.ret = ((p.m_indexBufferDirty && n.indexBufferBind) &&
      (p.m_vertexBufferDirty && n.vertexBufferBind) &&
      (p.m_alphaBlendingDirty && n.alphaBlendingEnabled)) := by
  rcases Bind_cases p n with ⟨he2, _⟩ | ⟨_, _, hb⟩ | ⟨_, _, hb⟩
  · rw [he] at he2
    cases he2
  · rw [hb] at h
    cases h
    rfl
  · rw [hb] at h
    cases h

/-- C7, the code at the failing inputs: with a native side on which every
operation succeeds, `Bind()` on the freshly constructed cache reaches its end,
issues no call, so that no operation failed, and returns `false`; and with only an
alpha-blending change pending it issues the one successful
`Set_AlphaBlendingEnabled` call and returns `false` again. -/
theorem C7_bind_result_failing_input :
    native0.indexBufferBind = true ∧ native0.vertexBufferBind = true ∧
    native0.alphaBlendingEnabled = true ∧
    BindFailsEarly cache0 = false ∧
    Bind cache0 native0 = some (Outcome.mk false cache0 []) ∧
    BindFailsEarly (SetAlphaBlending cache0 true) = false ∧
    Bind (SetAlphaBlending cache0 true) native0 =
      some (Outcome.mk false (Bind_commit (SetAlphaBlending cache0 true))
        [DeviceCall.Set_AlphaBlendingEnabled true]) := by
  decide

/-! ## C8 -/

/-- C8, as stated, fails: on the cache left by `SetRenderTarget({nullptr})`, whose
render-target group is dirty with an empty sequence, `Draw(3)` returns `false` but
issues the native draw call, and so does `DrawIndexed(6, 0, 0)`. -/
theorem C8_counterexample :
    cacheNoTarget.m_renderTargetsDirty = true ∧ cacheNoTarget.m_renderTargetViews = [] ∧
    Draw cacheNoTarget native0 3 =
      some (Outcome.mk false cacheNoTarget [DeviceCall.Draw 3]) ∧
    DrawIndexed cacheNoTarget native0 6 0 0 =
      some (Outcome.mk false cacheNoTarget [DeviceCall.DrawIndexed 6 0 0]) ∧
    [DeviceCall.Draw 3].filter DeviceCall.isDraw ≠ [] := by
  decide

/-- C8, amended: for every cache whose render-target group is dirty with an empty
sequence, `Bind()` returns `false`, leaves the cache as it was and issues no
native call at all; and when the cache has a device, `Draw(n)` and
`DrawIndexed(c, i, v)` return `false`, leave the cache as it was and issue no
clear call and no state call, but each still issues its one native draw call.
Such a cache is left by `SetRenderTarget` with a non-empty list of only null
views. -/
theorem C8_empty_render_targets (p : RHI_Pipeline) (n : Native)
    (hd : p.m_renderTargetsDirty = true) (hv : p.m_renderTargetViews = []) :
    Bind p n = some (Outcome.mk false p []) ∧
    (p.m_rhiDevice ≠ none →
      (∀ k, Draw p n k = some (Outcome.mk false p [DeviceCall.Draw k])) ∧
      (∀ c i v, DrawIndexed p n c i v =
        some (Outcome.mk false p [DeviceCall.DrawIndexed c i v]))) ∧
    (∀ (q : RHI_Pipeline) (l : List Handle) (d : Handle) (c : Bool),
      l ≠ [] → (∀ h ∈ l, h = 0) →
      (SetRenderTarget_Views q l d c).1 = true ∧
      (SetRenderTarget_Views q l d c).2.m_renderTargetsDirty = true ∧
      (SetRenderTarget_Views q l d c).2.m_renderTargetViews = []) := by
  have hb : Bind p n = some (Outcome.mk false p []) :=
    Bind_early p n (by simp [BindFailsEarly, hd, hv])
  refine ⟨hb, ?_, ?_⟩
  · intro hdev
    obtain ⟨dev, hdev2⟩ := Option.ne_none_iff_exists'.mp hdev
    constructor
    · intro k
      simp [Draw, hb, hdev2]
    · intro c i v
      simp [DrawIndexed, hb, hdev2]
  · intro q l d c hl hnull
    cases l with
    | nil => exact absurd rfl hl
    | cons x xs =>
      have hf : (x :: xs).filter (fun v => decide (v ≠ 0)) = [] := by
        rw [List.filter_eq_nil_iff]
        intro a ha
        simp [hnull a ha]
      simp only [SetRenderTarget_Views, List.isEmpty_cons, Bool.false_eq_true, if_false,
        appendNonNull_eq, hf, List.append_nil, and_self]

/-- C8, amended, at a concrete input: the cache left by
`SetRenderTarget({nullptr})`. -/
theorem C8_empty_render_targets_witness :
    Bind cacheNoTarget native0 = some (Outcome.mk false cacheNoTarget []) ∧
    (∀ k, Draw cacheNoTarget native0 k =
      some (Outcome.mk false cacheNoTarget [DeviceCall.Draw k])) ∧
    (∀ c i v, DrawIndexed cacheNoTarget native0 c i v =
      some (Outcome.mk false cacheNoTarget [DeviceCall.DrawIndexed c i v])) ∧
    (SetRenderTarget_Views cache0 [0, 0] 0 false).2.m_renderTargetViews = [] :=
  have h := C8_empty_render_targets cacheNoTarget native0 (by decide) (by decide)
  ⟨h.1, (h.2.1 (by decide)).1, (h.2.1 (by decide)).2,
    (h.2.2 cache0 [0, 0] 0 false (by decide) (by decide)).2.2⟩

/-! ## C9 -/

theorem Reset_frame (p q : RHI_Pipeline) (calls : List DeviceCall)
    (h : Reset p = some (q, calls)) :
    q.m_rhiDevice = p.m_rhiDevice ∧
    q.m_vertexShader = p.m_vertexShader ∧ q.m_vertexShaderDirty = p.m_vertexShaderDirty ∧
    q.m_pixelShader = p.m_pixelShader ∧ q.m_pixelShaderDirty = p.m_pixelShaderDirty ∧
    q.m_indexBuffer = p.m_indexBuffer ∧ q.m_indexBufferDirty = p.m_indexBufferDirty ∧
    q.m_vertexBuffer = p.m_vertexBuffer ∧ q.m_vertexBufferDirty = p.m_vertexBufferDirty ∧
    q.m_renderTargetsClear = p.m_renderTargetsClear ∧
    q.m_renderTargetsDirty = p.m_renderTargetsDirty ∧
    q.m_renderTargetViews = p.m_renderTargetViews ∧
    p.m_rhiDevice ≠ none ∧
    hasClear calls = false := by
  unfold Reset at h
  cases hd : p.m_rhiDevice with
  | none => simp [hd] at h
  | some dev =>
    simp only [hd] at h
    split_ifs at h <;> simp only [Option.some.injEq, Prod.mk.injEq] at h <;>
      obtain ⟨rfl, rfl⟩ := h <;> simp [hd, hasClear, DeviceCall.isClear]

theorem Draw_eq (p : RHI_Pipeline) (n : Native) (k : Nat) (r : Outcome)
    (h : Draw p n k = some r) :
    ∃ b, Bind p n = some b ∧ r = Outcome.mk b.ret b.p (b.calls ++ [DeviceCall.Draw k]) := by
  unfold Draw at h
  cases hb : Bind p n with
  | none => simp [hb] at h
  | some b =>
    simp only [hb] at h
    cases hd : b.p.m_rhiDevice with
    | none => simp [hd] at h
    | some dev =>
      simp only [hd, Option.some.injEq] at h
      exact ⟨b, rfl, h.symm⟩

theorem DrawIndexed_eq (p : RHI_Pipeline) (n : Native) (c i v : Nat) (r : Outcome)
    (h : DrawIndexed p n c i v = some r) :
    ∃ b, Bind p n = some b ∧
      r = Outcome.mk b.ret b.p (b.calls ++ [DeviceCall.DrawIndexed c i v]) := by
  unfold DrawIndexed at h
  cases hb : Bind p n with
  | none => simp [hb] at h
  | some b =>
    simp only [hb] at h
    cases hd : b.p.m_rhiDevice with
    | none => simp [hd] at h
    | some dev =>
      simp only [hd, Option.some.injEq] at h
      exact ⟨b, rfl, h.symm⟩

theorem Bind_preserves_inv (p : RHI_Pipeline) (n : Native) (b : Outcome)
    (h : Bind p n = some b) (hinv : Inv p) : Inv b.p := by
  rcases Bind_cases p n with ⟨_, hb⟩ | ⟨_, _, hb⟩ | ⟨_, _, hb⟩
  · rw [hb] at h
    cases h
    exact hinv
  · rw [hb] at h
    cases h
    refine ⟨hinv.1, Bind_commit_derefSafe p, ?_⟩
    intro hc
    exfalso
    have h3 := hinv.2.2
    simp only [Bind_commit] at hc
    cases hd : p.m_renderTargetsDirty
    · rw [hd] at hc
      simp only [Bool.false_eq_true, if_false] at hc
      rw [h3 hc] at hd
      cases hd
    · rw [hd] at hc
      simp at hc
  · rw [hb] at h
    cases h

theorem SetInputLayout_frame (p q : RHI_Pipeline) (l : Option RHI_InputLayout) (b : Bool)
    (h : SetInputLayout p l = some (b, q)) :
    q = p ∨ ∃ x y, q = { p with
      m_inputLayout := x, m_inputLayoutBuffer := y, m_inputLayoutDirty := true } := by
  unfold SetInputLayout at h
  cases l with
  | none => simp at h
  | some il =>
    simp only at h
    split_ifs at h
    · simp only [Option.some.injEq, Prod.mk.injEq] at h
      exact Or.inl h.2.symm
    · simp only [Option.some.injEq, Prod.mk.injEq] at h
      exact Or.inr ⟨_, _, h.2.symm⟩

theorem SetVertexShader_frame (p q : RHI_Pipeline) (s : Option RHI_Shader) (b : Bool)
    (h : SetVertexShader p s = some (b, q)) :
    q.m_rhiDevice = p.m_rhiDevice ∧
    q.m_pixelShader = p.m_pixelShader ∧ q.m_pixelShaderDirty = p.m_pixelShaderDirty ∧
    q.m_indexBuffer = p.m_indexBuffer ∧ q.m_indexBufferDirty = p.m_indexBufferDirty ∧
    q.m_vertexBuffer = p.m_vertexBuffer ∧ q.m_vertexBufferDirty = p.m_vertexBufferDirty ∧
    q.m_renderTargetsClear = p.m_renderTargetsClear ∧
    q.m_renderTargetsDirty = p.m_renderTargetsDirty ∧
    q.m_renderTargetViews = p.m_renderTargetViews ∧
    ((q.m_vertexShader = p.m_vertexShader ∧ q.m_vertexShaderDirty = p.m_vertexShaderDirty) ∨
      (q.m_vertexShader ≠ none ∧ q.m_vertexShaderDirty = true)) := by
  unfold SetVertexShader at h
  cases s with
  | none =>
    simp only [Option.some.injEq, Prod.mk.injEq] at h
    obtain ⟨_, rfl⟩ := h
    simp
  | some sh =>
    simp only at h
    split_ifs at h
    · cases hl : SetInputLayout p sh.inputLayoutPtr with
      | none => simp [hl] at h
      | some r =>
        obtain ⟨b1, p1⟩ := r
        simp only [hl, Option.some.injEq, Prod.mk.injEq] at h
        obtain ⟨_, rfl⟩ := h
        rcases SetInputLayout_frame p p1 _ b1 hl with rfl | ⟨x, y, rfl⟩ <;> simp
    · simp only [Option.some.injEq, Prod.mk.injEq] at h
      obtain ⟨_, rfl⟩ := h
      simp

theorem SetPixelShader_frame (p : RHI_Pipeline) (s : Option RHI_Shader) :
    (SetPixelShader p s).2.m_rhiDevice = p.m_rhiDevice ∧
    (SetPixelShader p s).2.m_vertexShader = p.m_vertexShader ∧
    (SetPixelShader p s).2.m_vertexShaderDirty = p.m_vertexShaderDirty ∧
    (SetPixelShader p s).2.m_indexBuffer = p.m_indexBuffer ∧
    (SetPixelShader p s).2.m_indexBufferDirty = p.m_indexBufferDirty ∧
    (SetPixelShader p s).2.m_vertexBuffer = p.m_vertexBuffer ∧
    (SetPixelShader p s).2.m_vertexBufferDirty = p.m_vertexBufferDirty ∧
    (SetPixelShader p s).2.m_renderTargetsClear = p.m_renderTargetsClear ∧
    (SetPixelShader p s).2.m_renderTargetsDirty = p.m_renderTargetsDirty ∧
    (SetPixelShader p s).2.m_renderTargetViews = p.m_renderTargetViews ∧
    (((SetPixelShader p s).2.m_pixelShader = p.m_pixelShader ∧
        (SetPixelShader p s).2.m_pixelShaderDirty = p.m_pixelShaderDirty) ∨
      ((SetPixelShader p s).2.m_pixelShader ≠ none ∧
        (SetPixelShader p s).2.m_pixelShaderDirty = true)) := by
  unfold SetPixelShader
  cases s with
  | none => simp
  | some sh =>
    simp only
    split_ifs <;> simp

theorem exec_preserves_inv (op : Op) (n : Native) (p : RHI_Pipeline) (r : Outcome)
    (h : exec op n p = some r) (hinv : Inv p) : Inv r.p := by
  obtain ⟨hdev, ⟨hs1, hs2, hs3, hs4⟩, hclear⟩ := hinv
  cases op <;> simp only [exec] at h
  case DrawIndexed c i v =>
    obtain ⟨b, hb, rfl⟩ := DrawIndexed_eq p n c i v r h
    exact Bind_preserves_inv p n b hb ⟨hdev, ⟨hs1, hs2, hs3, hs4⟩, hclear⟩
  case Draw k =>
    obtain ⟨b, hb, rfl⟩ := Draw_eq p n k r h
    exact Bind_preserves_inv p n b hb ⟨hdev, ⟨hs1, hs2, hs3, hs4⟩, hclear⟩
  case Bind => exact Bind_preserves_inv p n r h ⟨hdev, ⟨hs1, hs2, hs3, hs4⟩, hclear⟩
  case Reset =>
    obtain ⟨⟨q, calls⟩, hq, rfl⟩ := Option.map_eq_some'.mp h
    obtain ⟨e1, e2, e3, e4, e5, e6, e7, e8, e9, e10, e11, _, _, _⟩ := Reset_frame p q calls hq
    refine ⟨?_, ⟨?_, ?_, ?_, ?_⟩, ?_⟩ <;> simp only [e1, e2, e3, e4, e5, e6, e7, e8, e9, e10, e11] <;>
      assumption
  case SetShader s =>
    obtain ⟨q, hq, rfl⟩ := Option.map_eq_some'.mp h
    unfold SetShader at hq
    cases hv : SetVertexShader p s with
    | none => simp [hv] at hq
    | some x =>
      obtain ⟨b1, p1⟩ := x
      simp only [hv, Option.some.injEq] at hq
      subst hq
      obtain ⟨e1, e2, e3, e4, e5, e6, e7, e8, e9, _, e11⟩ := SetVertexShader_frame p p1 s b1 hv
      obtain ⟨f1, f2, f3, f4, f5, f6, f7, f8, f9, _, f11⟩ := SetPixelShader_frame p1 s
      refine ⟨?_, ⟨?_, ?_, ?_, ?_⟩, ?_⟩ <;>
        simp only [Outcome.ofVoid, f1, f2, f3, f4, f5, f6, f7, f8, f9, e1, e2, e3, e4, e5, e6,
          e7, e8, e9]
      · exact hdev
      · rcases e11 with ⟨g1, g2⟩ | ⟨g1, g2⟩
        · rw [g1, g2]; exact hs1
        · exact fun _ => g1
      · rcases f11 with ⟨g1, g2⟩ | ⟨g1, g2⟩
        · rw [g1, g2, e2, e3]; exact hs2
        · exact fun _ => g1
      · exact hs3
      · exact hs4
      · exact hclear
  case SetVertexShader s =>
    obtain ⟨⟨b1, p1⟩, hv, rfl⟩ := Option.map_eq_some'.mp h
    obtain ⟨e1, e2, e3, e4, e5, e6, e7, e8, e9, _, e11⟩ := SetVertexShader_frame p p1 s b1 hv
    refine ⟨?_, ⟨?_, ?_, ?_, ?_⟩, ?_⟩ <;>
      simp only [Outcome.ofSet, e1, e2, e3, e4, e5, e6, e7, e8, e9]
    · exact hdev
    · rcases e11 with ⟨g1, g2⟩ | ⟨g1, g2⟩
      · rw [g1, g2]; exact hs1
      · exact fun _ => g1
    · exact hs2
    · exact hs3
    · exact hs4
    · exact hclear
  case SetPixelShader s =>
    simp only [Option.some.injEq] at h
    subst h
    obtain ⟨f1, f2, f3, f4, f5, f6, f7, f8, f9, _, f11⟩ := SetPixelShader_frame p s
    refine ⟨?_, ⟨?_, ?_, ?_, ?_⟩, ?_⟩ <;>
      simp only [Outcome.ofSet, f1, f2, f3, f4, f5, f6, f7, f8, f9]
    · exact hdev
    · exact hs1
    · rcases f11 with ⟨g1, g2⟩ | ⟨g1, g2⟩
      · rw [g1, g2]; exact hs2
      · exact fun _ => g1
    · exact hs3
    · exact hs4
    · exact hclear
  case SetInputLayout l =>
    obtain ⟨⟨b1, p1⟩, hv, rfl⟩ := Option.map_eq_some'.mp h
    rcases SetInputLayout_frame p p1 l b1 hv with rfl | ⟨x, y, rfl⟩
    · exact ⟨hdev, ⟨hs1, hs2, hs3, hs4⟩, hclear⟩
    · exact ⟨hdev, ⟨hs1, hs2, hs3, hs4⟩, hclear⟩
  case SetIndexBuffer b =>
    simp only [Option.some.injEq] at h
    subst h
    cases b with
    | none => exact ⟨hdev, ⟨hs1, hs2, hs3, hs4⟩, hclear⟩
    | some ib =>
      refine ⟨hdev, ⟨hs1, hs2, ?_, hs4⟩, hclear⟩
      intro _
      simp [Outcome.ofSet, SetIndexBuffer]
  case SetVertexBuffer b =>
    simp only [Option.some.injEq] at h
    subst h
    cases b with
    | none => exact ⟨hdev, ⟨hs1, hs2, hs3, hs4⟩, hclear⟩
    | some vb =>
      refine ⟨hdev, ⟨hs1, hs2, hs3, ?_⟩, hclear⟩
      intro _
      simp [Outcome.ofSet, SetVertexBuffer]
  case SetSampler s =>
    simp only [Option.some.injEq] at h
    subst h
    cases s <;> exact ⟨hdev, ⟨hs1, hs2, hs3, hs4⟩, hclear⟩
  case SetTexture_RenderTexture t =>
    simp only [Option.some.injEq] at h
    subst h
    exact ⟨hdev, ⟨hs1, hs2, hs3, hs4⟩, hclear⟩
  case SetTexture t =>
    simp only [Option.some.injEq] at h
    subst h
    exact ⟨hdev, ⟨hs1, hs2, hs3, hs4⟩, hclear⟩
  case SetTexture_Ptr t =>
    simp only [Option.some.injEq] at h
    subst h
    exact ⟨hdev, ⟨hs1, hs2, hs3, hs4⟩, hclear⟩
  case SetRenderTarget_RenderTexture rt d c =>
    simp only [Option.some.injEq] at h
    subst h
    cases rt with
    | none => exact ⟨hdev, ⟨hs1, hs2, hs3, hs4⟩, hclear⟩
    | some x => exact ⟨hdev, ⟨hs1, hs2, hs3, hs4⟩, fun _ => rfl⟩
  case SetRenderTarget_View v d c =>
    simp only [Option.some.injEq] at h
    subst h
    simp only [Outcome.ofSet, SetRenderTarget_View]
    split_ifs
    · exact ⟨hdev, ⟨hs1, hs2, hs3, hs4⟩, hclear⟩
    · exact ⟨hdev, ⟨hs1, hs2, hs3, hs4⟩, fun _ => rfl⟩
  case SetRenderTarget_Views l d c =>
    simp only [Option.some.injEq] at h
    subst h
    simp only [Outcome.ofSet, SetRenderTarget_Views]
    split_ifs
    · exact ⟨hdev, ⟨hs1, hs2, hs3, hs4⟩, hclear⟩
    · exact ⟨hdev, ⟨hs1, hs2, hs3, hs4⟩, fun _ => rfl⟩
  case SetConstantBuffer b s sc =>
    simp only [Option.some.injEq] at h
    subst h
    cases b <;> exact ⟨hdev, ⟨hs1, hs2, hs3, hs4⟩, hclear⟩
  case SetPrimitiveTopology m =>
    simp only [Option.some.injEq] at h
    subst h
    simp only [Outcome.ofVoid, SetPrimitiveTopology]
    split_ifs <;> exact ⟨hdev, ⟨hs1, hs2, hs3, hs4⟩, hclear⟩
  case SetCullMode m =>
    simp only [Option.some.injEq] at h
    subst h
    simp only [Outcome.ofVoid, SetCullMode]
    split_ifs <;> exact ⟨hdev, ⟨hs1, hs2, hs3, hs4⟩, hclear⟩
  case SetFillMode m =>
    simp only [Option.some.injEq] at h
    subst h
    simp only [Outcome.ofVoid, SetFillMode]
    split_ifs <;> exact ⟨hdev, ⟨hs1, hs2, hs3, hs4⟩, hclear⟩
  case SetAlphaBlending m =>
    simp only [Option.some.injEq] at h
    subst h
    simp only [Outcome.ofVoid, SetAlphaBlending]
    split_ifs <;> exact ⟨hdev, ⟨hs1, hs2, hs3, hs4⟩, hclear⟩
  case SetViewport m =>
    simp only [Option.some.injEq] at h
    subst h
    simp only [Outcome.ofVoid, SetViewport]
    split_ifs <;> exact ⟨hdev, ⟨hs1, hs2, hs3, hs4⟩, hclear⟩

theorem reachable_inv (p : RHI_Pipeline) (hr : Reachable p) : Inv p := by
  induction hr with
  | construct dev q calls h =>
    unfold RHI_Pipeline.construct at h
    obtain ⟨e1, e2, e3, e4, e5, e6, e7, e8, e9, e10, e11, _, hdev, _⟩ :=
      Reset_frame _ q calls h
    refine ⟨?_, ⟨?_, ?_, ?_, ?_⟩, ?_⟩ <;>
      simp only [e1, e2, e3, e4, e5, e6, e7, e8, e9, e10, e11]
    · exact hdev
    all_goals simp [RHI_Pipeline.initial]
  | step op n q r _ h ih => exact exec_preserves_inv op n q r h ih

theorem isClear_group (c : DeviceCall) (h : c.isClear = true) :
    c.group = some Group.renderTargets := by
  cases c <;> simp_all [DeviceCall.isClear, DeviceCall.group]

theorem hasClear_append_draw (calls : List DeviceCall) (c : DeviceCall)
    (hc : c.isClear = false) : hasClear (calls ++ [c]) = hasClear calls := by
  simp [hasClear, hc]

theorem Bind_clear (p : RHI_Pipeline) (n : Native) (b : Outcome) (h : Bind p n = some b) :
    (hasClear b.calls = true → b.p.m_renderTargetsDirty = false) ∧
    (p.m_renderTargetsDirty = false →
      b.p.m_renderTargetsDirty = false ∧ hasClear b.calls = false) := by
  have hno : p.m_renderTargetsDirty = false → hasClear b.calls = false := by
    intro hd
    by_contra hc
    have hc1 : hasClear b.calls = true := by simpa using hc
    obtain ⟨c, hcm, hcc⟩ := List.any_eq_true.mp hc1
    obtain ⟨g, hg, hgd⟩ := Bind_calls_dirty p n b h c hcm
    rw [isClear_group c hcc] at hg
    cases hg
    simp only [Group.dirty] at hgd
    rw [hd] at hgd
    cases hgd
  rcases Bind_cases p n with ⟨_, hb⟩ | ⟨_, _, hb⟩ | ⟨_, _, hb⟩
  · rw [hb] at h
    cases h
    exact ⟨fun hc => by simp [hasClear] at hc, fun hd => ⟨hd, rfl⟩⟩
  · rw [hb] at h
    cases h
    exact ⟨fun _ => rfl, fun hd => ⟨rfl, hno hd⟩⟩
  · rw [hb] at h
    cases h

theorem exec_clear (op : Op) (n : Native) (p : RHI_Pipeline) (r : Outcome)
    (h : exec op n p = some r) :
    (hasClear r.calls = true → r.p.m_renderTargetsDirty = false) ∧
    (op.isSetRenderTarget = false → p.m_renderTargetsDirty = false →
      r.p.m_renderTargetsDirty = false ∧ hasClear r.calls = false) := by
  cases op <;> simp only [exec] at h
  case DrawIndexed c i v =>
    obtain ⟨b, hb, rfl⟩ := DrawIndexed_eq p n c i v r h
    simp only [hasClear_append_draw _ _ (show (DeviceCall.DrawIndexed c i v).isClear = false
      from rfl)]
    exact ⟨(Bind_clear p n b hb).1, fun _ => (Bind_clear p n b hb).2⟩
  case Draw k =>
    obtain ⟨b, hb, rfl⟩ := Draw_eq p n k r h
    simp only [hasClear_append_draw _ _ (show (DeviceCall.Draw k).isClear = false from rfl)]
    exact ⟨(Bind_clear p n b hb).1, fun _ => (Bind_clear p n b hb).2⟩
  case Bind => exact ⟨(Bind_clear p n r h).1, fun _ => (Bind_clear p n r h).2⟩
  case Reset =>
    obtain ⟨⟨q, calls⟩, hq, rfl⟩ := Option.map_eq_some'.mp h
    obtain ⟨_, _, _, _, _, _, _, _, _, _, e11, _, _, e14⟩ := Reset_frame p q calls hq
    refine ⟨fun hc => ?_, fun _ hd => ⟨?_, e14⟩⟩
    · have hc2 : hasClear calls = true := hc
      rw [e14] at hc2
      cases hc2
    · show q.m_renderTargetsDirty = false
      rw [e11]
      exact hd
  case SetShader s =>
    obtain ⟨q, hq, rfl⟩ := Option.map_eq_some'.mp h
    unfold SetShader at hq
    cases hv : SetVertexShader p s with
    | none => simp [hv] at hq
    | some x =>
      obtain ⟨b1, p1⟩ := x
      simp only [hv, Option.some.injEq] at hq
      subst hq
      obtain ⟨_, _, _, _, _, _, _, _, e9, _, _⟩ := SetVertexShader_frame p p1 s b1 hv
      obtain ⟨_, _, _, _, _, _, _, _, f9, _, _⟩ := SetPixelShader_frame p1 s
      simp only [Outcome.ofVoid, f9, e9]
      exact ⟨fun hc => by simp [hasClear] at hc, fun _ hd => ⟨hd, rfl⟩⟩
  case SetVertexShader s =>
    obtain ⟨⟨b1, p1⟩, hv, rfl⟩ := Option.map_eq_some'.mp h
    obtain ⟨_, _, _, _, _, _, _, _, e9, _, _⟩ := SetVertexShader_frame p p1 s b1 hv
    simp only [Outcome.ofSet, e9]
    exact ⟨fun hc => by simp [hasClear] at hc, fun _ hd => ⟨hd, rfl⟩⟩
  case SetPixelShader s =>
    simp only [Option.some.injEq] at h
    subst h
    obtain ⟨_, _, _, _, _, _, _, _, f9, _, _⟩ := SetPixelShader_frame p s
    simp only [Outcome.ofSet, f9]
    exact ⟨fun hc => by simp [hasClear] at hc, fun _ hd => ⟨hd, rfl⟩⟩
  case SetInputLayout l =>
    obtain ⟨⟨b1, p1⟩, hv, rfl⟩ := Option.map_eq_some'.mp h
    rcases SetInputLayout_frame p p1 l b1 hv with rfl | ⟨x, y, rfl⟩ <;>
      exact ⟨fun hc => by simp [hasClear, Outcome.ofSet] at hc, fun _ hd => ⟨hd, rfl⟩⟩
  case SetIndexBuffer b =>
    simp only [Option.some.injEq] at h
    subst h
    cases b <;> exact ⟨fun hc => by simp [hasClear, Outcome.ofSet] at hc, fun _ hd => ⟨hd, rfl⟩⟩
  case SetVertexBuffer b =>
    simp only [Option.some.injEq] at h
    subst h
    cases b <;> exact ⟨fun hc => by simp [hasClear, Outcome.ofSet] at hc, fun _ hd => ⟨hd, rfl⟩⟩
  case SetSampler s =>
    simp only [Option.some.injEq] at h
    subst h
    cases s <;> exact ⟨fun hc => by simp [hasClear, Outcome.ofSet] at hc, fun _ hd => ⟨hd, rfl⟩⟩
  case SetTexture_RenderTexture t =>
    simp only [Option.some.injEq] at h
    subst h
    exact ⟨fun hc => by simp [hasClear, Outcome.ofSet] at hc, fun _ hd => ⟨hd, rfl⟩⟩
  case SetTexture t =>
    simp only [Option.some.injEq] at h
    subst h
    exact ⟨fun hc => by simp [hasClear, Outcome.ofSet] at hc, fun _ hd => ⟨hd, rfl⟩⟩
  case SetTexture_Ptr t =>
    simp only [Option.some.injEq] at h
    subst h
    exact ⟨fun hc => by simp [hasClear, Outcome.ofSet] at hc, fun _ hd => ⟨hd, rfl⟩⟩
  case SetRenderTarget_RenderTexture rt d c =>
    simp only [Option.some.injEq] at h
    subst h
    exact ⟨fun hc => by simp [hasClear, Outcome.ofSet] at hc, fun hop => by cases hop⟩
  case SetRenderTarget_View v d c =>
    simp only [Option.some.injEq] at h
    subst h
    exact ⟨fun hc => by simp [hasClear, Outcome.ofSet] at hc, fun hop => by cases hop⟩
  case SetRenderTarget_Views l d c =>
    simp only [Option.some.injEq] at h
    subst h
    exact ⟨fun hc => by simp [hasClear, Outcome.ofSet] at hc, fun hop => by cases hop⟩
  case SetConstantBuffer b s sc =>
    simp only [Option.some.injEq] at h
    subst h
    cases b <;> exact ⟨fun hc => by simp [hasClear, Outcome.ofSet] at hc, fun _ hd => ⟨hd, rfl⟩⟩
  case SetPrimitiveTopology m =>
    simp only [Option.some.injEq] at h
    subst h
    simp only [Outcome.ofVoid, SetPrimitiveTopology]
    split_ifs <;> exact ⟨fun hc => by simp [hasClear] at hc, fun _ hd => ⟨hd, rfl⟩⟩
  case SetCullMode m =>
    simp only [Option.some.injEq] at h
    subst h
    simp only [Outcome.ofVoid, SetCullMode]
    split_ifs <;> exact ⟨fun hc => by simp [hasClear] at hc, fun _ hd => ⟨hd, rfl⟩⟩
  case SetFillMode m =>
    simp only [Option.some.injEq] at h
    subst h
    simp only [Outcome.ofVoid, SetFillMode]
    split_ifs <;> exact ⟨fun hc => by simp [hasClear] at hc, fun _ hd => ⟨hd, rfl⟩⟩
  case SetAlphaBlending m =>
    simp only [Option.some.injEq] at h
    subst h
    simp only [Outcome.ofVoid, SetAlphaBlending]
    split_ifs <;> exact ⟨fun hc => by simp [hasClear] at hc, fun _ hd => ⟨hd, rfl⟩⟩
  case SetViewport m =>
    simp only [Option.some.injEq] at h
    subst h
    simp only [Outcome.ofVoid, SetViewport]
    split_ifs <;> exact ⟨fun hc => by simp [hasClear] at hc, fun _ hd => ⟨hd, rfl⟩⟩

theorem run_cons (p : RHI_Pipeline) (op : Op) (n : Native) (rest : List (Op × Native))
    (traces : List (List DeviceCall)) (q : RHI_Pipeline)
    (h : run p ((op, n) :: rest) = some (traces, q)) :
    ∃ r ts, exec op n p = some r ∧ run r.p rest = some (ts, q) ∧ traces = r.calls :: ts := by
  unfold run at h
  cases he : exec op n p with
  | none => simp [he] at h
  | some r =>
    simp only [he] at h
    cases hr : run r.p rest with
    | none => simp [hr] at h
    | some x =>
      obtain ⟨ts, q2⟩ := x
      simp only [hr, Option.some.injEq, Prod.mk.injEq] at h
      exact ⟨r, ts, rfl, by rw [hr, h.2], h.1.symm⟩

theorem run_no_clear (ops : List (Op × Native)) (p : RHI_Pipeline)
    (traces : List (List DeviceCall)) (q : RHI_Pipeline)
    (hops : ∀ o ∈ ops, o.1.isSetRenderTarget = false)
    (hd : p.m_renderTargetsDirty = false) (h : run p ops = some (traces, q)) :
    traces.countP hasClear = 0 := by
  induction ops generalizing p traces with
  | nil =>
    simp only [run, Option.some.injEq, Prod.mk.injEq] at h
    rw [← h.1]
    rfl
  | cons o rest ih =>
    obtain ⟨op, n⟩ := o
    obtain ⟨r, ts, he, hr, rfl⟩ := run_cons p op n rest traces q h
    have h2 := (exec_clear op n p r he).2 (hops (op, n) (List.mem_cons_self _ _)) hd
    have h3 := ih r.p ts (fun o ho => hops o (List.mem_cons_of_mem _ ho)) h2.1 hr
    rw [List.countP_cons, h3, h2.2]
    rfl

theorem run_at_most_one_clear (ops : List (Op × Native)) (p : RHI_Pipeline)
    (traces : List (List DeviceCall)) (q : RHI_Pipeline)
    (hops : ∀ o ∈ ops, o.1.isSetRenderTarget = false)
    (h : run p ops = some (traces, q)) :
    traces.countP hasClear ≤ 1 := by
  induction ops generalizing p traces with
  | nil =>
    simp only [run, Option.some.injEq, Prod.mk.injEq] at h
    rw [← h.1]
    simp
  | cons o rest ih =>
    obtain ⟨op, n⟩ := o
    obtain ⟨r, ts, he, hr, rfl⟩ := run_cons p op n rest traces q h
    have hrest : ∀ o ∈ rest, o.1.isSetRenderTarget = false :=
      fun o ho => hops o (List.mem_cons_of_mem _ ho)
    rw [List.countP_cons]
    cases hc : hasClear r.calls
    · have := ih r.p ts hrest hr
      simpa using this
    · have hclean := (exec_clear op n p r he).1 hc
      rw [run_no_clear rest r.p ts q hrest hclean hr]
      simp

/-- C9, as stated, fails: the cache left by the constructor followed by
`SetRenderTarget({nullptr}, nullptr, true)` is reachable through the public
operations and requests a clear, but the next `Bind()` returns early with `false`
and leaves the clear request set. -/
theorem C9_counterexample :
    Reachable cacheNoTarget ∧ cacheNoTarget.m_renderTargetsClear = true ∧
    ∃ out, Bind cacheNoTarget native0 = some out ∧ out.ret = false ∧
      out.p.m_renderTargetsClear = true :=
  ⟨reachable_cacheNoTarget, by decide, _, rfl, by decide, by decide⟩

/-- C9, amended: for every cache reachable through the public operations, the next
`Bind()` has a defined result; when it does not take the early failure return the
clear request is false afterwards, and when it does the cache is left as it was
and no call is issued.  Hence a clear requested by one `SetRenderTarget` call is
performed at most once: in every run of public calls from the cache that holds no
further `SetRenderTarget`, at most one call issues a clear. -/
theorem C9_clear_on_bind_one_shot (p : RHI_Pipeline) (n : Native) (hr : Reachable p) :
    ∃ out, Bind p n = some out ∧
      (BindFailsEarly p = false → out.p.m_renderTargetsClear = false) ∧
      (BindFailsEarly p = true → out.p = p ∧ out.calls = []) ∧
      (∀ (ops : List (Op × Native)) (traces : List (List DeviceCall)) (q : RHI_Pipeline),
        (∀ o ∈ ops, o.1.isSetRenderTarget = false) → run p ops = some (traces, q) →
        traces.countP hasClear ≤ 1) := by
  obtain ⟨hdev, hs, hclear⟩ := reachable_inv p hr
  obtain ⟨out, hout⟩ := Bind_defined p n (Or.inl hs)
  refine ⟨out, hout, ?_, ?_, ?_⟩
  · intro he
    have hi := Bind_preserves_inv p n out hout ⟨hdev, hs, hclear⟩
    have hclean : AllClean out.p := by
      rw [Bind_eq p n hs he] at hout
      cases hout
      exact Bind_commit_allClean p
    by_contra hc
    have h1 := hi.2.2 (by simpa using hc)
    have h2 := hclean Group.renderTargets
    simp only [Group.dirty] at h2
    rw [h1] at h2
    cases h2
  · intro he
    rw [Bind_early p n he] at hout
    cases hout
    exact ⟨rfl, rfl⟩
  · intro ops traces q hops hrun
    exact run_at_most_one_clear ops p traces q hops hrun

/-- C9, amended, at a concrete input: the cache left by the constructor followed
by `SetRenderTarget(view 5, depth 6, clear)`; the first `Bind()` clears, the
second does not. -/
theorem C9_clear_on_bind_one_shot_witness :
    ∃ out, Bind (SetRenderTarget_View cache0 5 6 true).2 native0 = some out ∧
      out.p.m_renderTargetsClear = false ∧
      (run (SetRenderTarget_View cache0 5 6 true).2 [(Op.Bind, native0), (Op.Bind, native0)]).map
        (fun x => x.1.countP hasClear) = some 1 :=
  (C9_clear_on_bind_one_shot (SetRenderTarget_View cache0 5 6 true).2 native0
    (Reachable.step (Op.SetRenderTarget_View 5 6 true) native0 cache0 _ reachable_cache0 rfl)).imp
    (fun _ h => ⟨h.1, h.2.1 (by decide), by decide⟩)

/-! ## C10 -/

/-- C10, the code at the failing input and at the other invalid arguments: on
every cache a null shader, index buffer, vertex buffer, sampler, constant buffer
or render target and an empty render-target list are reported as failure with no
native call and the cache unchanged, but `SetInputLayout(nullptr)` dereferences
the null pointer and has no defined result. -/
theorem C10_invalid_arguments (p : RHI_Pipeline) (n : Native) :
    exec (Op.SetInputLayout none) n p = none ∧
    SetInputLayout p none = none ∧
    exec (Op.SetVertexShader none) n p = some (Outcome.mk false p []) ∧
    exec (Op.SetPixelShader none) n p = some (Outcome.mk false p []) ∧
    exec (Op.SetIndexBuffer none) n p = some (Outcome.mk false p []) ∧
    exec (Op.SetVertexBuffer none) n p = some (Outcome.mk false p []) ∧
    exec (Op.SetSampler none) n p = some (Outcome.mk false p []) ∧
    (∀ slot scope,
      exec (Op.SetConstantBuffer none slot scope) n p = some (Outcome.mk false p [])) ∧
    (∀ d c,
      exec (Op.SetRenderTarget_RenderTexture none d c) n p = some (Outcome.mk false p [])) ∧
    (∀ d c, exec (Op.SetRenderTarget_View 0 d c) n p = some (Outcome.mk false p [])) ∧
    (∀ d c, exec (Op.SetRenderTarget_Views [] d c) n p = some (Outcome.mk false p [])) := by
  refine ⟨rfl, rfl, rfl, rfl, rfl, rfl, rfl, fun _ _ => rfl, fun _ _ => rfl, fun _ _ => rfl,
    fun _ _ => rfl⟩

/-! ## C11 -/

/-- C11, as stated, fails: after `SetIndexBuffer(b); Bind()` the cache stores `b`
with a clean index-buffer group, and `SetIndexBuffer(b)` with that same buffer
marks the group dirty again; `SetVertexBuffer` does the same. -/
theorem C11_counterexample :
    Bind cacheBuffers native0 =
      some (Outcome.mk true (Bind_commit cacheBuffers)
        [DeviceCall.IndexBuffer_Bind (RHI_IndexBuffer.mk 3),
         DeviceCall.VertexBuffer_Bind (RHI_VertexBuffer.mk 4),
         DeviceCall.Set_AlphaBlendingEnabled true]) ∧
    (Bind_commit cacheBuffers).m_indexBuffer = some (RHI_IndexBuffer.mk 3) ∧
    (Bind_commit cacheBuffers).m_indexBufferDirty = false ∧
    (SetIndexBuffer (Bind_commit cacheBuffers)
      (some (RHI_IndexBuffer.mk 3))).2.m_indexBufferDirty = true ∧
    (Bind_commit cacheBuffers).m_vertexBuffer = some (RHI_VertexBuffer.mk 4) ∧
    (Bind_commit cacheBuffers).m_vertexBufferDirty = false ∧
    (SetVertexBuffer (Bind_commit cacheBuffers)
      (some (RHI_VertexBuffer.mk 4))).2.m_vertexBufferDirty = true := by
  decide

/-- C11, amended: for every cache, a scalar `Set<Aspect>` (cull mode, fill mode,
primitive topology, alpha blending, viewport) called with the stored value leaves
the whole cache unchanged, and called with another value stores it and sets the
aspect's dirty bit; `SetInputLayout` with a layout whose kind is the stored one
reports `false` and leaves the cache unchanged, and with another kind stores the
kind and the buffer and sets the dirty bit; `SetIndexBuffer` and `SetVertexBuffer`
with a non-null buffer store it and set the dirty bit whatever buffer is
stored. -/
theorem C11_set_only_on_change (p : RHI_Pipeline) :
    (∀ v : ScalarValue,
      (v.storedIn p = true → SetScalar p v = p) ∧
      (v.storedIn p = false →
        v.storedIn (SetScalar p v) = true ∧ v.group.dirty (SetScalar p v) = true)) ∧
    (∀ il : RHI_InputLayout,
      (p.m_inputLayout = il.inputLayout → SetInputLayout p (some il) = some (false, p)) ∧
      (p.m_inputLayout ≠ il.inputLayout →
        SetInputLayout p (some il) =
          some (true, { p with
            m_inputLayout := il.inputLayout
            m_inputLayoutBuffer := il.buffer
            m_inputLayoutDirty := true }))) ∧
    (∀ ib : RHI_IndexBuffer,
      SetIndexBuffer p (some ib) =
        (true, { p with m_indexBuffer := some ib, m_indexBufferDirty := true })) ∧
    (∀ vb : RHI_VertexBuffer,
      SetVertexBuffer p (some vb) =
        (true, { p with m_vertexBuffer := some vb, m_vertexBufferDirty := true })) := by
  refine ⟨fun v => ⟨SetScalar_of_stored p v, fun h => ⟨SetScalar_stored p v, ?_⟩⟩,
    fun il => ⟨fun h => ?_, fun h => ?_⟩, fun _ => rfl, fun _ => rfl⟩
  · rw [SetScalar_dirty, h]
    simp
  · simp [SetInputLayout, h]
  · simp [SetInputLayout, h]

/-- C11, amended, at concrete inputs on the freshly constructed cache: the stored
cull mode, another cull mode, and the stored and another input-layout kind. -/
theorem C11_set_only_on_change_witness :
    SetScalar cache0 (ScalarValue.cullMode Cull_Mode.Cull_Back) = cache0 ∧
    (ScalarValue.cullMode Cull_Mode.Cull_Front).storedIn
      (SetScalar cache0 (ScalarValue.cullMode Cull_Mode.Cull_Front)) = true ∧
    Group.cullMode.dirty (SetScalar cache0 (ScalarValue.cullMode Cull_Mode.Cull_Front)) = true ∧
    SetInputLayout cache0 (some (RHI_InputLayout.mk 0 9)) = some (false, cache0) ∧
    SetInputLayout cache0 (some (RHI_InputLayout.mk 2 9)) =
      some (true, { cache0 with
        m_inputLayout := 2, m_inputLayoutBuffer := 9, m_inputLayoutDirty := true }) :=
  have h := C11_set_only_on_change cache0
  ⟨(h.1 (ScalarValue.cullMode Cull_Mode.Cull_Back)).1 (by decide),
    ((h.1 (ScalarValue.cullMode Cull_Mode.Cull_Front)).2 (by decide)).1,
    ((h.1 (ScalarValue.cullMode Cull_Mode.Cull_Front)).2 (by decide)).2,
    (h.2.1 (RHI_InputLayout.mk 0 9)).1 (by decide),
    (h.2.1 (RHI_InputLayout.mk 2 9)).2 (by decide)⟩

/-! ## C12 -/

/-- C12, the code on every cache and every non-null shader `s`: if `s` has the
vertex stage and its identity differs from the bound vertex identity,
`SetVertexShader(s)` marks the vertex stage dirty and records the shader and its
identity when the input layout of `s` is not null, and has no defined result when
it is null, since the layout is passed to `SetInputLayout`, which dereferences
it; if `s` has the stage and the identity is the bound one, or `s` lacks the
stage, the cache is unchanged; `SetPixelShader(s)` marks the pixel stage dirty and
records shader and identity exactly when `s` has the stage and its identity
differs from the bound one.  Hence re-setting a shader whose identity has changed
is a change, and re-setting it with the same identity is not. -/
theorem C12_shader_identity (p : RHI_Pipeline) (s : RHI_Shader) :
    (s.hasVertexShader = true → p.m_boundVertexShaderID ≠ s.id → s.inputLayoutPtr ≠ none →
      ∃ q, SetVertexShader p (some s) = some (true, q) ∧
        q.m_vertexShaderDirty = true ∧ q.m_boundVertexShaderID = s.id ∧
        q.m_vertexShader = some s) ∧
    (s.hasVertexShader = true → p.m_boundVertexShaderID = s.id →
      SetVertexShader p (some s) = some (true, p)) ∧
    (s.hasVertexShader = false → SetVertexShader p (some s) = some (true, p)) ∧
    (s.hasPixelShader = true → p.m_boundPixelShaderID ≠ s.id →
      SetPixelShader p (some s) =
        (true, { p with
          m_pixelShader := some s
          m_boundPixelShaderID := s.id
          m_pixelShaderDirty := true })) ∧
    (s.hasPixelShader = true → p.m_boundPixelShaderID = s.id →
      SetPixelShader p (some s) = (true, p)) ∧
    (s.hasPixelShader = false → SetPixelShader p (some s) = (true, p)) ∧
    (∀ newId : Nat, s.hasPixelShader = true → newId ≠ s.id → p.m_boundPixelShaderID ≠ s.id →
      (SetPixelShader (SetPixelShader p (some s)).2 (some s)).2 = (SetPixelShader p (some s)).2 ∧
      (SetPixelShader (SetPixelShader p (some s)).2
        (some { s with id := newId })).2.m_pixelShaderDirty = true ∧
      (SetPixelShader (SetPixelShader p (some s)).2
        (some { s with id := newId })).2.m_boundPixelShaderID = newId) ∧
    (s.hasVertexShader = true → p.m_boundVertexShaderID ≠ s.id → s.inputLayoutPtr = none →
      SetVertexShader p (some s) = none ∧ SetShader p (some s) = none) := by
  refine ⟨?_, ?_, ?_, ?_, ?_, ?_, ?_, ?_⟩
  · intro hv hid hl
    obtain ⟨il, hil⟩ := Option.ne_none_iff_exists'.mp hl
    unfold SetVertexShader
    simp only [hv, hid, ne_eq, not_false_eq_true, and_self, if_true, hil]
    unfold SetInputLayout
    simp only
    split_ifs <;> exact ⟨_, rfl, rfl, rfl, rfl⟩
  · intro hv hid
    simp [SetVertexShader, hv, hid]
  · intro hv
    simp [SetVertexShader, hv]
  · intro hv hid
    simp [SetPixelShader, hv, hid]
  · intro hv hid
    simp [SetPixelShader, hv, hid]
  · intro hv
    simp [SetPixelShader, hv]
  · intro newId hv hne hid
    simp [SetPixelShader, hv, hid, hne, Ne.symm hne]
  · intro hv hid hl
    have h1 : SetVertexShader p (some s) = none := by
      simp [SetVertexShader, SetInputLayout, hv, hid, hl]
    exact ⟨h1, by simp [SetShader, h1]⟩

/-- C12 at concrete inputs: `shader0` set on the freshly constructed cache, set
again, and set again after its identity changed from 11 to 12; and the failing
input, a shader with the vertex stage and no input layout, on which
`SetVertexShader` has no defined result. -/
theorem C12_shader_identity_witness :
    (∃ q, SetVertexShader cache0 (some shader0) = some (true, q) ∧
      q.m_vertexShaderDirty = true ∧ q.m_boundVertexShaderID = 11 ∧
      q.m_vertexShader = some shader0) ∧
    SetPixelShader cache0 (some shader0) =
      (true, { cache0 with
        m_pixelShader := some shader0
        m_boundPixelShaderID := 11
        m_pixelShaderDirty := true }) ∧
    SetPixelShader (SetPixelShader cache0 (some shader0)).2 (some shader0) =
      (true, (SetPixelShader cache0 (some shader0)).2) ∧
    (SetPixelShader (SetPixelShader cache0 (some shader0)).2
      (some { shader0 with id := 12 })).2.m_boundPixelShaderID = 12 ∧
    SetVertexShader cache0 (some { shader0 with hasVertexShader := false }) =
      some (true, cache0) ∧
    shaderNoLayout.hasVertexShader = true ∧ cache0.m_boundVertexShaderID ≠ shaderNoLayout.id ∧
    SetVertexShader cache0 (some shaderNoLayout) = none :=
  ⟨(C12_shader_identity cache0 shader0).1 (by decide) (by decide) (by decide),
    (C12_shader_identity cache0 shader0).2.2.2.1 (by decide) (by decide),
    (C12_shader_identity (SetPixelShader cache0 (some shader0)).2 shader0).2.2.2.2.1
      (by decide) (by decide),
    ((C12_shader_identity cache0 shader0).2.2.2.2.2.2.1 12 (by decide) (by decide)
      (by decide)).2.2,
    (C12_shader_identity cache0 { shader0 with hasVertexShader := false }).2.2.1 (by decide),
    by decide, by decide,
    ((C12_shader_identity cache0 shaderNoLayout).2.2.2.2.2.2.2 (by decide) (by decide)
      (by decide)).1⟩

/-! ## `Reset()` in closed form -/

theorem Reset_eq (p : RHI_Pipeline) (hdev : p.m_rhiDevice ≠ none) :
    Reset p = some
      ({ p with
          m_textures := []
          m_texturesDirty := false
          m_samplers := []
          m_samplersDirty := false
          m_constantBuffers := []
          m_constantBufferDirty := false
          m_fillMode := Fill_Mode.Fill_Solid
          m_fillModeDirty := p.m_fillModeDirty && decide (p.m_fillMode = Fill_Mode.Fill_Solid)
          m_cullMode := Cull_Mode.Cull_Back
          m_cullModeDirty := p.m_cullModeDirty && decide (p.m_cullMode = Cull_Mode.Cull_Back)
          m_primitiveTopology := PrimitiveTopology_Mode.PrimitiveTopology_TriangleList
          m_primitiveTopologyDirty := p.m_primitiveTopologyDirty &&
            decide (p.m_primitiveTopology = PrimitiveTopology_Mode.PrimitiveTopology_TriangleList)
          m_alphaBlending := false
          m_alphaBlendingDirty := p.m_alphaBlendingDirty && decide (p.m_alphaBlending = false) },
       [DeviceCall.Set_Textures 0 10 (List.replicate 10 0),
        DeviceCall.Set_Samplers 0 10 (List.replicate 10 0),
        DeviceCall.Set_ConstantBuffers 0 10 Buffer_Scope.Buffer_Global (List.replicate 10 0)]
        ++ (if p.m_fillMode ≠ Fill_Mode.Fill_Solid then
              [DeviceCall.Set_FillMode Fill_Mode.Fill_Solid] else [])
        ++ (if p.m_cullMode ≠ Cull_Mode.Cull_Back then
              [DeviceCall.Set_CullMode Cull_Mode.Cull_Back] else [])
        ++ (if p.m_primitiveTopology ≠ PrimitiveTopology_Mode.PrimitiveTopology_TriangleList then
              [DeviceCall.Set_PrimitiveTopology
                PrimitiveTopology_Mode.PrimitiveTopology_TriangleList] else [])
        ++ (if p.m_alphaBlending = true then
              [DeviceCall.Set_AlphaBlendingEnabled false] else [])) := by
  obtain ⟨dev, hd⟩ := Option.ne_none_iff_exists'.mp hdev
  cases p
  simp only at hd
  subst hd
  simp only [Reset]
  split_ifs <;> simp_all

/-! ## C13 -/

theorem Committed.apply_of_not_scalar (c : Committed) (x : DeviceCall)
    (h : ∀ a : ScalarAspect, x.group ≠ some a.group) : c.apply x = c := by
  cases x <;> try rfl
  · exact absurd rfl (h ScalarAspect.viewport)
  · exact absurd rfl (h ScalarAspect.primitiveTopology)
  · exact absurd rfl (h ScalarAspect.cullMode)
  · exact absurd rfl (h ScalarAspect.fillMode)
  · exact absurd rfl (h ScalarAspect.alphaBlending)

theorem Committed.applyAll_append (c : Committed) (xs ys : List DeviceCall) :
    c.applyAll (xs ++ ys) = (c.applyAll xs).applyAll ys := by
  simp [Committed.applyAll, List.foldl_append]

theorem Committed.applyAll_of_not_scalar (c : Committed) (xs : List DeviceCall)
    (h : ∀ x ∈ xs, ∀ a : ScalarAspect, x.group ≠ some a.group) : c.applyAll xs = c := by
  induction xs generalizing c with
  | nil => rfl
  | cons x xs ih =>
    simp only [Committed.applyAll, List.foldl_cons]
    rw [Committed.apply_of_not_scalar c x (h x (List.mem_cons_self _ _))]
    exact ih c (fun y hy => h y (List.mem_cons_of_mem _ hy))

theorem Committed.applyAll_groupCalls (c : Committed) (n : Native) (p : RHI_Pipeline)
    (g : Group) (hg : ∀ a : ScalarAspect, g ≠ a.group) :
    c.applyAll (groupCalls n p g) = c := by
  apply Committed.applyAll_of_not_scalar
  intro x hx a
  rw [groupCalls_group n p g x hx]
  intro h
  exact hg a (Option.some.inj h)

theorem Committed.applyAll_trace (c : Committed) (n : Native) (p : RHI_Pipeline) :
    c.applyAll (Group.order.flatMap (groupCalls n p)) =
      { cullMode := if p.m_cullModeDirty then some p.m_cullMode else c.cullMode
        fillMode := if p.m_fillModeDirty then some p.m_fillMode else c.fillMode
        primitiveTopology :=
          if p.m_primitiveTopologyDirty then some p.m_primitiveTopology
          else c.primitiveTopology
        alphaBlending :=
          if p.m_alphaBlendingDirty then some p.m_alphaBlending else c.alphaBlending
        viewport := if p.m_viewportDirty then some p.m_viewport else c.viewport } := by
  simp only [Group.order, List.flatMap_cons, List.flatMap_nil, List.append_nil,
    Committed.applyAll_append]
  rw [Committed.applyAll_groupCalls c n p Group.renderTargets (by intro a; cases a <;> decide),
    Committed.applyAll_groupCalls c n p Group.textures (by intro a; cases a <;> decide),
    Committed.applyAll_groupCalls c n p Group.samplers (by intro a; cases a <;> decide),
    Committed.applyAll_groupCalls c n p Group.constantBuffers (by intro a; cases a <;> decide),
    Committed.applyAll_groupCalls c n p Group.vertexShader (by intro a; cases a <;> decide),
    Committed.applyAll_groupCalls c n p Group.pixelShader (by intro a; cases a <;> decide),
    Committed.applyAll_groupCalls c n p Group.inputLayout (by intro a; cases a <;> decide)]
  rw [Committed.applyAll_groupCalls _ n p Group.indexBuffer (by intro a; cases a <;> decide),
    Committed.applyAll_groupCalls _ n p Group.vertexBuffer (by intro a; cases a <;> decide)]
  rw [groupCalls_viewport, groupCalls_primitiveTopology, groupCalls_cullMode,
    groupCalls_fillMode, groupCalls_alphaBlending]
  cases c
  cases p.m_viewportDirty <;> cases p.m_primitiveTopologyDirty <;> cases p.m_cullModeDirty <;>
    cases p.m_fillModeDirty <;> cases p.m_alphaBlendingDirty <;> rfl

theorem CommittedInv_congr (p q : RHI_Pipeline) (c : Committed)
    (h : scalarPart q = scalarPart p) (hinv : CommittedInv p c) : CommittedInv q c := by
  simp only [scalarPart, Prod.mk.injEq] at h
  obtain ⟨⟨h1, h2⟩, ⟨h3, h4⟩, ⟨h5, h6⟩, ⟨h7, h8⟩, h9, h10⟩ := h
  intro a ha
  have := hinv a
  cases a
  all_goals
    simp only [ScalarAspect.differs, ScalarAspect.group, Group.dirty, h1, h2, h3, h4, h5, h6,
      h7, h8, h9, h10] at ha ⊢
    exact this ha

theorem CommittedInv_Bind_commit (p : RHI_Pipeline) (n : Native) (c : Committed)
    (hinv : CommittedInv p c) :
    CommittedInv (Bind_commit p) (c.applyAll (Group.order.flatMap (groupCalls n p))) := by
  rw [Committed.applyAll_trace]
  intro a ha
  exfalso
  have := hinv a
  cases a <;> simp only [ScalarAspect.differs, ScalarAspect.group, Group.dirty, Bind_commit]
    at ha this
  · cases hd : p.m_cullModeDirty <;> simp_all
  · cases hd : p.m_fillModeDirty <;> simp_all
  · cases hd : p.m_primitiveTopologyDirty <;> simp_all
  · cases hd : p.m_alphaBlendingDirty <;> simp_all
  · cases hd : p.m_viewportDirty <;> simp_all

theorem CommittedInv_Bind (p : RHI_Pipeline) (n : Native) (c : Committed) (b : Outcome)
    (h : Bind p n = some b) (hinv : CommittedInv p c) :
    CommittedInv b.p (c.applyAll b.calls) := by
  rcases Bind_cases p n with ⟨_, hb⟩ | ⟨_, _, hb⟩ | ⟨_, _, hb⟩
  · rw [hb] at h
    cases h
    exact hinv
  · rw [hb] at h
    cases h
    exact CommittedInv_Bind_commit p n c hinv
  · rw [hb] at h
    cases h

theorem SetVertexShader_scalarPart (p q : RHI_Pipeline) (s : Option RHI_Shader) (b : Bool)
    (h : SetVertexShader p s = some (b, q)) : scalarPart q = scalarPart p := by
  unfold SetVertexShader at h
  cases s with
  | none =>
    simp only [Option.some.injEq, Prod.mk.injEq] at h
    rw [← h.2]
  | some sh =>
    simp only at h
    split_ifs at h
    · cases hl : SetInputLayout p sh.inputLayoutPtr with
      | none => simp [hl] at h
      | some r =>
        obtain ⟨b1, p1⟩ := r
        simp only [hl, Option.some.injEq, Prod.mk.injEq] at h
        obtain ⟨_, rfl⟩ := h
        rcases SetInputLayout_frame p p1 _ b1 hl with rfl | ⟨x, y, rfl⟩ <;> rfl
    · simp only [Option.some.injEq, Prod.mk.injEq] at h
      rw [← h.2]

theorem SetPixelShader_scalarPart (p : RHI_Pipeline) (s : Option RHI_Shader) :
    scalarPart (SetPixelShader p s).2 = scalarPart p := by
  unfold SetPixelShader
  cases s with
  | none => rfl
  | some sh =>
    simp only
    split_ifs <;> rfl

theorem CommittedInv_Reset (p q : RHI_Pipeline) (calls : List DeviceCall) (c : Committed)
    (h : Reset p = some (q, calls)) (hinv : CommittedInv p c) :
    CommittedInv q (c.applyAll calls) := by
  have hdev : p.m_rhiDevice ≠ none := (Reset_frame p q calls h).2.2.2.2.2.2.2.2.2.2.2.2.1
  rw [Reset_eq p hdev] at h
  simp only [Option.some.injEq, Prod.mk.injEq] at h
  obtain ⟨rfl, rfl⟩ := h
  have i1 := hinv ScalarAspect.cullMode
  have i2 := hinv ScalarAspect.fillMode
  have i3 := hinv ScalarAspect.primitiveTopology
  have i4 := hinv ScalarAspect.alphaBlending
  have i5 := hinv ScalarAspect.viewport
  simp only [ScalarAspect.differs, ScalarAspect.group, Group.dirty] at i1 i2 i3 i4 i5
  intro a ha
  cases a <;>
    simp only [ScalarAspect.differs, ScalarAspect.group, Group.dirty, Committed.applyAll,
      List.foldl_append, List.foldl_cons, List.foldl_nil, Committed.apply] at ha ⊢
  · by_cases hc : p.m_cullMode = Cull_Mode.Cull_Back <;>
      by_cases h1 : p.m_fillMode = Fill_Mode.Fill_Solid <;>
      by_cases h2 : p.m_primitiveTopology =
        PrimitiveTopology_Mode.PrimitiveTopology_TriangleList <;>
      by_cases h3 : p.m_alphaBlending = true <;>
      simp_all [Committed.apply]
  · by_cases hc : p.m_cullMode = Cull_Mode.Cull_Back <;>
      by_cases h1 : p.m_fillMode = Fill_Mode.Fill_Solid <;>
      by_cases h2 : p.m_primitiveTopology =
        PrimitiveTopology_Mode.PrimitiveTopology_TriangleList <;>
      by_cases h3 : p.m_alphaBlending = true <;>
      simp_all [Committed.apply]
  · by_cases hc : p.m_cullMode = Cull_Mode.Cull_Back <;>
      by_cases h1 : p.m_fillMode = Fill_Mode.Fill_Solid <;>
      by_cases h2 : p.m_primitiveTopology =
        PrimitiveTopology_Mode.PrimitiveTopology_TriangleList <;>
      by_cases h3 : p.m_alphaBlending = true <;>
      simp_all [Committed.apply]
  · by_cases hc : p.m_cullMode = Cull_Mode.Cull_Back <;>
      by_cases h1 : p.m_fillMode = Fill_Mode.Fill_Solid <;>
      by_cases h2 : p.m_primitiveTopology =
        PrimitiveTopology_Mode.PrimitiveTopology_TriangleList <;>
      by_cases h3 : p.m_alphaBlending = true <;>
      simp_all [Committed.apply]
  · by_cases hc : p.m_cullMode = Cull_Mode.Cull_Back <;>
      by_cases h1 : p.m_fillMode = Fill_Mode.Fill_Solid <;>
      by_cases h2 : p.m_primitiveTopology =
        PrimitiveTopology_Mode.PrimitiveTopology_TriangleList <;>
      by_cases h3 : p.m_alphaBlending = true <;>
      simp_all [Committed.apply]

theorem CommittedInv_scalar (p : RHI_Pipeline) (c : Committed) (v : ScalarValue)
    (hinv : CommittedInv p c) : CommittedInv (SetScalar p v) c := by
  by_cases hst : v.storedIn p = true
  · rw [SetScalar_of_stored p v hst]
    exact hinv
  · intro a ha
    have := hinv a
    cases v <;> cases a <;>
      simp only [SetScalar, SetCullMode, SetFillMode, SetPrimitiveTopology, SetAlphaBlending,
        SetViewport, ScalarValue.storedIn, decide_eq_true_eq] at hst ha ⊢ <;>
      simp only [hst, Ne.symm hst, if_false] at ha ⊢ <;>
      first
        | rfl
        | exact this ha

theorem exec_preserves_committedInv (op : Op) (n : Native) (p : RHI_Pipeline) (c : Committed)
    (r : Outcome) (h : exec op n p = some r) (hinv : CommittedInv p c) :
    CommittedInv r.p (c.applyAll r.calls) := by
  cases op <;> simp only [exec] at h
  case DrawIndexed ci i v =>
    obtain ⟨b, hb, rfl⟩ := DrawIndexed_eq p n ci i v r h
    simp only [Committed.applyAll_append]
    exact CommittedInv_Bind p n c b hb hinv
  case Draw k =>
    obtain ⟨b, hb, rfl⟩ := Draw_eq p n k r h
    simp only [Committed.applyAll_append]
    exact CommittedInv_Bind p n c b hb hinv
  case Bind => exact CommittedInv_Bind p n c r h hinv
  case Reset =>
    obtain ⟨⟨q, calls⟩, hq, rfl⟩ := Option.map_eq_some'.mp h
    exact CommittedInv_Reset p q calls c hq hinv
  case SetShader s =>
    obtain ⟨q, hq, rfl⟩ := Option.map_eq_some'.mp h
    unfold SetShader at hq
    cases hv : SetVertexShader p s with
    | none => simp [hv] at hq
    | some x =>
      obtain ⟨b1, p1⟩ := x
      simp only [hv, Option.some.injEq] at hq
      subst hq
      exact CommittedInv_congr p _ c
        ((SetPixelShader_scalarPart p1 s).trans (SetVertexShader_scalarPart p p1 s b1 hv)) hinv
  case SetVertexShader s =>
    obtain ⟨⟨b1, p1⟩, hv, rfl⟩ := Option.map_eq_some'.mp h
    exact CommittedInv_congr p _ c (SetVertexShader_scalarPart p p1 s b1 hv) hinv
  case SetPixelShader s =>
    simp only [Option.some.injEq] at h
    subst h
    exact CommittedInv_congr p _ c (SetPixelShader_scalarPart p s) hinv
  case SetInputLayout l =>
    obtain ⟨⟨b1, p1⟩, hv, rfl⟩ := Option.map_eq_some'.mp h
    rcases SetInputLayout_frame p p1 l b1 hv with rfl | ⟨x, y, rfl⟩
    · exact hinv
    · exact CommittedInv_congr p _ c rfl hinv
  case SetIndexBuffer b =>
    simp only [Option.some.injEq] at h
    subst h
    cases b <;> exact CommittedInv_congr p _ c rfl hinv
  case SetVertexBuffer b =>
    simp only [Option.some.injEq] at h
    subst h
    cases b <;> exact CommittedInv_congr p _ c rfl hinv
  case SetSampler s =>
    simp only [Option.some.injEq] at h
    subst h
    cases s <;> exact CommittedInv_congr p _ c rfl hinv
  case SetTexture_RenderTexture t =>
    simp only [Option.some.injEq] at h
    subst h
    exact CommittedInv_congr p _ c rfl hinv
  case SetTexture t =>
    simp only [Option.some.injEq] at h
    subst h
    exact CommittedInv_congr p _ c rfl hinv
  case SetTexture_Ptr t =>
    simp only [Option.some.injEq] at h
    subst h
    exact CommittedInv_congr p _ c rfl hinv
  case SetRenderTarget_RenderTexture rt d cl =>
    simp only [Option.some.injEq] at h
    subst h
    cases rt <;> exact CommittedInv_congr p _ c rfl hinv
  case SetRenderTarget_View v d cl =>
    simp only [Option.some.injEq] at h
    subst h
    simp only [Outcome.ofSet, SetRenderTarget_View]
    split_ifs <;> exact CommittedInv_congr p _ c rfl hinv
  case SetRenderTarget_Views l d cl =>
    simp only [Option.some.injEq] at h
    subst h
    simp only [Outcome.ofSet, SetRenderTarget_Views]
    split_ifs <;> exact CommittedInv_congr p _ c rfl hinv
  case SetConstantBuffer b s sc =>
    simp only [Option.some.injEq] at h
    subst h
    cases b <;> exact CommittedInv_congr p _ c rfl hinv
  case SetPrimitiveTopology m =>
    simp only [Option.some.injEq] at h
    subst h
    exact CommittedInv_scalar p c (ScalarValue.primitiveTopology m) hinv
  case SetCullMode m =>
    simp only [Option.some.injEq] at h
    subst h
    exact CommittedInv_scalar p c (ScalarValue.cullMode m) hinv
  case SetFillMode m =>
    simp only [Option.some.injEq] at h
    subst h
    exact CommittedInv_scalar p c (ScalarValue.fillMode m) hinv
  case SetAlphaBlending m =>
    simp only [Option.some.injEq] at h
    subst h
    exact CommittedInv_scalar p c (ScalarValue.alphaBlending m) hinv
  case SetViewport m =>
    simp only [Option.some.injEq] at h
    subst h
    exact CommittedInv_scalar p c (ScalarValue.viewport m) hinv

theorem reachableWith_inv (p : RHI_Pipeline) (c : Committed) (hr : ReachableWith p c) :
    CommittedInv p c := by
  induction hr with
  | construct dev q calls h =>
    unfold RHI_Pipeline.construct at h
    apply CommittedInv_Reset _ q calls Committed.nothing h
    intro a ha
    cases a <;> simp [ScalarAspect.differs, Committed.nothing] at ha
  | step op n q c r _ h ih => exact exec_preserves_committedInv op n q c r h ih

theorem reachableWith_cacheFrontBound :
    ReachableWith (Bind_commit cacheFront) committedFront :=
  ReachableWith.step Op.Bind native0 cacheFront _
    (Outcome.mk false (Bind_commit cacheFront) [DeviceCall.Set_CullMode Cull_Mode.Cull_Front])
    (ReachableWith.step (Op.SetCullMode Cull_Mode.Cull_Front) native0 cache0 _
      (Outcome.ofVoid cacheFront)
      (ReachableWith.construct (some device0) cache0 _ construct_cache0) rfl)
    (by decide)

theorem reachableWith_cacheBackAgain : ReachableWith cacheBackAgain committedFront :=
  ReachableWith.step (Op.SetCullMode Cull_Mode.Cull_Back) native0 (Bind_commit cacheFront) _
    (Outcome.ofVoid cacheBackAgain) reachableWith_cacheFrontBound rfl

theorem reachableWith_cacheToggled : ReachableWith cacheToggled committedFront :=
  ReachableWith.step (Op.SetCullMode Cull_Mode.Cull_Front) native0 cacheBackAgain _
    (Outcome.ofVoid cacheToggled) reachableWith_cacheBackAgain rfl

/-- C13, as stated, fails: after `SetCullMode(Cull_Front); Bind();
SetCullMode(Cull_Back); SetCullMode(Cull_Front)` on the freshly constructed cache
the cull-mode bit is dirty although the stored cull mode is the value last
committed to the device. -/
theorem C13_counterexample :
    ReachableWith cacheToggled committedFront ∧
    cacheToggled.m_cullModeDirty = true ∧
    committedFront.cullMode = some cacheToggled.m_cullMode ∧
    ScalarAspect.cullMode.differs committedFront cacheToggled = false :=
  ⟨reachableWith_cacheToggled, by decide, by decide, by decide⟩

/-- C13, amended: in every state reachable from construction through the public
calls, for each scalar state group (cull mode, fill mode, topology, alpha
blending, viewport), if a value has been committed to the Device Adapter for the
group and the stored value differs from the one last committed, the dirty bit is
true; equivalently a clean group stores the value last committed.  The converse
does not hold: the bit stays true when the stored value is set back to the
committed one. -/
theorem C13_dirty_covers_difference (p : RHI_Pipeline) (c : Committed)
    (hr : ReachableWith p c) :
    (∀ a : ScalarAspect, a.differs c p = true → a.group.dirty p = true) ∧
    (∀ a : ScalarAspect, a.group.dirty p = false → a.differs c p = false) := by
  have hinv := reachableWith_inv p c hr
  refine ⟨hinv, fun a ha => ?_⟩
  by_contra hd
  have := hinv a (by simpa using hd)
  rw [ha] at this
  cases this

/-- C13, amended, at concrete inputs: the cache left by `SetCullMode(Cull_Front);
Bind(); SetCullMode(Cull_Back)`, whose stored cull mode differs from the committed
one, and the cache right after the `Bind()`, which is clean. -/
theorem C13_dirty_covers_difference_witness :
    Group.dirty cacheBackAgain ScalarAspect.cullMode.group = true ∧
    ScalarAspect.cullMode.differs committedFront (Bind_commit cacheFront) = false :=
  ⟨(C13_dirty_covers_difference cacheBackAgain committedFront reachableWith_cacheBackAgain).1
      ScalarAspect.cullMode (by decide),
    (C13_dirty_covers_difference (Bind_commit cacheFront) committedFront
      reachableWith_cacheFrontBound).2 ScalarAspect.cullMode (by decide)⟩

/-! ## C14 -/

/-- C14, as stated, fails: on the cache left by `SetFillMode(Fill_Wireframe);
SetFillMode(Fill_Solid)`, whose fill mode is solid and whose fill-mode bit is
dirty, `Reset()` skips the fill-mode block and the fill-mode bit is still dirty
afterwards. -/
theorem C14_counterexample :
    cacheFillToggled.m_fillMode = Fill_Mode.Fill_Solid ∧
    cacheFillToggled.m_fillModeDirty = true ∧
    ∃ q calls, Reset cacheFillToggled = some (q, calls) ∧
      q.m_fillMode = Fill_Mode.Fill_Solid ∧ q.m_fillModeDirty = true :=
  ⟨by decide, by decide, _, _, rfl, by decide, by decide⟩

/-- C14, amended: for every cache with a device, `Reset()` first issues the three
unbind calls for slots 0..9 of textures, samplers and constant buffers, then one
call per scalar that is not at its default; afterwards the fill mode is solid, the
cull mode back-face, the topology triangle-list, alpha blending off and the
pending texture, sampler and constant-buffer sequences empty.  No dirty bit that
was false is true afterwards; the texture, sampler and constant-buffer bits are
false afterwards; the bit of a scalar group is cleared when `Reset()` changes the
stored value and is left as it was when the value is already the default. -/
theorem C14_reset_defaults (p : RHI_Pipeline) (hdev : p.m_rhiDevice ≠ none) :
    ∃ q rest, Reset p = some (q,
        [DeviceCall.Set_Textures 0 10 (List.replicate 10 0),
         DeviceCall.Set_Samplers 0 10 (List.replicate 10 0),
         DeviceCall.Set_ConstantBuffers 0 10 Buffer_Scope.Buffer_Global (List.replicate 10 0)]
        ++ rest) ∧
      q.m_fillMode = Fill_Mode.Fill_Solid ∧ q.m_cullMode = Cull_Mode.Cull_Back ∧
      q.m_primitiveTopology = PrimitiveTopology_Mode.PrimitiveTopology_TriangleList ∧
      q.m_alphaBlending = false ∧
      q.m_textures = [] ∧ q.m_samplers = [] ∧ q.m_constantBuffers = [] ∧
      (∀ g : Group, g.dirty p = false → g.dirty q = false) ∧
      q.m_texturesDirty = false ∧ q.m_samplersDirty = false ∧
      q.m_constantBufferDirty = false ∧
      q.m_fillModeDirty =
        (p.m_fillModeDirty && decide (p.m_fillMode = Fill_Mode.Fill_Solid)) ∧
      q.m_cullModeDirty =
        (p.m_cullModeDirty && decide (p.m_cullMode = Cull_Mode.Cull_Back)) ∧
      q.m_primitiveTopologyDirty =
        (p.m_primitiveTopologyDirty &&
          decide (p.m_primitiveTopology = PrimitiveTopology_Mode.PrimitiveTopology_TriangleList)) ∧
      q.m_alphaBlendingDirty = (p.m_alphaBlendingDirty && decide (p.m_alphaBlending = false)) ∧
      (∀ c ∈ rest, ∃ a : ScalarAspect, c.group = some a.group) := by
  refine ⟨_, _, by rw [Reset_eq p hdev, List.append_assoc, List.append_assoc,
    List.append_assoc], rfl, rfl, rfl, rfl, rfl, rfl, rfl, ?_, rfl, rfl, rfl, rfl, rfl, rfl, rfl,
    ?_⟩
  · intro g hg
    cases g <;> simp_all [Group.dirty]
  · intro c hc
    simp only [List.mem_append] at hc
    rcases hc with hc | hc | hc | hc <;> split_ifs at hc <;>
      simp only [List.mem_singleton, List.not_mem_nil] at hc <;> subst hc
    · exact ⟨ScalarAspect.fillMode, rfl⟩
    · exact ⟨ScalarAspect.cullMode, rfl⟩
    · exact ⟨ScalarAspect.primitiveTopology, rfl⟩
    · exact ⟨ScalarAspect.alphaBlending, rfl⟩

/-- C14, amended, at a concrete input: the cache left by
`SetCullMode(Cull_Front)`, whose cull mode `Reset()` puts back. -/
theorem C14_reset_defaults_witness :
    ∃ q rest, Reset cacheFront = some (q,
        [DeviceCall.Set_Textures 0 10 (List.replicate 10 0),
         DeviceCall.Set_Samplers 0 10 (List.replicate 10 0),
         DeviceCall.Set_ConstantBuffers 0 10 Buffer_Scope.Buffer_Global (List.replicate 10 0)]
        ++ rest) ∧
      q.m_cullMode = Cull_Mode.Cull_Back ∧
      q.m_cullModeDirty =
        (cacheFront.m_cullModeDirty && decide (cacheFront.m_cullMode = Cull_Mode.Cull_Back)) :=
  (C14_reset_defaults cacheFront (by decide)).imp fun _ h =>
    h.imp fun _ h2 => ⟨h2.1, h2.2.2.1, h2.2.2.2.2.2.2.2.2.2.2.2.2.2.1⟩

/-! ## C24 -/

theorem trace_split (n : Native) (p : RHI_Pipeline) :
    Group.order.flatMap (groupCalls n p) =
      groupCalls n p Group.renderTargets ++
        [Group.textures, Group.samplers, Group.constantBuffers, Group.vertexShader,
         Group.pixelShader, Group.inputLayout, Group.viewport, Group.primitiveTopology,
         Group.cullMode, Group.fillMode, Group.indexBuffer, Group.vertexBuffer,
         Group.alphaBlending].flatMap (groupCalls n p) := by
  simp only [Group.order, List.flatMap_cons]

theorem trace_rest_no_clear (n : Native) (p : RHI_Pipeline) (c : DeviceCall)
    (hc : c ∈ [Group.textures, Group.samplers, Group.constantBuffers, Group.vertexShader,
         Group.pixelShader, Group.inputLayout, Group.viewport, Group.primitiveTopology,
         Group.cullMode, Group.fillMode, Group.indexBuffer, Group.vertexBuffer,
         Group.alphaBlending].flatMap (groupCalls n p)) :
    c.isClear = false := by
  obtain ⟨g, hg, hcg⟩ := List.mem_flatMap.mp hc
  have hgroup := groupCalls_group n p g c hcg
  by_contra hcl
  simp only [Bool.not_eq_false] at hcl
  rw [isClear_group c hcl] at hgroup
  simp only [Option.some.injEq] at hgroup
  subst hgroup
  simp at hg

/-- C24: for every cache with a device whose render-target group is dirty with a
non-empty sequence of views, no dirty shader or buffer group lacking its
resource, `Bind()` has a defined result and its calls are `Set_DepthEnabled`,
`Set_RenderTargets`, then, when a clear is requested, one `ClearRenderTarget` per
view in sequence order with colour (0,0,0,0) followed by one
`ClearDepthStencil` of the depth-stencil view exactly when that view is not null,
then calls none of which is a clear; so the clear calls of the whole `Bind()` are
exactly these, and there is none when no clear is requested.  The depth cleared to
is the viewport's maximum depth, and under `REVERSE_Z` the `float` difference
`1.0f - depth`. -/
theorem C24_clear_on_bind (p : RHI_Pipeline) (n : Native) (hdev : p.m_rhiDevice ≠ none)
    (hs : DerefSafe p) (hdirty : p.m_renderTargetsDirty = true)
    (hne : p.m_renderTargetViews ≠ []) :
    ∃ out rest, Bind p n = some out ∧
      out.calls =
        [DeviceCall.Set_DepthEnabled (decide (p.m_depthStencil ≠ 0)),
         DeviceCall.Set_RenderTargets p.m_renderTargetViews.length p.m_renderTargetViews
           p.m_depthStencil] ++
        (if p.m_renderTargetsClear then
          p.m_renderTargetViews.map (fun renderTargetView =>
            DeviceCall.ClearRenderTarget renderTargetView (Vector4.mk 0 0 0 0)) ++
          (if p.m_depthStencil ≠ 0 then
            [DeviceCall.ClearDepthStencil p.m_depthStencil Clear_Flags.Clear_Depth
              (if n.REVERSE_Z then float_sub 1 p.m_viewport.maxDepth
               else p.m_viewport.maxDepth) 0]
           else [])
         else []) ++ rest ∧
      (∀ c ∈ rest, c.isClear = false) ∧
      out.calls.filter DeviceCall.isClear =
        (if p.m_renderTargetsClear then
          p.m_renderTargetViews.map (fun renderTargetView =>
            DeviceCall.ClearRenderTarget renderTargetView (Vector4.mk 0 0 0 0)) ++
          (if p.m_depthStencil ≠ 0 then
            [DeviceCall.ClearDepthStencil p.m_depthStencil Clear_Flags.Clear_Depth
              (if n.REVERSE_Z then float_sub 1 p.m_viewport.maxDepth
               else p.m_viewport.maxDepth) 0]
           else [])
         else []) ∧
      (p.m_renderTargetsClear = false → hasClear out.calls = false) := by
  have he : BindFailsEarly p = false := by
    simp only [BindFailsEarly, Bool.or_eq_false_iff, Bool.and_eq_false_iff]
    refine ⟨?_, Or.inr ?_⟩
    · cases hd : p.m_rhiDevice with
      | none => exact absurd hd hdev
      | some d => rfl
    · cases hv : p.m_renderTargetViews with
      | nil => exact absurd hv hne
      | cons a t => rfl
  have hrest := trace_rest_no_clear n p
  have hfrest : ([Group.textures, Group.samplers, Group.constantBuffers, Group.vertexShader,
         Group.pixelShader, Group.inputLayout, Group.viewport, Group.primitiveTopology,
         Group.cullMode, Group.fillMode, Group.indexBuffer, Group.vertexBuffer,
         Group.alphaBlending].flatMap (groupCalls n p)).filter DeviceCall.isClear = [] := by
    rw [List.filter_eq_nil_iff]
    intro c hc
    rw [hrest c hc]
    simp
  have hcalls : Group.order.flatMap (groupCalls n p) =
      [DeviceCall.Set_DepthEnabled (decide (p.m_depthStencil ≠ 0)),
         DeviceCall.Set_RenderTargets p.m_renderTargetViews.length p.m_renderTargetViews
           p.m_depthStencil] ++
        (if p.m_renderTargetsClear then
          p.m_renderTargetViews.map (fun renderTargetView =>
            DeviceCall.ClearRenderTarget renderTargetView (Vector4.mk 0 0 0 0)) ++
          (if p.m_depthStencil ≠ 0 then
            [DeviceCall.ClearDepthStencil p.m_depthStencil Clear_Flags.Clear_Depth
              (if n.REVERSE_Z then float_sub 1 p.m_viewport.maxDepth
               else p.m_viewport.maxDepth) 0]
           else [])
         else []) ++
        [Group.textures, Group.samplers, Group.constantBuffers, Group.vertexShader,
         Group.pixelShader, Group.inputLayout, Group.viewport, Group.primitiveTopology,
         Group.cullMode, Group.fillMode, Group.indexBuffer, Group.vertexBuffer,
         Group.alphaBlending].flatMap (groupCalls n p) := by
    rw [trace_split, groupCalls_renderTargets, hdirty]
    simp only [if_true, Bind_clears, clearDepth]
  have hfilter : (Group.order.flatMap (groupCalls n p)).filter DeviceCall.isClear =
        (if p.m_renderTargetsClear then
          p.m_renderTargetViews.map (fun renderTargetView =>
            DeviceCall.ClearRenderTarget renderTargetView (Vector4.mk 0 0 0 0)) ++
          (if p.m_depthStencil ≠ 0 then
            [DeviceCall.ClearDepthStencil p.m_depthStencil Clear_Flags.Clear_Depth
              (if n.REVERSE_Z then float_sub 1 p.m_viewport.maxDepth
               else p.m_viewport.maxDepth) 0]
           else [])
         else []) := by
    rw [hcalls, List.filter_append, List.filter_append, hfrest, List.append_nil]
    have h1 : List.filter DeviceCall.isClear
        [DeviceCall.Set_DepthEnabled (decide (p.m_depthStencil ≠ 0)),
         DeviceCall.Set_RenderTargets p.m_renderTargetViews.length p.m_renderTargetViews
           p.m_depthStencil] = [] := rfl
    rw [h1, List.nil_append, List.filter_eq_self]
    intro c hc
    split_ifs at hc
    all_goals
      try simp only [List.mem_append, List.mem_map, List.mem_singleton, List.append_nil,
        List.not_mem_nil] at hc
    all_goals first
      | (rcases hc with ⟨v, _, rfl⟩ | rfl <;> rfl)
      | (obtain ⟨v, _, rfl⟩ := hc; rfl)
  refine ⟨_, _, Bind_eq p n hs he, hcalls, hrest, hfilter, ?_⟩
  intro hcl
  show hasClear (Group.order.flatMap (groupCalls n p)) = false
  have hnil : (Group.order.flatMap (groupCalls n p)).filter DeviceCall.isClear = [] := by
    rw [hfilter, hcl]
    rfl
  rw [List.filter_eq_nil_iff] at hnil
  simp only [hasClear, List.any_eq_false]
  exact hnil

/-- C24 at concrete inputs: two views 5 and 8 with depth-stencil view 6 and a
clear requested, the same without a depth-stencil view, the same without a clear,
and the same under `REVERSE_Z` with a viewport of maximum depth `0.1f`, where the
depth cleared to is the `float` `1.0f - 0.1f`, which is 7549747/8388608. -/
theorem C24_clear_on_bind_witness :
    (∃ out, Bind (cacheTarget 6 true) native0 = some out ∧
      out.calls =
        [DeviceCall.Set_DepthEnabled true, DeviceCall.Set_RenderTargets 2 [5, 8] 6,
         DeviceCall.ClearRenderTarget 5 (Vector4.mk 0 0 0 0),
         DeviceCall.ClearRenderTarget 8 (Vector4.mk 0 0 0 0),
         DeviceCall.ClearDepthStencil 6 Clear_Flags.Clear_Depth
           (cacheTarget 6 true).m_viewport.maxDepth 0]) ∧
    (∃ out, Bind (cacheTarget 0 true) native0 = some out ∧
      out.calls.filter DeviceCall.isClear =
        [DeviceCall.ClearRenderTarget 5 (Vector4.mk 0 0 0 0),
         DeviceCall.ClearRenderTarget 8 (Vector4.mk 0 0 0 0)]) ∧
    (∃ out, Bind (cacheTarget 6 false) native0 = some out ∧ hasClear out.calls = false) ∧
    (∃ out, Bind cacheTargetTenth nativeReverseZ = some out ∧
      out.calls.filter DeviceCall.isClear =
        [DeviceCall.ClearRenderTarget 5 (Vector4.mk 0 0 0 0),
         DeviceCall.ClearRenderTarget 8 (Vector4.mk 0 0 0 0),
         DeviceCall.ClearDepthStencil 6 Clear_Flags.Clear_Depth (7549747 / 8388608) 0]) ∧
    (1 : Rat) - tenth = 120795955 / 134217728 ∧
    (7549747 : Rat) / 8388608 = 120795952 / 134217728 :=
  ⟨⟨_, rfl, by decide⟩,
    (C24_clear_on_bind (cacheTarget 0 true) native0 (by decide) (by unfold DerefSafe; decide)
      (by decide) (by decide)).elim
      (fun out h => h.elim (fun _ h2 => ⟨out, h2.1, h2.2.2.2.1.trans (by decide)⟩)),
    (C24_clear_on_bind (cacheTarget 6 false) native0 (by decide) (by unfold DerefSafe; decide)
      (by decide) (by decide)).elim
      (fun out h => h.elim (fun _ h2 => ⟨out, h2.1, h2.2.2.2.2 (by decide)⟩)),
    (C24_clear_on_bind cacheTargetTenth nativeReverseZ (by decide!)
      (by unfold DerefSafe; decide!) (by decide!) (by decide!)).elim
      (fun out h => h.elim (fun _ h2 => ⟨out, h2.1, h2.2.2.2.1.trans (by decide!)⟩)),
    by decide!, by decide!⟩

/-! ## C25 -/

theorem SetConstantBuffers_eq (l : List (RHI_ConstantBuffer × Nat × Buffer_Scope)) :
    ∀ p : RHI_Pipeline, SetConstantBuffers p l =
      { p with
        m_constantBuffers := p.m_constantBuffers ++
          l.map (fun x => ConstantBuffer.mk x.1.buffer x.2.1 x.2.2)
        m_constantBufferDirty := p.m_constantBufferDirty || !l.isEmpty } := by
  induction l with
  | nil => intro p; simp [SetConstantBuffers]
  | cons x rest ih =>
    intro p
    obtain ⟨b, slot, scope⟩ := x
    rw [SetConstantBuffers, ih]
    simp [SetConstantBuffer]

/-- C25, as stated, fails: on the cache left by `SetRenderTarget({nullptr})`, which
has no pending constant buffer, after two successful `SetConstantBuffer` calls the
next `Bind()` returns early with `false` and issues no `Set_ConstantBuffers` call,
not two. -/
theorem C25_counterexample :
    cacheNoTarget.m_constantBuffers = [] ∧
    (SetConstantBuffer cacheNoTarget (some (RHI_ConstantBuffer.mk 5)) 1
      Buffer_Scope.Buffer_Global).1 = true ∧
    ∃ out,
      Bind (SetConstantBuffers cacheNoTarget
        [(RHI_ConstantBuffer.mk 5, 1, Buffer_Scope.Buffer_Global),
         (RHI_ConstantBuffer.mk 6, 1, Buffer_Scope.Buffer_Global)]) native0 = some out ∧
      out.ret = false ∧ out.calls = [] ∧
      countGroup Group.constantBuffers out.calls = 0 :=
  ⟨by decide, by decide, _, rfl, by decide, by decide, by decide⟩

/-- C25, amended: for every sequence of successful `SetConstantBuffer` calls
`(b1,s1,c1)..(bn,sn,cn)` made on a cache whose pending constant-buffer sequence is
empty, the next `Bind()`, when no dirty shader or buffer group lacks its resource
and it does not take an early failure return, has a defined result and issues
exactly `n` `Set_ConstantBuffers` calls, the i-th with slot `si`, count 1, scope
`ci` and buffer `bi`, in call order, entries that share a slot included. -/
theorem C25_constant_buffers (p : RHI_Pipeline)
    (l : List (RHI_ConstantBuffer × Nat × Buffer_Scope)) (n : Native)
    (hempty : p.m_constantBuffers = []) (hs : DerefSafe p) (he : BindFailsEarly p = false) :
    ∃ out, Bind (SetConstantBuffers p l) n = some out ∧
      out.calls.filter (fun c => decide (c.group = some Group.constantBuffers)) =
        l.map (fun x => DeviceCall.Set_ConstantBuffers x.2.1 1 x.2.2 [x.1.buffer]) ∧
      countGroup Group.constantBuffers out.calls = l.length := by
  have hs1 : DerefSafe (SetConstantBuffers p l) := by
    rw [SetConstantBuffers_eq]; exact hs
  have he1 : BindFailsEarly (SetConstantBuffers p l) = false := by
    rw [SetConstantBuffers_eq]; exact he
  have hfilter : (Group.order.flatMap (groupCalls n (SetConstantBuffers p l))).filter
      (fun c => decide (c.group = some Group.constantBuffers)) =
        l.map (fun x => DeviceCall.Set_ConstantBuffers x.2.1 1 x.2.2 [x.1.buffer]) := by
    rw [filter_group_trace, groupCalls_constantBuffers, SetConstantBuffers_eq]
    simp only [hempty, List.nil_append, List.map_map]
    cases l with
    | nil =>
      simp
    | cons x rest =>
      simp
  refine ⟨_, Bind_eq _ n hs1 he1, hfilter, ?_⟩
  show countGroup Group.constantBuffers (Group.order.flatMap _) = _
  unfold countGroup
  rw [List.countP_eq_length_filter, hfilter, List.length_map]

/-- C25, amended, at a concrete input: three successful calls, the first and the
last on slot 1; the last call made for slot 1 is the last one applied. -/
theorem C25_constant_buffers_witness :
    ∃ out,
      Bind (SetConstantBuffers cache0
        [(RHI_ConstantBuffer.mk 5, 1, Buffer_Scope.Buffer_Global),
         (RHI_ConstantBuffer.mk 6, 2, Buffer_Scope.Buffer_VertexShader),
         (RHI_ConstantBuffer.mk 7, 1, Buffer_Scope.Buffer_Global)]) native0 = some out ∧
      out.calls.filter (fun c => decide (c.group = some Group.constantBuffers)) =
        [DeviceCall.Set_ConstantBuffers 1 1 Buffer_Scope.Buffer_Global [5],
         DeviceCall.Set_ConstantBuffers 2 1 Buffer_Scope.Buffer_VertexShader [6],
         DeviceCall.Set_ConstantBuffers 1 1 Buffer_Scope.Buffer_Global [7]] ∧
      countGroup Group.constantBuffers out.calls = 3 :=
  C25_constant_buffers cache0 _ native0 rfl derefSafe_cache0 (by decide)

/-! ## C26 -/

theorem Bind_preserves_pendingInv (p : RHI_Pipeline) (n : Native) (b : Outcome)
    (h : Bind p n = some b) (hinv : PendingInv p) :
    PendingInv b.p ∧
    (BindFailsEarly p = false →
      b.p.m_textures = [] ∧ b.p.m_samplers = [] ∧ b.p.m_constantBuffers = [] ∧
      b.p.m_texturesDirty = false ∧ b.p.m_samplersDirty = false ∧
      b.p.m_constantBufferDirty = false) := by
  obtain ⟨h1, h2, h3⟩ := hinv
  have hcommit : (Bind_commit p).m_textures = [] ∧ (Bind_commit p).m_samplers = [] ∧
      (Bind_commit p).m_constantBuffers = [] := by
    refine ⟨?_, ?_, ?_⟩
    · show (if p.m_texturesDirty then [] else p.m_textures) = []
      by_cases hd : p.m_texturesDirty = true
      · rw [if_pos hd]
      · rw [if_neg hd]
        by_contra hne
        exact hd (h1 hne)
    · show (if p.m_samplersDirty then [] else p.m_samplers) = []
      by_cases hd : p.m_samplersDirty = true
      · rw [if_pos hd]
      · rw [if_neg hd]
        by_contra hne
        exact hd (h2 hne)
    · show (if p.m_constantBufferDirty then [] else p.m_constantBuffers) = []
      by_cases hd : p.m_constantBufferDirty = true
      · rw [if_pos hd]
      · rw [if_neg hd]
        by_contra hne
        exact hd (h3 hne)
  rcases Bind_cases p n with ⟨he, hb⟩ | ⟨_, _, hb⟩ | ⟨_, _, hb⟩
  · rw [hb] at h
    cases h
    refine ⟨⟨h1, h2, h3⟩, fun hf => ?_⟩
    rw [he] at hf
    cases hf
  · rw [hb] at h
    cases h
    obtain ⟨c1, c2, c3⟩ := hcommit
    exact ⟨⟨fun hne => absurd c1 hne, fun hne => absurd c2 hne, fun hne => absurd c3 hne⟩,
      fun _ => ⟨c1, c2, c3, rfl, rfl, rfl⟩⟩
  · rw [hb] at h
    cases h

theorem SetInputLayout_pending (p q : RHI_Pipeline) (l : Option RHI_InputLayout) (b : Bool)
    (h : SetInputLayout p l = some (b, q)) :
    q.m_textures = p.m_textures ∧ q.m_texturesDirty = p.m_texturesDirty ∧
    q.m_samplers = p.m_samplers ∧ q.m_samplersDirty = p.m_samplersDirty ∧
    q.m_constantBuffers = p.m_constantBuffers ∧
    q.m_constantBufferDirty = p.m_constantBufferDirty := by
  rcases SetInputLayout_frame p q l b h with rfl | ⟨x, y, rfl⟩
  · exact ⟨rfl, rfl, rfl, rfl, rfl, rfl⟩
  · exact ⟨rfl, rfl, rfl, rfl, rfl, rfl⟩

theorem SetVertexShader_pending (p q : RHI_Pipeline) (s : Option RHI_Shader) (b : Bool)
    (h : SetVertexShader p s = some (b, q)) :
    q.m_textures = p.m_textures ∧ q.m_texturesDirty = p.m_texturesDirty ∧
    q.m_samplers = p.m_samplers ∧ q.m_samplersDirty = p.m_samplersDirty ∧
    q.m_constantBuffers = p.m_constantBuffers ∧
    q.m_constantBufferDirty = p.m_constantBufferDirty := by
  unfold SetVertexShader at h
  cases s with
  | none =>
    simp only [Option.some.injEq, Prod.mk.injEq] at h
    obtain ⟨_, rfl⟩ := h
    exact ⟨rfl, rfl, rfl, rfl, rfl, rfl⟩
  | some sh =>
    simp only at h
    split_ifs at h
    · cases hl : SetInputLayout p sh.inputLayoutPtr with
      | none => simp [hl] at h
      | some r =>
        obtain ⟨b1, p1⟩ := r
        simp only [hl, Option.some.injEq, Prod.mk.injEq] at h
        obtain ⟨_, rfl⟩ := h
        exact SetInputLayout_pending p p1 _ b1 hl
    · simp only [Option.some.injEq, Prod.mk.injEq] at h
      obtain ⟨_, rfl⟩ := h
      exact ⟨rfl, rfl, rfl, rfl, rfl, rfl⟩

theorem SetPixelShader_pending (p : RHI_Pipeline) (s : Option RHI_Shader) :
    (SetPixelShader p s).2.m_textures = p.m_textures ∧
    (SetPixelShader p s).2.m_texturesDirty = p.m_texturesDirty ∧
    (SetPixelShader p s).2.m_samplers = p.m_samplers ∧
    (SetPixelShader p s).2.m_samplersDirty = p.m_samplersDirty ∧
    (SetPixelShader p s).2.m_constantBuffers = p.m_constantBuffers ∧
    (SetPixelShader p s).2.m_constantBufferDirty = p.m_constantBufferDirty := by
  unfold SetPixelShader
  cases s with
  | none => exact ⟨rfl, rfl, rfl, rfl, rfl, rfl⟩
  | some sh =>
    simp only
    split_ifs <;> exact ⟨rfl, rfl, rfl, rfl, rfl, rfl⟩

/-- What a `Set*` call does to the three pending sequences and their dirty bits:
it appends the entries it sets and marks the group dirty when it sets one; it
issues no native call. -/
theorem exec_set_pending (op : Op) (n : Native) (p : RHI_Pipeline) (r : Outcome)
    (h : exec op n p = some r) (hop : op.isSet = true) :
    r.calls = [] ∧
    r.p.m_textures = p.m_textures ++ op.textures ∧
    r.p.m_texturesDirty = (p.m_texturesDirty || !op.textures.isEmpty) ∧
    r.p.m_samplers = p.m_samplers ++ op.samplers ∧
    r.p.m_samplersDirty = (p.m_samplersDirty || !op.samplers.isEmpty) ∧
    r.p.m_constantBuffers = p.m_constantBuffers ++ op.constantBuffers ∧
    r.p.m_constantBufferDirty = (p.m_constantBufferDirty || !op.constantBuffers.isEmpty) := by
  cases op <;> simp only [exec] at h <;> simp only [Op.isSet] at hop
  case DrawIndexed => cases hop
  case Draw => cases hop
  case Bind => cases hop
  case Reset => cases hop
  case SetShader s =>
    obtain ⟨q, hq, rfl⟩ := Option.map_eq_some'.mp h
    unfold SetShader at hq
    cases hv : SetVertexShader p s with
    | none => simp [hv] at hq
    | some x =>
      obtain ⟨b1, p1⟩ := x
      simp only [hv, Option.some.injEq] at hq
      subst hq
      obtain ⟨e1, e2, e3, e4, e5, e6⟩ := SetVertexShader_pending p p1 s b1 hv
      obtain ⟨f1, f2, f3, f4, f5, f6⟩ := SetPixelShader_pending p1 s
      simp [Outcome.ofVoid, Op.textures, Op.samplers, Op.constantBuffers, e1, e2, e3, e4, e5,
        e6, f1, f2, f3, f4, f5, f6]
  case SetVertexShader s =>
    obtain ⟨⟨b1, p1⟩, hv, rfl⟩ := Option.map_eq_some'.mp h
    obtain ⟨e1, e2, e3, e4, e5, e6⟩ := SetVertexShader_pending p p1 s b1 hv
    simp [Outcome.ofSet, Op.textures, Op.samplers, Op.constantBuffers, e1, e2, e3, e4, e5, e6]
  case SetPixelShader s =>
    simp only [Option.some.injEq] at h
    subst h
    obtain ⟨f1, f2, f3, f4, f5, f6⟩ := SetPixelShader_pending p s
    simp [Outcome.ofSet, Op.textures, Op.samplers, Op.constantBuffers, f1, f2, f3, f4, f5, f6]
  case SetInputLayout l =>
    obtain ⟨⟨b1, p1⟩, hv, rfl⟩ := Option.map_eq_some'.mp h
    obtain ⟨e1, e2, e3, e4, e5, e6⟩ := SetInputLayout_pending p p1 l b1 hv
    simp [Outcome.ofSet, Op.textures, Op.samplers, Op.constantBuffers, e1, e2, e3, e4, e5, e6]
  case SetIndexBuffer b =>
    simp only [Option.some.injEq] at h
    subst h
    cases b <;>
      simp [Outcome.ofSet, SetIndexBuffer, Op.textures, Op.samplers, Op.constantBuffers]
  case SetVertexBuffer b =>
    simp only [Option.some.injEq] at h
    subst h
    cases b <;>
      simp [Outcome.ofSet, SetVertexBuffer, Op.textures, Op.samplers, Op.constantBuffers]
  case SetSampler s =>
    simp only [Option.some.injEq] at h
    subst h
    cases s <;> simp [Outcome.ofSet, SetSampler, Op.textures, Op.samplers, Op.constantBuffers]
  case SetTexture_RenderTexture t =>
    simp only [Option.some.injEq] at h
    subst h
    simp [Outcome.ofSet, SetTexture_RenderTexture, Op.textures, Op.samplers,
      Op.constantBuffers]
  case SetTexture t =>
    simp only [Option.some.injEq] at h
    subst h
    simp [Outcome.ofSet, SetTexture, Op.textures, Op.samplers, Op.constantBuffers]
  case SetTexture_Ptr t =>
    simp only [Option.some.injEq] at h
    subst h
    simp [Outcome.ofSet, SetTexture_Ptr, Op.textures, Op.samplers, Op.constantBuffers]
  case SetRenderTarget_RenderTexture rt d c =>
    simp only [Option.some.injEq] at h
    subst h
    cases rt <;>
      simp [Outcome.ofSet, SetRenderTarget_RenderTexture, Op.textures, Op.samplers,
        Op.constantBuffers]
  case SetRenderTarget_View v d c =>
    simp only [Option.some.injEq] at h
    subst h
    simp only [Outcome.ofSet, SetRenderTarget_View]
    split_ifs <;> simp [Op.textures, Op.samplers, Op.constantBuffers]
  case SetRenderTarget_Views l d c =>
    simp only [Option.some.injEq] at h
    subst h
    simp only [Outcome.ofSet, SetRenderTarget_Views]
    split_ifs <;> simp [Op.textures, Op.samplers, Op.constantBuffers]
  case SetConstantBuffer b s sc =>
    simp only [Option.some.injEq] at h
    subst h
    cases b <;>
      simp [Outcome.ofSet, SetConstantBuffer, Op.textures, Op.samplers, Op.constantBuffers]
  case SetPrimitiveTopology m =>
    simp only [Option.some.injEq] at h
    subst h
    simp only [Outcome.ofVoid, SetPrimitiveTopology]
    split_ifs <;> simp [Op.textures, Op.samplers, Op.constantBuffers]
  case SetCullMode m =>
    simp only [Option.some.injEq] at h
    subst h
    simp only [Outcome.ofVoid, SetCullMode]
    split_ifs <;> simp [Op.textures, Op.samplers, Op.constantBuffers]
  case SetFillMode m =>
    simp only [Option.some.injEq] at h
    subst h
    simp only [Outcome.ofVoid, SetFillMode]
    split_ifs <;> simp [Op.textures, Op.samplers, Op.constantBuffers]
  case SetAlphaBlending m =>
    simp only [Option.some.injEq] at h
    subst h
    simp only [Outcome.ofVoid, SetAlphaBlending]
    split_ifs <;> simp [Op.textures, Op.samplers, Op.constantBuffers]
  case SetViewport m =>
    simp only [Option.some.injEq] at h
    subst h
    simp only [Outcome.ofVoid, SetViewport]
    split_ifs <;> simp [Op.textures, Op.samplers, Op.constantBuffers]

theorem pending_step {α : Type} (l adds : List α) (d : Bool) (h : l ≠ [] → d = true)
    (hne : l ++ adds ≠ []) : (d || !adds.isEmpty) = true := by
  by_cases hl : l = []
  · subst hl
    cases adds with
    | nil => exact absurd rfl hne
    | cons a t => simp
  · rw [h hl]
    rfl

theorem Reset_pending (p q : RHI_Pipeline) (calls : List DeviceCall)
    (h : Reset p = some (q, calls)) :
    q.m_textures = [] ∧ q.m_samplers = [] ∧ q.m_constantBuffers = [] := by
  have hdev := (Reset_frame p q calls h).2.2.2.2.2.2.2.2.2.2.2.2.1
  rw [Reset_eq p hdev] at h
  simp only [Option.some.injEq, Prod.mk.injEq] at h
  obtain ⟨rfl, _⟩ := h
  exact ⟨rfl, rfl, rfl⟩

theorem exec_set_preserves_pendingInv (op : Op) (n : Native) (p : RHI_Pipeline) (r : Outcome)
    (h : exec op n p = some r) (hop : op.isSet = true) (hinv : PendingInv p) :
    PendingInv r.p := by
  obtain ⟨_, t1, t2, s1, s2, c1, c2⟩ := exec_set_pending op n p r h hop
  obtain ⟨h1, h2, h3⟩ := hinv
  refine ⟨?_, ?_, ?_⟩
  · rw [t1, t2]
    exact pending_step _ _ _ h1
  · rw [s1, s2]
    exact pending_step _ _ _ h2
  · rw [c1, c2]
    exact pending_step _ _ _ h3

theorem exec_preserves_pendingInv (op : Op) (n : Native) (p : RHI_Pipeline) (r : Outcome)
    (h : exec op n p = some r) (hinv : PendingInv p) : PendingInv r.p := by
  cases op
  case DrawIndexed c i v =>
    obtain ⟨b, hb, rfl⟩ := DrawIndexed_eq p n c i v r h
    exact (Bind_preserves_pendingInv p n b hb hinv).1
  case Draw k =>
    obtain ⟨b, hb, rfl⟩ := Draw_eq p n k r h
    exact (Bind_preserves_pendingInv p n b hb hinv).1
  case Bind => exact (Bind_preserves_pendingInv p n r h hinv).1
  case Reset =>
    obtain ⟨⟨q, calls⟩, hq, rfl⟩ := Option.map_eq_some'.mp h
    obtain ⟨e1, e2, e3⟩ := Reset_pending p q calls hq
    exact ⟨fun hne => absurd e1 hne, fun hne => absurd e2 hne, fun hne => absurd e3 hne⟩
  all_goals exact exec_set_preserves_pendingInv _ n p r h rfl hinv

theorem isEmpty_step {α : Type} (d : Bool) (a b : List α) :
    ((d || !a.isEmpty) || !b.isEmpty) = (d || !(a ++ b).isEmpty) := by
  cases a <;> cases d <;> simp

theorem reachable_pendingInv (p : RHI_Pipeline) (hr : Reachable p) : PendingInv p := by
  induction hr with
  | construct dev q calls h =>
    unfold RHI_Pipeline.construct at h
    obtain ⟨e1, e2, e3⟩ := Reset_pending _ q calls h
    exact ⟨fun hne => absurd e1 hne, fun hne => absurd e2 hne, fun hne => absurd e3 hne⟩
  | step op n q r _ h ih => exact exec_preserves_pendingInv op n q r h ih

theorem run_set_pending (ops : List (Op × Native)) :
    ∀ (p q : RHI_Pipeline) (traces : List (List DeviceCall)),
      (∀ o ∈ ops, o.1.isSet = true) → run p ops = some (traces, q) →
      q.m_textures = p.m_textures ++ ops.flatMap (fun o => o.1.textures) ∧
      q.m_texturesDirty =
        (p.m_texturesDirty || !(ops.flatMap (fun o => o.1.textures)).isEmpty) ∧
      q.m_samplers = p.m_samplers ++ ops.flatMap (fun o => o.1.samplers) ∧
      q.m_samplersDirty =
        (p.m_samplersDirty || !(ops.flatMap (fun o => o.1.samplers)).isEmpty) ∧
      q.m_constantBuffers = p.m_constantBuffers ++ ops.flatMap (fun o => o.1.constantBuffers) ∧
      q.m_constantBufferDirty =
        (p.m_constantBufferDirty || !(ops.flatMap (fun o => o.1.constantBuffers)).isEmpty) ∧
      (∀ t ∈ traces, t = []) := by
  induction ops with
  | nil =>
    intro p q traces _ h
    simp only [run, Option.some.injEq, Prod.mk.injEq] at h
    obtain ⟨rfl, rfl⟩ := h
    simp
  | cons o rest ih =>
    intro p q traces hset h
    obtain ⟨op, n⟩ := o
    simp only [run] at h
    cases he : exec op n p with
    | none => simp [he] at h
    | some r =>
      simp only [he] at h
      cases hrun : run r.p rest with
      | none => simp [hrun] at h
      | some x =>
        obtain ⟨traces2, q2⟩ := x
        simp only [hrun, Option.some.injEq, Prod.mk.injEq] at h
        obtain ⟨rfl, rfl⟩ := h
        obtain ⟨r0, t1, t2, s1, s2, c1, c2⟩ :=
          exec_set_pending op n p r he (hset (op, n) (List.mem_cons_self _ _))
        obtain ⟨u1, u2, v1, v2, w1, w2, tr⟩ :=
          ih r.p q2 traces2 (fun o ho => hset o (List.mem_cons_of_mem _ ho)) hrun
        refine ⟨?_, ?_, ?_, ?_, ?_, ?_, ?_⟩
        · rw [u1, t1, List.flatMap_cons, List.append_assoc]
        · rw [u2, t2, List.flatMap_cons]
          exact isEmpty_step _ _ _
        · rw [v1, s1, List.flatMap_cons, List.append_assoc]
        · rw [v2, s2, List.flatMap_cons]
          exact isEmpty_step _ _ _
        · rw [w1, c1, List.flatMap_cons, List.append_assoc]
        · rw [w2, c2, List.flatMap_cons]
          exact isEmpty_step _ _ _
        · intro t ht
          rcases List.mem_cons.mp ht with rfl | ht
          · exact r0
          · exact tr t ht

/-- C26: in every cache state reachable from construction through public calls, a
non-empty pending texture, sampler or constant-buffer sequence has its group's
dirty bit set, and `Bind()` has a defined result; after a `Bind()` that does not
fail early the three pending sequences are empty; and when any `Set*` calls
follow such a `Bind()`, the next `Bind()` that does not fail early passes to
`Set_Textures`, `Set_Samplers` and `Set_ConstantBuffers` exactly the entries these
later calls set, in order, and so none of the entries set before the first
`Bind()`. -/
theorem C26_pending_sequences (p : RHI_Pipeline) (hr : Reachable p) :
    PendingInv p ∧
    (∀ n, ∃ b, Bind p n = some b) ∧
    (∀ n b, Bind p n = some b → BindFailsEarly p = false →
      b.p.m_textures = [] ∧ b.p.m_samplers = [] ∧ b.p.m_constantBuffers = []) ∧
    (∀ n b ops traces q n2 b2, Bind p n = some b → BindFailsEarly p = false →
      (∀ o ∈ ops, o.1.isSet = true) → run b.p ops = some (traces, q) →
      Bind q n2 = some b2 → BindFailsEarly q = false →
      b2.calls.filter (fun c => decide (c.group = some Group.textures)) =
        (if (ops.flatMap (fun o => o.1.textures)).isEmpty then []
         else [DeviceCall.Set_Textures 0 (ops.flatMap (fun o => o.1.textures)).length
           (ops.flatMap (fun o => o.1.textures))]) ∧
      b2.calls.filter (fun c => decide (c.group = some Group.samplers)) =
        (if (ops.flatMap (fun o => o.1.samplers)).isEmpty then []
         else [DeviceCall.Set_Samplers 0 (ops.flatMap (fun o => o.1.samplers)).length
           (ops.flatMap (fun o => o.1.samplers))]) ∧
      b2.calls.filter (fun c => decide (c.group = some Group.constantBuffers)) =
        (ops.flatMap (fun o => o.1.constantBuffers)).map ConstantBuffer.call) := by
  have hinv := reachable_pendingInv p hr
  refine ⟨hinv, fun n => Bind_defined p n (Or.inl (reachable_inv p hr).2.1), ?_, ?_⟩
  · intro n b hb he
    obtain ⟨e1, e2, e3, _⟩ := (Bind_preserves_pendingInv p n b hb hinv).2 he
    exact ⟨e1, e2, e3⟩
  · intro n b ops traces q n2 b2 hb he hset hrun hb2 he2
    obtain ⟨e1, e2, e3, d1, d2, d3⟩ := (Bind_preserves_pendingInv p n b hb hinv).2 he
    obtain ⟨u1, u2, v1, v2, w1, w2, _⟩ := run_set_pending ops b.p q traces hset hrun
    rw [e1, List.nil_append] at u1
    rw [e2, List.nil_append] at v1
    rw [e3, List.nil_append] at w1
    rw [d1, Bool.false_or] at u2
    rw [d2, Bool.false_or] at v2
    rw [d3, Bool.false_or] at w2
    rcases Bind_cases q n2 with ⟨he3, _⟩ | ⟨_, _, hq⟩ | ⟨_, _, hq⟩
    · rw [he2] at he3
      cases he3
    · rw [hq] at hb2
      cases hb2
      refine ⟨?_, ?_, ?_⟩
      · show (Group.order.flatMap _).filter _ = _
        rw [filter_group_trace, groupCalls_textures, u2, u1]
        cases (ops.flatMap (fun o => o.1.textures)) <;> rfl
      · show (Group.order.flatMap _).filter _ = _
        rw [filter_group_trace, groupCalls_samplers, v2, v1]
        cases (ops.flatMap (fun o => o.1.samplers)) <;> rfl
      · show (Group.order.flatMap _).filter _ = _
        rw [filter_group_trace, groupCalls_constantBuffers, w2, w1]
        cases (ops.flatMap (fun o => o.1.constantBuffers)) <;> rfl
    · rw [hq] at hb2
      cases hb2

/-- C26 at a concrete input: on the constructed cache, `SetTexture(7)`,
`SetSampler(3)`, `Bind()`, then `SetTexture(9)`, `SetCullMode(Cull_Front)`,
`Bind()`: the second `Bind()` passes the texture 9 alone and no sampler. -/
theorem C26_pending_sequences_witness :
    ∃ b b2,
      Bind (SetSampler (SetTexture cache0 (some (RHI_Texture.mk 7))).2
        (some (RHI_Sampler.mk 3))).2 native0 = some b ∧
      b.calls = [DeviceCall.Set_Textures 0 1 [7], DeviceCall.Set_Samplers 0 1 [3]] ∧
      b.p.m_textures = [] ∧ b.p.m_samplers = [] ∧
      Bind (SetCullMode (SetTexture b.p (some (RHI_Texture.mk 9))).2 Cull_Mode.Cull_Front)
        native0 = some b2 ∧
      b2.calls.filter (fun c => decide (c.group = some Group.textures)) =
        [DeviceCall.Set_Textures 0 1 [9]] ∧
      b2.calls.filter (fun c => decide (c.group = some Group.samplers)) = [] :=
  have hr : Reachable (SetSampler (SetTexture cache0 (some (RHI_Texture.mk 7))).2
      (some (RHI_Sampler.mk 3))).2 :=
    Reachable.step (Op.SetSampler (some (RHI_Sampler.mk 3))) native0 _ _
      (Reachable.step (Op.SetTexture (some (RHI_Texture.mk 7))) native0 cache0 _
        reachable_cache0 rfl) rfl
  have h := (C26_pending_sequences _ hr).2.2.2 native0 _
    [(Op.SetTexture (some (RHI_Texture.mk 9)), native0),
     (Op.SetCullMode Cull_Mode.Cull_Front, native0)] _ _ native0 _
    rfl (by decide) (by decide) rfl rfl (by decide)
  ⟨_, _, rfl, by decide, by decide, by decide, rfl, h.1, h.2.1⟩

/-! ## C27 -/

theorem take_set_self (l : List Handle) (x : Handle) :
    ∀ k, (l.set k x).take k = l.take k := by
  induction l with
  | nil => intro k; simp
  | cons a t ih =>
    intro k
    cases k with
    | zero => simp
    | succ j => simp [ih]

theorem RemoveSubsystems_loop_never_returns (steps : Nat) :
    ∀ (i : Nat) (m d m2 d2 : List Handle),
      RemoveSubsystems_loop steps i m d ≠ LoopEnd.returned m2 d2 := by
  induction steps with
  | zero => intro i m d m2 d2 h; simp [RemoveSubsystems_loop] at h
  | succ k ih =>
    intro i m d m2 d2 h
    simp only [RemoveSubsystems_loop, ge_iff_le, Nat.zero_le, if_true] at h
    cases hi : m[i]? with
    | none => simp [hi] at h
    | some ptr =>
      simp only [hi] at h
      exact ih _ _ _ _ _ h

theorem RemoveSubsystems_loop_eq (m0 : List Handle) (extra : Nat) :
    ∀ (k : Nat) (m d : List Handle), m.take k = m0.take k → m.length = m0.length →
      k ≤ m0.length → m0.length < 2 ^ 64 →
      RemoveSubsystems_loop (k + 1 + extra) ((k + 2 ^ 64 - 1) % 2 ^ 64) m d =
        LoopEnd.out_of_range SIZE_MAX
          (d ++ (m0.take k).reverse.filter (fun ptr => decide (ptr ≠ 0))) := by
  intro k
  induction k with
  | zero =>
    intro m d _ hlen _ hlt
    have hi : (0 + 2 ^ 64 - 1) % 2 ^ 64 = SIZE_MAX := by decide
    rw [hi]
    have hnone : m[SIZE_MAX]? = none := by
      apply List.getElem?_eq_none
      rw [hlen]
      unfold SIZE_MAX
      omega
    have hsteps : 0 + 1 + extra = extra + 1 := by omega
    rw [hsteps]
    simp [RemoveSubsystems_loop, hnone]
  | succ j ih =>
    intro m d htake hlen hk hlt
    have hi : (j + 1 + 2 ^ 64 - 1) % 2 ^ 64 = j := by
      have : j + 1 + 2 ^ 64 - 1 = j + 2 ^ 64 := by omega
      rw [this, Nat.add_mod_right]
      exact Nat.mod_eq_of_lt (by omega)
    rw [hi]
    have hjm : j < m.length := by omega
    have hj0 : j < m0.length := by omega
    have hsome : m[j]? = some m[j] := List.getElem?_eq_getElem hjm
    have hsteps : j + 1 + 1 + extra = (j + 1 + extra) + 1 := by omega
    rw [hsteps]
    simp only [RemoveSubsystems_loop, ge_iff_le, Nat.zero_le, if_true, hsome]
    have hmj : m[j] = m0[j] := by
      have h1 : (m.take (j + 1))[j]? = (m0.take (j + 1))[j]? := by rw [htake]
      simp only [List.getElem?_take, Nat.lt_succ_self, if_true, hsome,
        List.getElem?_eq_getElem hj0, Option.some.injEq] at h1
      exact h1
    have htake2 : (m.set j (SafeDelete m[j]).1).take j = m0.take j := by
      rw [take_set_self]
      have := congrArg (List.take j) htake
      simpa [List.take_take] using this
    rw [ih _ _ htake2 (by rw [List.length_set]; exact hlen) (by omega) hlt]
    have hl : d ++ (SafeDelete m[j]).2 ++
        (m0.take j).reverse.filter (fun ptr => decide (ptr ≠ 0)) =
        d ++ (m0.take (j + 1)).reverse.filter (fun ptr => decide (ptr ≠ 0)) := by
      rw [List.take_succ, List.getElem?_eq_getElem hj0]
      simp only [Option.toList, List.reverse_append, List.reverse_cons, List.reverse_nil,
        List.nil_append, List.singleton_append, List.append_assoc]
      rw [hmj]
      by_cases h0 : m0[j] = 0
      · simp [SafeDelete, h0]
      · simp [SafeDelete, h0]
    rw [hl]

/-- C27, the code on every list of registered subsystems: `RemoveSubsystems`
never returns, however many steps it is given; given one step more than there are
subsystems it has deleted every non-null subsystem once, in reverse registration
order, and then indexes the vector at `SIZE_MAX`, outside its range.  The loop
counter is unsigned, so `i >= 0` always holds and `i--` at zero wraps around. -/
theorem C27_remove_subsystems (c : Context) (hlen : c.m_subsystems.length < 2 ^ 64) :
    (∀ steps m d, c.RemoveSubsystems steps ≠ LoopEnd.returned m d) ∧
    (∀ extra, c.RemoveSubsystems (c.m_subsystems.length + 1 + extra) =
      LoopEnd.out_of_range SIZE_MAX
        (c.m_subsystems.reverse.filter (fun ptr => decide (ptr ≠ 0)))) ∧
    c.m_subsystems.length ≤ SIZE_MAX := by
  refine ⟨?_, ?_, ?_⟩
  · intro steps m d
    exact RemoveSubsystems_loop_never_returns steps _ _ _ m d
  · intro extra
    unfold Context.RemoveSubsystems
    rw [RemoveSubsystems_loop_eq c.m_subsystems extra c.m_subsystems.length c.m_subsystems []
      rfl rfl (le_refl _) hlen]
    simp
  · unfold SIZE_MAX
    omega

/-- C27 at the failing inputs: with no subsystem registered the first index is
already `SIZE_MAX`; with the two subsystems 11 and 12 registered in this order,
12 and then 11 are deleted and the third index is `SIZE_MAX`. -/
theorem C27_remove_subsystems_witness :
    (Context.mk []).RemoveSubsystems 1 = LoopEnd.out_of_range SIZE_MAX [] ∧
    (((Context.mk []).RegisterSubsystem 11).RegisterSubsystem 12).RemoveSubsystems 3 =
      LoopEnd.out_of_range SIZE_MAX [12, 11] ∧
    (∀ steps m d, (Context.mk []).RemoveSubsystems steps ≠ LoopEnd.returned m d) :=
  ⟨(C27_remove_subsystems (Context.mk []) (by decide)).2.1 0,
    (C27_remove_subsystems (((Context.mk []).RegisterSubsystem 11).RegisterSubsystem 12)
      (by decide)).2.1 0,
    (C27_remove_subsystems (Context.mk []) (by decide)).1⟩

/-! ## C30 -/

theorem Bind_commit_of_allClean (p : RHI_Pipeline) (h : AllClean p) : Bind_commit p = p := by
  obtain ⟨h1, h2, h3, h4, h5, h6, h7, h8, h9, h10, h11, h12, h13, h14⟩ := allClean_bits p h
  cases p
  simp only [Bind_commit] at *
  simp only [h1, h2, h3, h4, h5, h6, h7, h8, h9, h10, h11, h12, h13, h14, Bool.false_eq_true,
    if_false]

theorem Bind_of_allClean (p : RHI_Pipeline) (n : Native) (h : AllClean p) :
    Bind p n = some (Outcome.mk false p []) := by
  rcases Bind_cases p n with ⟨_, hb⟩ | ⟨_, _, hb⟩ | ⟨_, hs, _⟩
  · exact hb
  · rw [hb, trace_of_allClean n p h, Bind_commit_of_allClean p h]
    obtain ⟨_, _, _, _, _, _, _, _, _, _, _, h12, _, _⟩ := allClean_bits p h
    simp [Bind_ret, h12]
  · exfalso
    apply hs
    obtain ⟨_, _, _, _, h5, h6, _, _, _, _, _, h12, h13, _⟩ := allClean_bits p h
    refine ⟨?_, ?_, ?_, ?_⟩ <;> intro hd
    · rw [h5] at hd; cases hd
    · rw [h6] at hd; cases hd
    · rw [h12] at hd; cases hd
    · rw [h13] at hd; cases hd

/-- C30: for every cache and all native answers, `Bind()` returns `true` only if
the index-buffer, vertex-buffer and alpha-blending groups were all three dirty on
entry and all three native operations succeeded; on a cache with no pending change
it has a defined result, returns `false` and issues no call; and whenever a
`Bind()` has a defined result, a second `Bind()` right after it has one too,
issues no native call and returns `false`. -/
theorem C30_bind_true_only_if (p : RHI_Pipeline) (n : Native) :
    (∀ out, Bind p n = some out → out.ret = true →
      p.m_indexBufferDirty = true ∧ p.m_vertexBufferDirty = true ∧
      p.m_alphaBlendingDirty = true ∧ n.indexBufferBind = true ∧
      n.vertexBufferBind = true ∧ n.alphaBlendingEnabled = true) ∧
    (AllClean p → Bind p n = some (Outcome.mk false p [])) ∧
    (∀ out n2, Bind p n = some out → Bind out.p n2 = some (Outcome.mk false out.p [])) := by
  refine ⟨?_, Bind_of_allClean p n, ?_⟩
  · intro out h hr
    rcases Bind_cases p n with ⟨_, hb⟩ | ⟨_, _, hb⟩ | ⟨_, _, hb⟩
    · rw [hb] at h
      cases h
      cases hr
    · rw [hb] at h
      cases h
      simp only [Bind_ret, Bool.and_eq_true] at hr
      obtain ⟨⟨⟨h1, h2⟩, h3, h4⟩, h5, h6⟩ := hr
      exact ⟨h1, h3, h5, h2, h4, h6⟩
    · rw [hb] at h
      cases h
  · intro out n2 h
    rcases Bind_cases p n with ⟨he, hb⟩ | ⟨_, _, hb⟩ | ⟨_, _, hb⟩
    · rw [hb] at h
      cases h
      exact Bind_early p n2 he
    · rw [hb] at h
      cases h
      exact Bind_of_allClean _ n2 (Bind_commit_allClean p)
    · rw [hb] at h
      cases h

/-- C30 at concrete inputs: the freshly constructed cache, on which `Bind()`
returns `false` without a call; and a cache with an index buffer, a vertex buffer
and an alpha-blending change pending, on which a first `Bind()` returns `true` and
a second one returns `false` without a call. -/
theorem C30_bind_true_only_if_witness :
    Bind cache0 native0 = some (Outcome.mk false cache0 []) ∧
    (∃ out, Bind cacheBuffers native0 = some out ∧ out.ret = true ∧
      Bind out.p native0 = some (Outcome.mk false out.p [])) ∧
    cacheBuffers.m_indexBufferDirty = true :=
  ⟨(C30_bind_true_only_if cache0 native0).2.1 allClean_cache0,
    ⟨(Bind cacheBuffers native0).get (by decide), (Option.some_get _).symm, by decide,
      (C30_bind_true_only_if cacheBuffers native0).2.2 _ native0 (Option.some_get _).symm⟩,
    ((C30_bind_true_only_if cacheBuffers native0).1 ((Bind cacheBuffers native0).get (by decide))
      (Option.some_get _).symm (by decide)).1⟩

end Directus

namespace Spartan

/-! ## Facts about the test inputs -/

theorem chain0_eq :
    chain0 =
      { m_initialized := true
        m_format := 0
        m_rhi_device := some deviceVk0
        m_buffer_count := 2
        m_width := 800
        m_height := 600
        m_window_handle := 9
        m_flags := 0
        m_max_resolution := 16384
        m_render_pass := 70
        m_surface := 50
        m_swap_chain_view := 60
        m_image_views := [200, 201]
        m_frame_buffers := [300, 301]
        m_image_acquired_semaphores := [400, 401]
        m_cmd_pool := 80
        m_cmd_lists := [0, 1]
        m_image_index := 0
        m_image_acquired := false } := by
  decide

theorem chainAcquired_eq :
    AcquireNextImage chain0 (AcquireResult.VK_SUCCESS 0) =
      some (Outcome.mk true chainAcquired [VkCall.vkAcquireNextImageKHR 60 400]) := by
  decide

/-! ## `AcquireNextImage` in closed form -/

theorem semaphoreSlot_lt (s : RHI_SwapChain) (slot : Nat) (hN : 1 ≤ s.m_buffer_count)
    (h : semaphoreSlot s = some slot) : slot < s.m_buffer_count := by
  unfold semaphoreSlot at h
  split_ifs at h with h1 h2
  · cases h
    exact hN
  · cases h
    exact Nat.mod_lt _ hN

theorem semaphoreSlot_defined (s : RHI_SwapChain) (hN : 1 ≤ s.m_buffer_count) :
    semaphoreSlot s =
      some (if s.m_image_acquired then (s.m_image_index + 1) % 2 ^ 32 % s.m_buffer_count
        else 0) := by
  unfold semaphoreSlot
  cases s.m_image_acquired
  · rfl
  · have : s.m_buffer_count ≠ 0 := by omega
    simp [this]

theorem AcquireNextImage_eq (s : RHI_SwapChain) (a : AcquireResult) (dev : RHI_Device)
    (slot semaphore : Nat) (hdev : s.m_rhi_device = some dev)
    (hslot : semaphoreSlot s = some slot)
    (hsem : s.m_image_acquired_semaphores[slot]? = some semaphore) :
    AcquireNextImage s a =
      some (Outcome.mk a.succeeded
        { s with
          m_image_acquired := a.succeeded
          m_image_index :=
            match a with
            | AcquireResult.VK_SUCCESS i => i
            | AcquireResult.VK_SUBOPTIMAL_KHR i => i
            | AcquireResult.failure => s.m_image_index }
        ((if resetsCommandPool s then [VkCall.vkResetCommandPool s.m_cmd_pool] else []) ++
          [VkCall.vkAcquireNextImageKHR s.m_swap_chain_view semaphore])) := by
  unfold AcquireNextImage
  simp only [hdev, hslot, hsem]
  cases a <;> simp [AcquireResult.succeeded]

theorem acquireAll_append (s : RHI_SwapChain) (xs ys : List AcquireResult) :
    acquireAll s (xs ++ ys) =
      match acquireAll s xs with
      | none => none
      | some (t1, s1) =>
        match acquireAll s1 ys with
        | none => none
        | some (t2, s2) => some (t1 ++ t2, s2) := by
  induction xs generalizing s with
  | nil =>
    simp only [List.nil_append, acquireAll]
    cases acquireAll s ys with
    | none => rfl
    | some x => rfl
  | cons x xs ih =>
    show acquireAll s (x :: (xs ++ ys)) = _
    simp only [acquireAll]
    cases h1 : AcquireNextImage s x with
    | none => rfl
    | some r =>
      simp only []
      rw [ih r.s]
      cases h2 : acquireAll r.s xs with
      | none => rfl
      | some y =>
        obtain ⟨t1, s1⟩ := y
        simp only []
        cases h3 : acquireAll s1 ys with
        | none => rfl
        | some z => rfl

theorem acquire_slot_exists (s : RHI_SwapChain) (hN : 1 ≤ s.m_buffer_count)
    (hring : s.m_image_acquired_semaphores.length = s.m_buffer_count) :
    ∃ slot semaphore, semaphoreSlot s = some slot ∧
      s.m_image_acquired_semaphores[slot]? = some semaphore := by
  have hslot := semaphoreSlot_defined s hN
  have hlt := semaphoreSlot_lt s _ hN hslot
  exact ⟨_, _, hslot, List.getElem?_eq_getElem (by rw [hring]; exact hlt)⟩

theorem AcquireNextImage_flag (s : RHI_SwapChain) (a : AcquireResult) (r : Outcome)
    (h : AcquireNextImage s a = some r) :
    r.ret = a.succeeded ∧ r.s.m_image_acquired = a.succeeded := by
  unfold AcquireNextImage at h
  cases hd : s.m_rhi_device with
  | none => simp [hd] at h
  | some dev =>
    simp only [hd] at h
    cases hs : semaphoreSlot s with
    | none => simp [hs] at h
    | some slot =>
      simp only [hs] at h
      cases hm : s.m_image_acquired_semaphores[slot]? with
      | none => simp [hm] at h
      | some sem =>
        simp only [hm] at h
        cases a <;> simp only [Option.some.injEq] at h <;> subst h <;> exact ⟨rfl, rfl⟩

/-! ## C15 -/

/-- C15: for every swap chain whose `image_acquired` is false and every native
answer, `Present()` returns `false`, issues no native call, the present call
included, and leaves the swap chain unchanged. -/
theorem C15_present_without_acquire (s : RHI_SwapChain) (present_ok : Bool)
    (h : s.m_image_acquired = false) :
    Present s present_ok = some (Outcome.mk false s []) := by
  simp [Present, h]

/-- C15 at a concrete input: the freshly constructed swap chain. -/
theorem C15_present_without_acquire_witness :
    Present chain0 true = some (Outcome.mk false chain0 []) :=
  C15_present_without_acquire chain0 true (by decide)

/-! ## C16 -/

/-- C16, as stated, fails: after a successful acquire on the freshly constructed
swap chain, a successful `Present()` leaves `image_acquired` true, and a second
`Present()` with no acquire in between issues the native present call again and
succeeds. -/
theorem C16_counterexample :
    AcquireNextImage chain0 (AcquireResult.VK_SUCCESS 0) =
      some (Outcome.mk true chainAcquired [VkCall.vkAcquireNextImageKHR 60 400]) ∧
    ∃ r1 r2,
      Present chainAcquired true = some r1 ∧ r1.ret = true ∧
      r1.s.m_image_acquired = true ∧
      Present r1.s true = some r2 ∧ r2.ret = true ∧
      r2.calls = [VkCall.vkQueuePresentKHR 60 0] :=
  ⟨by decide, Outcome.mk true chainAcquired [VkCall.vkQueuePresentKHR 60 0],
    Outcome.mk true chainAcquired [VkCall.vkQueuePresentKHR 60 0],
    by decide, rfl, by decide, by decide, rfl, rfl⟩

/-- C16, amended: for every swap chain with `image_acquired` true (and a device),
`Present()` issues the native present call for the current image, returns its
checked result and leaves the whole swap chain, `image_acquired` included, as it
was; so a second `Present()` without an intervening acquire presents again rather
than failing. -/
theorem C16_present_keeps_flag (s : RHI_SwapChain) (present_ok : Bool)
    (h : s.m_image_acquired = true) (hdev : s.m_rhi_device ≠ none) :
    ∃ r, Present s present_ok = some r ∧ r.ret = present_ok ∧ r.s = s ∧
      r.s.m_image_acquired = true ∧
      r.calls = [VkCall.vkQueuePresentKHR s.m_swap_chain_view s.m_image_index] ∧
      ∀ second_ok, Present r.s second_ok =
        some (Outcome.mk second_ok s
          [VkCall.vkQueuePresentKHR s.m_swap_chain_view s.m_image_index]) := by
  obtain ⟨dev, hd⟩ := Option.ne_none_iff_exists'.mp hdev
  have hp : ∀ ok, Present s ok =
      some (Outcome.mk ok s [VkCall.vkQueuePresentKHR s.m_swap_chain_view s.m_image_index]) := by
    intro ok
    simp [Present, h, hd]
  exact ⟨_, hp present_ok, rfl, rfl, h, rfl, hp⟩

/-- C16, amended, at a concrete input: the swap chain after a first successful
acquire. -/
theorem C16_present_keeps_flag_witness :
    ∃ r, Present chainAcquired true = some r ∧ r.ret = true ∧ r.s = chainAcquired ∧
      r.s.m_image_acquired = true ∧
      r.calls = [VkCall.vkQueuePresentKHR chainAcquired.m_swap_chain_view
        chainAcquired.m_image_index] ∧
      ∀ second_ok, Present r.s second_ok =
        some (Outcome.mk second_ok chainAcquired
          [VkCall.vkQueuePresentKHR chainAcquired.m_swap_chain_view
            chainAcquired.m_image_index]) :=
  C16_present_keeps_flag chainAcquired true (by decide) (by decide)

/-! ## C17 -/

/-- C17, as stated, fails: on the freshly constructed two-buffer swap chain, after
a successful acquire of image 0 and a failed acquire, an image has been acquired
and `(current_image_index + 1) mod buffer_count` is 1, yet the next acquire passes
the semaphore of slot 0. -/
theorem C17_counterexample :
    ∃ traces s2,
      acquireAll chain0 [AcquireResult.VK_SUCCESS 0, AcquireResult.failure] =
        some (traces, s2) ∧
      s2.m_image_index = 0 ∧ (s2.m_image_index + 1) % s2.m_buffer_count = 1 ∧
      s2.m_image_acquired_semaphores = [400, 401] ∧
      semaphoreSlot s2 = some 0 ∧
      AcquireNextImage s2 (AcquireResult.VK_SUCCESS 1) =
        some (Outcome.mk true { s2 with m_image_acquired := true, m_image_index := 1 }
          [VkCall.vkAcquireNextImageKHR 60 400]) :=
  ⟨_, _, rfl, by decide, by decide, by decide, by decide, by decide⟩

/-- C17, amended: for every swap chain with a device, `buffer_count >= 1` and a
ring of `buffer_count` semaphores, `AcquireNextImage()` passes to the native
acquire call the semaphore of the slot that is 0 when `image_acquired` is false,
that is when the most recent acquire did not succeed or none was made, and
`(current_image_index + 1) mod buffer_count` otherwise (the sum taken in 32 bits);
the slot is less than `buffer_count` and indexes inside the ring.  After the call
`image_acquired` is the success of that call, whatever the history before it. -/
theorem C17_semaphore_slot (s : RHI_SwapChain) (a : AcquireResult)
    (hdev : s.m_rhi_device ≠ none) (hN : 1 ≤ s.m_buffer_count)
    (hring : s.m_image_acquired_semaphores.length = s.m_buffer_count) :
    ∃ slot semaphore r,
      semaphoreSlot s = some slot ∧ slot < s.m_buffer_count ∧
      slot = (if s.m_image_acquired then (s.m_image_index + 1) % 2 ^ 32 % s.m_buffer_count
        else 0) ∧
      (s.m_image_acquired = true → s.m_image_index + 1 < 2 ^ 32 →
        slot = (s.m_image_index + 1) % s.m_buffer_count) ∧
      s.m_image_acquired_semaphores[slot]? = some semaphore ∧
      AcquireNextImage s a = some r ∧
      r.calls =
        (if resetsCommandPool s then [VkCall.vkResetCommandPool s.m_cmd_pool] else []) ++
          [VkCall.vkAcquireNextImageKHR s.m_swap_chain_view semaphore] ∧
      r.s.m_image_acquired = a.succeeded ∧
      r.s.m_buffer_count = s.m_buffer_count ∧
      r.s.m_image_acquired_semaphores = s.m_image_acquired_semaphores ∧
      r.s.m_rhi_device = s.m_rhi_device ∧
      (∀ (history : List AcquireResult) (last : AcquireResult) traces s2,
        acquireAll s (history ++ [last]) = some (traces, s2) →
        s2.m_image_acquired = last.succeeded) := by
  obtain ⟨dev, hd⟩ := Option.ne_none_iff_exists'.mp hdev
  have hslot := semaphoreSlot_defined s hN
  have hlt := semaphoreSlot_lt s _ hN hslot
  have hget := List.getElem?_eq_getElem (l := s.m_image_acquired_semaphores)
    (show (if s.m_image_acquired then (s.m_image_index + 1) % 2 ^ 32 % s.m_buffer_count
      else 0) < s.m_image_acquired_semaphores.length by rw [hring]; exact hlt)
  refine ⟨_, _, _, hslot, hlt, rfl, ?_, hget, AcquireNextImage_eq s a dev _ _ hd hslot hget,
    rfl, rfl, rfl, rfl, rfl, ?_⟩
  · intro hacq hsmall
    rw [hacq, Nat.mod_eq_of_lt hsmall]
    rfl
  · intro history last traces s2 hrun
    rw [acquireAll_append] at hrun
    cases h1 : acquireAll s history with
    | none => simp [h1] at hrun
    | some x =>
      obtain ⟨t1, s1⟩ := x
      simp only [h1, acquireAll] at hrun
      cases h2 : AcquireNextImage s1 last with
      | none => simp [h2] at hrun
      | some r2 =>
        simp only [h2, Option.some.injEq, Prod.mk.injEq] at hrun
        rw [← hrun.2]
        exact (AcquireNextImage_flag s1 last r2 h2).2

/-- C17, amended, at a concrete input: the swap chain after a first successful
acquire of image 0, whose next slot is 1. -/
theorem C17_semaphore_slot_witness :
    ∃ slot semaphore r,
      semaphoreSlot chainAcquired = some slot ∧ slot < 2 ∧ slot = 1 ∧
      chainAcquired.m_image_acquired_semaphores[slot]? = some semaphore ∧
      AcquireNextImage chainAcquired (AcquireResult.VK_SUCCESS 1) = some r ∧
      r.s.m_image_acquired = true :=
  (C17_semaphore_slot chainAcquired (AcquireResult.VK_SUCCESS 1) (by decide) (by decide)
    (by decide)).imp fun _ h => h.imp fun _ h2 => h2.imp fun _ h3 =>
      ⟨h3.1, h3.2.1, h3.2.2.1.trans (by decide), h3.2.2.2.2.1, h3.2.2.2.2.2.1,
        h3.2.2.2.2.2.2.2.1⟩

/-! ## C18 -/

/-- C18, as stated, fails: on the swap chain that has acquired image 0, an acquire
whose native call fails returns `false` and sets `image_acquired`, which was
true, to false. -/
theorem C18_counterexample :
    chainAcquired.m_image_acquired = true ∧
    ∃ r, AcquireNextImage chainAcquired AcquireResult.failure = some r ∧
      r.ret = false ∧ r.s.m_image_acquired = false ∧
      r.s.m_image_acquired ≠ chainAcquired.m_image_acquired :=
  ⟨by decide, _, rfl, by decide, by decide, by decide⟩

/-- C18, amended: for every swap chain with a device, `buffer_count >= 1` and a
ring of `buffer_count` semaphores: if the native acquire call succeeds with image
index `i`, `AcquireNextImage()` returns `true`, sets `image_acquired` and stores
`i` as the current image index; if the native call fails, it returns `false`,
sets `image_acquired` to false and leaves the current image index as the native
call left it (unchanged when no image was acquired, `i` for
`VK_SUBOPTIMAL_KHR`).  No other member changes. -/
theorem C18_acquire_result (s : RHI_SwapChain) (hdev : s.m_rhi_device ≠ none)
    (hN : 1 ≤ s.m_buffer_count)
    (hring : s.m_image_acquired_semaphores.length = s.m_buffer_count) :
    (∀ i, ∃ r, AcquireNextImage s (AcquireResult.VK_SUCCESS i) = some r ∧ r.ret = true ∧
      r.s = { s with m_image_acquired := true, m_image_index := i }) ∧
    (∃ r, AcquireNextImage s AcquireResult.failure = some r ∧ r.ret = false ∧
      r.s = { s with m_image_acquired := false }) ∧
    (∀ i, ∃ r, AcquireNextImage s (AcquireResult.VK_SUBOPTIMAL_KHR i) = some r ∧
      r.ret = false ∧ r.s = { s with m_image_acquired := false, m_image_index := i }) := by
  obtain ⟨slot, semaphore, hslot, hsem⟩ := acquire_slot_exists s hN hring
  obtain ⟨dev, hd⟩ := Option.ne_none_iff_exists'.mp hdev
  refine ⟨fun i => ⟨_, AcquireNextImage_eq s _ dev slot semaphore hd hslot hsem, rfl, rfl⟩,
    ⟨_, AcquireNextImage_eq s _ dev slot semaphore hd hslot hsem, rfl, ?_⟩,
    fun i => ⟨_, AcquireNextImage_eq s _ dev slot semaphore hd hslot hsem, rfl, rfl⟩⟩
  cases s
  rfl

/-- C18, amended, at a concrete input: the swap chain that has acquired image 0,
then a successful acquire of image 1 and a failed acquire. -/
theorem C18_acquire_result_witness :
    (∃ r, AcquireNextImage chainAcquired (AcquireResult.VK_SUCCESS 1) = some r ∧
      r.ret = true ∧
      r.s = { chainAcquired with m_image_acquired := true, m_image_index := 1 }) ∧
    (∃ r, AcquireNextImage chainAcquired AcquireResult.failure = some r ∧ r.ret = false ∧
      r.s = { chainAcquired with m_image_acquired := false }) :=
  have h := C18_acquire_result chainAcquired (by decide) (by decide) (by decide)
  ⟨h.1 1, h.2.1⟩

/-! ## C19 -/

/-- C19, the code at the failing input: on the freshly constructed two-buffer swap
chain, three consecutive acquires that all succeed, with image indices 0, 1, 0,
issue three native acquire calls and no command-pool reset at all; the test
`m_image_index + 1 > m_buffer_count` is false before each of them. -/
theorem C19_no_reset_failing_input :
    chain0.m_buffer_count = 2 ∧
    ∃ s3,
      acquireAll chain0
        [AcquireResult.VK_SUCCESS 0, AcquireResult.VK_SUCCESS 1, AcquireResult.VK_SUCCESS 0] =
        some ([[VkCall.vkAcquireNextImageKHR 60 400], [VkCall.vkAcquireNextImageKHR 60 401],
          [VkCall.vkAcquireNextImageKHR 60 400]], s3) ∧
      ([[VkCall.vkAcquireNextImageKHR 60 400], [VkCall.vkAcquireNextImageKHR 60 401],
          [VkCall.vkAcquireNextImageKHR 60 400]].flatten.filter VkCall.isResetCommandPool) = [] ∧
      resetsCommandPool chain0 = false ∧
      resetsCommandPool { chain0 with m_image_acquired := true, m_image_index := 0 } = false ∧
      resetsCommandPool { chain0 with m_image_acquired := true, m_image_index := 1 } = false :=
  ⟨by decide, _, rfl, by decide, by decide, by decide, by decide⟩

/-! ## C20 -/

/-- C20: for every swap chain and every native answer, `Resize` with the stored
width and height returns `true`, issues no native call, teardown or creation, and
leaves the swap chain unchanged; hence any number of such calls in a row issues no
call and leaves the swap chain as it was. -/
theorem C20_resize_same_dimensions (s : RHI_SwapChain) (a : CreateAnswers) :
    Resize s s.m_width s.m_height a = some (Outcome.mk true s []) ∧
    ∀ answers : List CreateAnswers,
      resizeAll s s.m_width s.m_height answers = some ([], s) := by
  have h : ∀ b : CreateAnswers, Resize s s.m_width s.m_height b = some (Outcome.mk true s []) := by
    intro b
    simp [Resize]
  refine ⟨h a, fun answers => ?_⟩
  induction answers with
  | nil => rfl
  | cons b rest ih =>
    simp only [resizeAll, h b, ih, List.nil_append]

/-! ## Creation and teardown -/

theorem resize_length (v : List Handle) (n : Nat) : (resize v n).length = n := by
  simp only [resize, List.length_append, List.length_take, List.length_replicate]
  omega

theorem create_image_views_length (a : CreateAnswers) (count : Nat) :
    ∀ (i : Nat) (image_views : List Handle) (calls : List VkCall),
      (create_image_views a count i image_views calls).2.1.length = image_views.length := by
  induction count with
  | zero => intro i image_views calls; rfl
  | succ k ih =>
    intro i image_views calls
    simp only [create_image_views]
    split_ifs
    · rw [ih, List.length_set]
    · rfl

theorem create_image_views_ok (a : CreateAnswers) (count : Nat) :
    ∀ (i : Nat) (image_views : List Handle) (calls : List VkCall),
      (create_image_views a count i image_views calls).1 = true ↔
        ∀ j, i ≤ j → j < i + count → (a.image_view j).1 = true := by
  induction count with
  | zero =>
    intro i image_views calls
    simp only [create_image_views, true_iff]
    intro j h1 h2
    omega
  | succ k ih =>
    intro i image_views calls
    simp only [create_image_views]
    split_ifs with h
    · rw [ih]
      constructor
      · intro hk j h1 h2
        by_cases hj : j = i
        · rw [hj]; exact h
        · exact hk j (by omega) (by omega)
      · intro hk j h1 h2
        exact hk j (by omega) (by omega)
    · constructor
      · intro hf
        cases hf
      · intro hk
        exact absurd (hk i (le_refl i) (by omega)) h

theorem create_image_views_calls (a : CreateAnswers) (count : Nat) :
    ∀ (i : Nat) (image_views : List Handle) (calls : List VkCall) (c : VkCall),
      c ∈ (create_image_views a count i image_views calls).2.2 → c.isDestroy = true →
        c ∈ calls := by
  induction count with
  | zero => intro i image_views calls c hc _; exact hc
  | succ k ih =>
    intro i image_views calls c hc hd
    simp only [create_image_views] at hc
    split_ifs at hc
    · have := ih _ _ _ c hc hd
      simp only [List.mem_append, List.mem_cons, List.mem_singleton, List.not_mem_nil,
        or_false] at this
      rcases this with h | h | h
      · exact h
      · rw [h] at hd; cases hd
      · rw [h] at hd; cases hd
    · simp only [List.mem_append, List.mem_cons, List.mem_singleton, List.not_mem_nil,
        or_false] at hc
      rcases hc with h | h | h
      · exact h
      · rw [h] at hd; cases hd
      · rw [h] at hd; cases hd

theorem create_frame_buffers_length (a : CreateAnswers) (render_pass : Handle)
    (image_views : List Handle) (width height count : Nat) :
    ∀ (i : Nat) (frame_buffers : List Handle) (calls : List VkCall),
      (create_frame_buffers a render_pass image_views width height count i frame_buffers
        calls).2.1.length = frame_buffers.length := by
  induction count with
  | zero => intro i frame_buffers calls; rfl
  | succ k ih =>
    intro i frame_buffers calls
    simp only [create_frame_buffers]
    split_ifs
    · rw [ih, List.length_set]
    · rfl

theorem create_frame_buffers_ok (a : CreateAnswers) (render_pass : Handle)
    (image_views : List Handle) (width height count : Nat) :
    ∀ (i : Nat) (frame_buffers : List Handle) (calls : List VkCall),
      (create_frame_buffers a render_pass image_views width height count i frame_buffers
        calls).1 = true ↔ ∀ j, i ≤ j → j < i + count → (a.frame_buffer j).1 = true := by
  induction count with
  | zero =>
    intro i frame_buffers calls
    simp only [create_frame_buffers, true_iff]
    intro j h1 h2
    omega
  | succ k ih =>
    intro i frame_buffers calls
    simp only [create_frame_buffers]
    split_ifs with h
    · rw [ih]
      constructor
      · intro hk j h1 h2
        by_cases hj : j = i
        · rw [hj]; exact h
        · exact hk j (by omega) (by omega)
      · intro hk j h1 h2
        exact hk j (by omega) (by omega)
    · constructor
      · intro hf
        cases hf
      · intro hk
        exact absurd (hk i (le_refl i) (by omega)) h

theorem create_frame_buffers_calls (a : CreateAnswers) (render_pass : Handle)
    (image_views : List Handle) (width height count : Nat) :
    ∀ (i : Nat) (frame_buffers : List Handle) (calls : List VkCall) (c : VkCall),
      c ∈ (create_frame_buffers a render_pass image_views width height count i frame_buffers
        calls).2.2 → c.isDestroy = true → c ∈ calls := by
  induction count with
  | zero => intro i frame_buffers calls c hc _; exact hc
  | succ k ih =>
    intro i frame_buffers calls c hc hd
    simp only [create_frame_buffers] at hc
    split_ifs at hc
    · have := ih _ _ _ c hc hd
      simp only [List.mem_append, List.mem_singleton] at this
      rcases this with h | h
      · exact h
      · rw [h] at hd; cases hd
    · simp only [List.mem_append, List.mem_singleton] at hc
      rcases hc with h | h
      · exact h
      · rw [h] at hd; cases hd

theorem create_semaphores_length (a : CreateAnswers) (count : Nat) :
    ∀ (i : Nat) (semaphores : List Handle) (calls : List VkCall),
      (create_semaphores a count i semaphores calls).1.length = semaphores.length + count := by
  induction count with
  | zero => intro i semaphores calls; rfl
  | succ k ih =>
    intro i semaphores calls
    simp only [create_semaphores]
    rw [ih, List.length_append, List.length_singleton]
    omega

theorem create_semaphores_calls (a : CreateAnswers) (count : Nat) :
    ∀ (i : Nat) (semaphores : List Handle) (calls : List VkCall) (c : VkCall),
      c ∈ (create_semaphores a count i semaphores calls).2 → c.isDestroy = true →
        c ∈ calls := by
  induction count with
  | zero => intro i semaphores calls c hc _; exact hc
  | succ k ih =>
    intro i semaphores calls c hc hd
    simp only [create_semaphores] at hc
    have := ih _ _ _ c hc hd
    simp only [List.mem_append, List.mem_singleton] at this
    rcases this with h | h
    · exact h
    · rw [h] at hd; cases hd

theorem create_ok_iff (a : CreateAnswers) (width height buffer_count flags : Nat)
    (window_handle : Handle) (o : ChainObjects) :
    (create a width height buffer_count flags window_handle o).1 = true ↔ a.checked := by
  have hv := create_image_views_ok a a.image_count 0
  have hf := fun r v w h => create_frame_buffers_ok a r v w h a.image_count 0
  simp only [Nat.zero_le, Nat.zero_add, true_implies] at hv hf
  unfold create CreateAnswers.checked
  simp only []
  split_ifs with h1 h2 h3 h4 h5 h6 h7
  all_goals simp only [Bool.not_eq_true', Bool.not_eq_false] at *
  · simp [h1]
  · simp [h2]
  · simp [h3]
  · simp [h4]
  · rw [Bool.eq_false_iff, Ne, hv] at h5
    simp [h5]
  · simp [h6]
  · rw [Bool.eq_false_iff, Ne, hf] at h7
    simp [h7]
  · rw [hv] at h5
    rw [hf] at h7
    simp only [true_iff]
    exact ⟨h1, h2, h3, h4, h5, h6, h7⟩

theorem create_lengths (a : CreateAnswers) (width height buffer_count flags : Nat)
    (window_handle : Handle) (o : ChainObjects)
    (hok : (create a width height buffer_count flags window_handle o).1 = true) :
    (create a width height buffer_count flags window_handle o).2.1.image_views.length =
      a.image_count ∧
    (create a width height buffer_count flags window_handle o).2.1.frame_buffers.length =
      a.image_count ∧
    (create a width height buffer_count flags window_handle o).2.1.semaphores_image_acquired.length =
      o.semaphores_image_acquired.length + buffer_count := by
  unfold create at hok ⊢
  simp only [] at hok ⊢
  split_ifs at hok ⊢ with h1 h2 h3 h4 h5 h6 h7
  all_goals cases hok
  refine ⟨?_, ?_, ?_⟩
  · simp only [create_image_views_length, resize_length]
  · simp only [create_frame_buffers_length, resize_length]
  · simp only [create_semaphores_length]

theorem create_calls (a : CreateAnswers) (width height buffer_count flags : Nat)
    (window_handle : Handle) (o : ChainObjects) (c : VkCall)
    (hc : c ∈ (create a width height buffer_count flags window_handle o).2.2) :
    c.isDestroy = false := by
  by_contra hd
  simp only [Bool.not_eq_false] at hd
  unfold create at hc
  simp only [] at hc
  split_ifs at hc with h1 h2 h3 h4 h5 h6 h7
  · simp only [List.mem_singleton] at hc
    rw [hc] at hd; cases hd
  · simp only [List.mem_append, List.mem_singleton] at hc
    rcases hc with h | h <;> rw [h] at hd <;> cases hd
  · simp only [List.mem_append, List.mem_singleton] at hc
    rcases hc with h | h <;> rw [h] at hd <;> cases hd
  · simp only [List.mem_append, List.mem_cons, List.mem_singleton, List.not_mem_nil,
      or_false] at hc
    rcases hc with (h | h) | h | h | h | h <;> rw [h] at hd <;> cases hd
  · have hc := create_image_views_calls a _ _ _ _ c hc hd
    simp only [List.mem_append, List.mem_cons, List.mem_singleton, List.not_mem_nil,
      or_false] at hc
    rcases hc with ((h | h) | h | h | h | h) | h | h <;> rw [h] at hd <;> cases hd
  · simp only [List.mem_append, List.mem_singleton] at hc
    rcases hc with hc | h
    · have hc := create_image_views_calls a _ _ _ _ c hc hd
      simp only [List.mem_append, List.mem_cons, List.mem_singleton, List.not_mem_nil,
        or_false] at hc
      rcases hc with ((h | h) | h | h | h | h) | h | h <;> rw [h] at hd <;> cases hd
    · rw [h] at hd; cases hd
  · have hc := create_frame_buffers_calls a _ _ _ _ _ _ _ _ c hc hd
    simp only [List.mem_append, List.mem_singleton] at hc
    rcases hc with hc | h
    · have hc := create_image_views_calls a _ _ _ _ c hc hd
      simp only [List.mem_append, List.mem_cons, List.mem_singleton, List.not_mem_nil,
        or_false] at hc
      rcases hc with ((h | h) | h | h | h | h) | h | h <;> rw [h] at hd <;> cases hd
    · rw [h] at hd; cases hd
  · have hc := create_semaphores_calls a _ _ _ _ c hc hd
    have hc := create_frame_buffers_calls a _ _ _ _ _ _ _ _ c hc hd
    simp only [List.mem_append, List.mem_singleton] at hc
    rcases hc with hc | h
    · have hc := create_image_views_calls a _ _ _ _ c hc hd
      simp only [List.mem_append, List.mem_cons, List.mem_singleton, List.not_mem_nil,
        or_false] at hc
      rcases hc with ((h | h) | h | h | h | h) | h | h <;> rw [h] at hd <;> cases hd
    · rw [h] at hd; cases hd

theorem destroy_eq (o : ChainObjects) :
    destroy o =
      ({ o with
         semaphores_image_acquired := []
         frame_buffers := []
         image_views := []
         swap_chain_view := 0
         surface := 0 }, teardownCalls o) := rfl

theorem teardownCalls_destroysNull (o : ChainObjects) (c : VkCall) (hc : c ∈ teardownCalls o) :
    c.destroysNull = false := by
  simp only [teardownCalls, nonNull, List.mem_append, List.mem_map, List.mem_filter,
    decide_eq_true_eq] at hc
  rcases hc with (((⟨h, ⟨_, hn⟩, rfl⟩ | ⟨h, ⟨_, hn⟩, rfl⟩) | ⟨h, ⟨_, hn⟩, rfl⟩) | hc) | hc
  · simp [VkCall.destroysNull, hn]
  · simp [VkCall.destroysNull, hn]
  · simp [VkCall.destroysNull, hn]
  · split_ifs at hc with hn
    · rw [List.mem_singleton] at hc
      subst hc
      simp [VkCall.destroysNull, hn]
    · cases hc
  · split_ifs at hc with hn
    · rw [List.mem_singleton] at hc
      subst hc
      simp [VkCall.destroysNull, hn]
    · cases hc

theorem destruct_eq (s : RHI_SwapChain) (hd : s.m_rhi_device ≠ none) :
    ∃ s2, RHI_SwapChain.destruct s = some (s2,
      teardownCalls s.objects ++ [VkCall.vkDestroyCommandPool s.m_cmd_pool] ++
        (if s.m_render_pass ≠ 0 then [VkCall.vkDestroyRenderPass s.m_render_pass] else [])) := by
  obtain ⟨dev, hdev⟩ := Option.ne_none_iff_exists'.mp hd
  unfold RHI_SwapChain.destruct
  simp only [hdev, destroy_eq]
  exact ⟨_, rfl⟩

theorem Resize_eq (s : RHI_SwapChain) (width height : Nat) (a : CreateAnswers)
    (hd : s.m_rhi_device ≠ none) (hne : ¬ (s.m_width = width ∧ s.m_height = height)) :
    Resize s width height a =
      some (Outcome.mk
        (create a width height s.m_buffer_count s.m_flags s.m_window_handle
          (destroy s.objects).1).1
        { ({ s with m_width := width, m_height := height } : RHI_SwapChain).withObjects
            (create a width height s.m_buffer_count s.m_flags s.m_window_handle
              (destroy s.objects).1).2.1 with
          m_initialized :=
            (create a width height s.m_buffer_count s.m_flags s.m_window_handle
              (destroy s.objects).1).1 }
        (teardownCalls s.objects ++
          (create a width height s.m_buffer_count s.m_flags s.m_window_handle
            (destroy s.objects).1).2.2)) := by
  obtain ⟨dev, hdev⟩ := Option.ne_none_iff_exists'.mp hd
  unfold Resize
  rw [if_neg hne]
  simp only [hdev]
  rfl

/-! ## C21 -/

/-- C21, the code on every swap chain with a device: the destructor issues the
destroy calls of the semaphores, the frame buffers, the image views, the swap
chain and the surface in this order, each for the non-null handles only, then
`vkDestroyCommandPool` with the stored pool handle whether or not it is null, then
`vkDestroyRenderPass` when the render pass is not null; the only destroy call it
can issue with a null handle is the one of the command pool, which it does issue
when the pool is null.  A `Resize` with changed dimensions issues the same five
groups of destroy calls first and no destroy call after them. -/
theorem C21_teardown_order (s : RHI_SwapChain) (hd : s.m_rhi_device ≠ none) :
    (∃ s2, RHI_SwapChain.destruct s = some (s2,
      teardownCalls s.objects ++ [VkCall.vkDestroyCommandPool s.m_cmd_pool] ++
        (if s.m_render_pass ≠ 0 then [VkCall.vkDestroyRenderPass s.m_render_pass] else []))) ∧
    (∀ s2 calls, RHI_SwapChain.destruct s = some (s2, calls) →
      (∀ c ∈ calls, c.destroysNull = true → c = VkCall.vkDestroyCommandPool 0) ∧
      (s.m_cmd_pool = 0 → VkCall.vkDestroyCommandPool 0 ∈ calls)) ∧
    (∀ width height a, ¬ (s.m_width = width ∧ s.m_height = height) →
      ∃ r created, Resize s width height a = some r ∧
        r.calls = teardownCalls s.objects ++ created ∧
        ∀ c ∈ created, c.isDestroy = false) := by
  obtain ⟨s1, h1⟩ := destruct_eq s hd
  refine ⟨⟨s1, h1⟩, ?_, ?_⟩
  · intro s2 calls h
    rw [h1] at h
    simp only [Option.some.injEq, Prod.mk.injEq] at h
    obtain ⟨_, rfl⟩ := h
    constructor
    · intro c hc hn
      simp only [List.mem_append, List.mem_singleton] at hc
      rcases hc with (hc | hc) | hc
      · rw [teardownCalls_destroysNull _ c hc] at hn
        cases hn
      · subst hc
        simp only [VkCall.destroysNull, decide_eq_true_eq] at hn
        rw [hn]
      · split_ifs at hc with hr
        · rw [List.mem_singleton] at hc
          subst hc
          simp only [VkCall.destroysNull, decide_eq_true_eq] at hn
          exact absurd hn hr
        · cases hc
    · intro h0
      simp [h0]
  · intro width height a hne
    exact ⟨_, _, Resize_eq s width height a hd hne, rfl,
      fun c hc => create_calls _ _ _ _ _ _ _ c hc⟩

/-- C21 at the failing input: the swap chain constructed with two buffers when
`vkCreateCommandPool` failed has a null command pool, and its destructor issues
`vkDestroyCommandPool` with the null handle. -/
theorem C21_teardown_order_witness :
    chainNoPool.m_cmd_pool = 0 ∧
    (RHI_SwapChain.destruct chainNoPool).map Prod.snd = some
      [VkCall.vkDestroySemaphore 400, VkCall.vkDestroySemaphore 401,
       VkCall.frame_buffer_destroy 300, VkCall.frame_buffer_destroy 301,
       VkCall.image_view_destroy 200, VkCall.image_view_destroy 201,
       VkCall.vkDestroySwapchainKHR 60, VkCall.vkDestroySurfaceKHR 50,
       VkCall.vkDestroyCommandPool 0, VkCall.vkDestroyRenderPass 70] ∧
    (∀ s2 calls, RHI_SwapChain.destruct chainNoPool = some (s2, calls) →
      VkCall.vkDestroyCommandPool 0 ∈ calls) :=
  ⟨by decide, by decide,
    fun s2 calls h => ((C21_teardown_order chainNoPool (by decide)).2.1 s2 calls h).2 (by decide)⟩

theorem construct_invalid (max_resolution : Nat) (window_handle : Handle) (is_window : Bool)
    (rhi_device : Option RHI_Device) (width height format buffer_count flags : Nat)
    (a : CreateAnswers) (pool : Bool × Handle)
    (hv : ValidationFails max_resolution window_handle is_window rhi_device width height) :
    RHI_SwapChain.construct max_resolution window_handle is_window rhi_device width height
      format buffer_count flags a pool = (RHI_SwapChain.initial max_resolution, []) := by
  unfold RHI_SwapChain.construct
  cases rhi_device with
  | none => rfl
  | some dev =>
    simp only []
    by_cases h1 : dev.context_rhi.device = 0
    · rw [if_pos h1]
    · rw [if_neg h1]
      by_cases h2 : window_handle = 0 ∨ is_window = false
      · rw [if_pos h2]
      · rw [if_neg h2]
        by_cases h3 : width = 0 ∨ width > (RHI_SwapChain.initial max_resolution).m_max_resolution ∨
            height = 0 ∨ height > (RHI_SwapChain.initial max_resolution).m_max_resolution
        · rw [if_pos h3]
        · exfalso
          rcases hv with h | ⟨d, hd, h0⟩ | h | h | h | h | h | h
          · cases h
          · cases hd
            exact h1 h0
          · exact h2 (Or.inl h)
          · exact h2 (Or.inr h)
          · exact h3 (Or.inl h)
          · exact h3 (Or.inr (Or.inl h))
          · exact h3 (Or.inr (Or.inr (Or.inl h)))
          · exact h3 (Or.inr (Or.inr (Or.inr h)))

theorem construct_valid (max_resolution : Nat) (window_handle : Handle) (is_window : Bool)
    (rhi_device : Option RHI_Device) (width height format buffer_count flags : Nat)
    (a : CreateAnswers) (pool : Bool × Handle)
    (hv : ¬ ValidationFails max_resolution window_handle is_window rhi_device width height) :
    (RHI_SwapChain.construct max_resolution window_handle is_window rhi_device width height
      format buffer_count flags a pool).1 =
      { (RHI_SwapChain.initial max_resolution) with
        m_initialized := (create a width height buffer_count flags window_handle
          (RHI_SwapChain.initial max_resolution).objects).1
        m_format := format
        m_rhi_device := rhi_device
        m_buffer_count := buffer_count
        m_width := width
        m_height := height
        m_window_handle := window_handle
        m_flags := flags
        m_render_pass := (create a width height buffer_count flags window_handle
          (RHI_SwapChain.initial max_resolution).objects).2.1.render_pass
        m_surface := (create a width height buffer_count flags window_handle
          (RHI_SwapChain.initial max_resolution).objects).2.1.surface
        m_swap_chain_view := (create a width height buffer_count flags window_handle
          (RHI_SwapChain.initial max_resolution).objects).2.1.swap_chain_view
        m_image_views := (create a width height buffer_count flags window_handle
          (RHI_SwapChain.initial max_resolution).objects).2.1.image_views
        m_frame_buffers := (create a width height buffer_count flags window_handle
          (RHI_SwapChain.initial max_resolution).objects).2.1.frame_buffers
        m_image_acquired_semaphores := (create a width height buffer_count flags window_handle
          (RHI_SwapChain.initial max_resolution).objects).2.1.semaphores_image_acquired
        m_cmd_pool := if pool.1 then pool.2 else 0
        m_cmd_lists := List.range buffer_count } := by
  unfold RHI_SwapChain.construct
  cases rhi_device with
  | none => exact absurd (Or.inl rfl) hv
  | some dev =>
    simp only []
    have h1 : ¬ dev.context_rhi.device = 0 := fun h => hv (Or.inr (Or.inl ⟨dev, rfl, h⟩))
    have h2 : ¬ (window_handle = 0 ∨ is_window = false) := by
      rintro (h | h)
      · exact hv (Or.inr (Or.inr (Or.inl h)))
      · exact hv (Or.inr (Or.inr (Or.inr (Or.inl h))))
    have h3 : ¬ (width = 0 ∨ width > (RHI_SwapChain.initial max_resolution).m_max_resolution ∨
        height = 0 ∨ height > (RHI_SwapChain.initial max_resolution).m_max_resolution) := by
      rintro (h | h | h | h)
      · exact hv (Or.inr (Or.inr (Or.inr (Or.inr (Or.inl h)))))
      · exact hv (Or.inr (Or.inr (Or.inr (Or.inr (Or.inr (Or.inl h))))))
      · exact hv (Or.inr (Or.inr (Or.inr (Or.inr (Or.inr (Or.inr (Or.inl h)))))))
      · exact hv (Or.inr (Or.inr (Or.inr (Or.inr (Or.inr (Or.inr (Or.inr h)))))))
    rw [if_neg h1, if_neg h2, if_neg h3]
    rfl

/-! ## C22 -/

/-- C22, the code on every construction request: when one of the three
validations fails the constructor leaves the freshly initialised members, whose
initialized flag is false, and makes no native call; when a step whose result
`create` tests fails (surface, support query, swap chain, an image view, the
render pass, a frame buffer) the initialized flag is false; but when the
validations pass and these steps succeed the flag is true whatever
`vkCreateSemaphore` and `vkCreateCommandPool` answered. -/
theorem C22_construct_initialized (max_resolution : Nat) (window_handle : Handle)
    (is_window : Bool) (rhi_device : Option RHI_Device)
    (width height format buffer_count flags : Nat) (a : CreateAnswers) (pool : Bool × Handle) :
    (ValidationFails max_resolution window_handle is_window rhi_device width height →
      RHI_SwapChain.construct max_resolution window_handle is_window rhi_device width height
        format buffer_count flags a pool = (RHI_SwapChain.initial max_resolution, []) ∧
      (RHI_SwapChain.initial max_resolution).m_initialized = false) ∧
    (¬ a.checked →
      (RHI_SwapChain.construct max_resolution window_handle is_window rhi_device width height
        format buffer_count flags a pool).1.m_initialized = false) ∧
    (¬ ValidationFails max_resolution window_handle is_window rhi_device width height →
      a.checked →
      (RHI_SwapChain.construct max_resolution window_handle is_window rhi_device width height
        format buffer_count flags a pool).1.m_initialized = true) := by
  refine ⟨fun hv => ⟨construct_invalid _ _ _ _ _ _ _ _ _ _ _ hv, rfl⟩, ?_, ?_⟩
  · intro hc
    by_cases hv : ValidationFails max_resolution window_handle is_window rhi_device width height
    · rw [construct_invalid _ _ _ _ _ _ _ _ _ _ _ hv]
      rfl
    · rw [construct_valid _ _ _ _ _ _ _ _ _ _ _ hv]
      simp only []
      rw [Bool.eq_false_iff, Ne, create_ok_iff]
      exact hc
  · intro hv hc
    rw [construct_valid _ _ _ _ _ _ _ _ _ _ _ hv]
    simp only []
    rw [create_ok_iff]
    exact hc

/-- C22 at the failing input: an 800x600 window, two buffers, every
`vkCreateSemaphore` and the `vkCreateCommandPool` failing.  The constructed swap
chain is initialized, with a ring of two null semaphores and a null command
pool. -/
theorem C22_construct_initialized_witness :
    (answersNoSemaphore.semaphore 0).1 = false ∧ (answersNoSemaphore.semaphore 1).1 = false ∧
    chainNoSemaphore.m_initialized = true ∧
    chainNoSemaphore.m_image_acquired_semaphores = [0, 0] ∧
    chainNoSemaphore.m_cmd_pool = 0 ∧
    (RHI_SwapChain.construct 16384 0 true (some deviceVk0) 800 600 0 2 0 answers0 (true, 80)) =
      (RHI_SwapChain.initial 16384, []) :=
  ⟨rfl, rfl,
    (C22_construct_initialized 16384 9 true (some deviceVk0) 800 600 0 2 0 answersNoSemaphore
      (false, 0)).2.2
      (by unfold ValidationFails; decide)
      (by unfold CreateAnswers.checked; simp [answersNoSemaphore, answers0]),
    by decide, by decide,
    ((C22_construct_initialized 16384 0 true (some deviceVk0) 800 600 0 2 0 answers0
      (true, 80)).1 (Or.inr (Or.inr (Or.inl rfl)))).1⟩

/-! ## C23 -/

/-- C23: after every construction that leaves the swap chain initialized, and
after every `Resize` with changed dimensions that returns `true`, from any swap
chain whatever, the numbers of frame buffers and of image views both equal the
native image count and the semaphore ring has exactly `buffer_count` entries,
`buffer_count` being unchanged by the resize; such a `Resize` has a defined result
whenever the swap chain has a device. -/
theorem C23_chain_sizes (a : CreateAnswers) :
    (∀ max_resolution window_handle is_window rhi_device width height format buffer_count flags
        pool c calls,
      RHI_SwapChain.construct max_resolution window_handle is_window rhi_device width height
        format buffer_count flags a pool = (c, calls) →
      c.m_initialized = true →
      c.m_frame_buffers.length = a.image_count ∧ c.m_image_views.length = a.image_count ∧
      c.m_image_acquired_semaphores.length = buffer_count ∧ c.m_buffer_count = buffer_count) ∧
    (∀ (s : RHI_SwapChain) (width height : Nat), s.m_rhi_device ≠ none →
      ∃ r, Resize s width height a = some r) ∧
    (∀ (s : RHI_SwapChain) (width height : Nat) (r : Outcome),
      Resize s width height a = some r → ¬ (s.m_width = width ∧ s.m_height = height) →
      r.ret = true →
      r.s.m_frame_buffers.length = a.image_count ∧ r.s.m_image_views.length = a.image_count ∧
      r.s.m_image_acquired_semaphores.length = s.m_buffer_count ∧
      r.s.m_buffer_count = s.m_buffer_count) := by
  refine ⟨?_, ?_, ?_⟩
  · intro max_resolution window_handle is_window rhi_device width height format buffer_count
      flags pool c calls h hi
    have hc : c = (RHI_SwapChain.construct max_resolution window_handle is_window rhi_device
        width height format buffer_count flags a pool).1 := by rw [h]
    by_cases hv : ValidationFails max_resolution window_handle is_window rhi_device width height
    · rw [construct_invalid _ _ _ _ _ _ _ _ _ _ _ hv] at hc
      rw [hc] at hi
      cases hi
    · rw [construct_valid _ _ _ _ _ _ _ _ _ _ _ hv] at hc
      rw [hc] at hi ⊢
      simp only [] at hi ⊢
      obtain ⟨l1, l2, l3⟩ := create_lengths a width height buffer_count flags window_handle _ hi
      exact ⟨l2, l1, by simpa [RHI_SwapChain.initial, RHI_SwapChain.objects] using l3, trivial⟩
  · intro s width height hd
    by_cases hne : s.m_width = width ∧ s.m_height = height
    · exact ⟨_, by unfold Resize; rw [if_pos hne]⟩
    · exact ⟨_, Resize_eq s width height a hd hne⟩
  · intro s width height r h hne hr
    have hd : s.m_rhi_device ≠ none := by
      intro hn
      unfold Resize at h
      rw [if_neg hne] at h
      simp [hn] at h
    rw [Resize_eq s width height a hd hne] at h
    simp only [Option.some.injEq] at h
    subst h
    simp only [] at hr ⊢
    obtain ⟨l1, l2, l3⟩ := create_lengths a width height s.m_buffer_count s.m_flags
      s.m_window_handle _ hr
    exact ⟨l2, l1, by simpa [destroy_eq] using l3, rfl⟩

/-- C23 at concrete inputs: the swap chain constructed for an 800x600 window with
two buffers on a native side with two images, and the same swap chain resized to
1024x768. -/
theorem C23_chain_sizes_witness :
    (chain0.m_frame_buffers.length = 2 ∧ chain0.m_image_views.length = 2 ∧
      chain0.m_image_acquired_semaphores.length = 2 ∧ chain0.m_buffer_count = 2) ∧
    (∃ r, Resize chain0 1024 768 answers0 = some r ∧ r.ret = true ∧
      r.s.m_frame_buffers.length = 2 ∧ r.s.m_image_views.length = 2 ∧
      r.s.m_image_acquired_semaphores.length = 2 ∧ r.s.m_buffer_count = 2) :=
  ⟨(C23_chain_sizes answers0).1 16384 9 true (some deviceVk0) 800 600 0 2 0 (true, 80) chain0 _
      rfl (by decide),
    (Resize chain0 1024 768 answers0).get (by decide), by simp, by decide,
    (C23_chain_sizes answers0).2.2 chain0 1024 768 _ (Option.some_get _).symm (by decide)
      (by decide)⟩

/-! ## Queue families -/

theorem find_family_none (test : Nat → Bool) (props : List Nat) :
    ∀ k, find_family test props k = none ↔ ∀ f ∈ props, test f = false := by
  induction props with
  | nil => intro k; simp [find_family]
  | cons f rest ih =>
    intro k
    simp only [find_family]
    by_cases hf : test f = true
    · simp [hf]
    · simp only [hf, Bool.false_eq_true, if_false, ih, List.mem_cons, forall_eq_or_imp]
      simp only [Bool.not_eq_true] at hf
      simp [hf]

theorem find_family_some (test : Nat → Bool) (props : List Nat) :
    ∀ k i, find_family test props k = some i → k ≤ i ∧ FirstFamily test props (i - k) := by
  induction props with
  | nil => intro k i h; simp [find_family] at h
  | cons f rest ih =>
    intro k i h
    simp only [find_family] at h
    by_cases hf : test f = true
    · simp only [hf, if_true, Option.some.injEq] at h
      subst h
      refine ⟨le_refl _, ?_⟩
      rw [Nat.sub_self]
      exact ⟨by simp, by simpa using hf, fun j hj => absurd hj (Nat.not_lt_zero j)⟩
    · simp only [hf, Bool.false_eq_true, if_false] at h
      obtain ⟨hk, hlt, ht, hmin⟩ := ih (k + 1) i h
      have hik : i - k = (i - (k + 1)) + 1 := by omega
      refine ⟨by omega, ?_⟩
      rw [hik]
      refine ⟨by simpa using hlt, by simpa using ht, ?_⟩
      intro j hj
      cases j with
      | zero => simpa using hf
      | succ m => simpa using hmin m (by omega)

theorem find_family_first (test : Nat → Bool) (props : List Nat) (i : Nat)
    (h : find_family test props 0 = some i) : FirstFamily test props i := by
  simpa using (find_family_some test props 0 i h).2

theorem find_family_exists (test : Nat → Bool) (props : List Nat)
    (h : ∃ f ∈ props, test f = true) : ∃ i, find_family test props 0 = some i := by
  cases hfind : find_family test props 0 with
  | some i => exact ⟨i, rfl⟩
  | none =>
    obtain ⟨f, hf, ht⟩ := h
    rw [find_family_none] at hfind
    rw [hfind f hf] at ht
    cases ht

theorem dedicated_compute_supports (queue_flags f : Nat)
    (h : dedicated_compute queue_flags f = true) : supports_requested queue_flags f = true := by
  simp only [dedicated_compute, Bool.and_eq_true] at h
  exact h.1

theorem dedicated_transfer_supports (queue_flags f : Nat)
    (h : dedicated_transfer queue_flags f = true) : supports_requested queue_flags f = true := by
  simp only [dedicated_transfer, Bool.and_eq_true] at h
  exact h.1.1

/-- The three ways `get_queue_family_index` can succeed, and the one way it can
fail, according to the loop that returns. -/
theorem get_queue_family_index_cases (queue_flags : Nat) (props : List Nat) (index : Nat) :
    (queue_flags &&& VK_QUEUE_COMPUTE_BIT ≠ 0 ∧
      ∃ i, find_family (dedicated_compute queue_flags) props 0 = some i ∧
        get_queue_family_index queue_flags props index = (true, i)) ∨
    (¬ (queue_flags &&& VK_QUEUE_COMPUTE_BIT ≠ 0 ∧
        ∃ f ∈ props, dedicated_compute queue_flags f = true) ∧
      queue_flags &&& VK_QUEUE_TRANSFER_BIT ≠ 0 ∧
      ∃ i, find_family (dedicated_transfer queue_flags) props 0 = some i ∧
        get_queue_family_index queue_flags props index = (true, i)) ∨
    (¬ (queue_flags &&& VK_QUEUE_COMPUTE_BIT ≠ 0 ∧
        ∃ f ∈ props, dedicated_compute queue_flags f = true) ∧
      ¬ (queue_flags &&& VK_QUEUE_TRANSFER_BIT ≠ 0 ∧
        ∃ f ∈ props, dedicated_transfer queue_flags f = true) ∧
      ∃ i, find_family (supports_requested queue_flags) props 0 = some i ∧
        get_queue_family_index queue_flags props index = (true, i)) ∨
    (find_family (supports_requested queue_flags) props 0 = none ∧
      get_queue_family_index queue_flags props index = (false, index)) := by
  unfold get_queue_family_index
  by_cases hc : queue_flags &&& VK_QUEUE_COMPUTE_BIT ≠ 0
  · rw [if_pos hc]
    cases h1 : find_family (dedicated_compute queue_flags) props 0 with
    | some i => exact Or.inl ⟨hc, i, rfl, rfl⟩
    | none =>
      have hn1 : ¬ (queue_flags &&& VK_QUEUE_COMPUTE_BIT ≠ 0 ∧
          ∃ f ∈ props, dedicated_compute queue_flags f = true) := by
        rintro ⟨_, f, hf, ht⟩
        rw [find_family_none] at h1
        rw [h1 f hf] at ht
        cases ht
      simp only []
      by_cases ht : queue_flags &&& VK_QUEUE_TRANSFER_BIT ≠ 0
      · rw [if_pos ht]
        cases h2 : find_family (dedicated_transfer queue_flags) props 0 with
        | some i => exact Or.inr (Or.inl ⟨hn1, ht, i, rfl, rfl⟩)
        | none =>
          have hn2 : ¬ (queue_flags &&& VK_QUEUE_TRANSFER_BIT ≠ 0 ∧
              ∃ f ∈ props, dedicated_transfer queue_flags f = true) := by
            rintro ⟨_, f, hf, hx⟩
            rw [find_family_none] at h2
            rw [h2 f hf] at hx
            cases hx
          simp only []
          cases h3 : find_family (supports_requested queue_flags) props 0 with
          | some i => exact Or.inr (Or.inr (Or.inl ⟨hn1, hn2, i, rfl, rfl⟩))
          | none => exact Or.inr (Or.inr (Or.inr ⟨rfl, rfl⟩))
      · rw [if_neg ht]
        have hn2 : ¬ (queue_flags &&& VK_QUEUE_TRANSFER_BIT ≠ 0 ∧
            ∃ f ∈ props, dedicated_transfer queue_flags f = true) := fun h => ht h.1
        simp only []
        cases h3 : find_family (supports_requested queue_flags) props 0 with
        | some i => exact Or.inr (Or.inr (Or.inl ⟨hn1, hn2, i, rfl, rfl⟩))
        | none => exact Or.inr (Or.inr (Or.inr ⟨rfl, rfl⟩))
  · rw [if_neg hc]
    have hn1 : ¬ (queue_flags &&& VK_QUEUE_COMPUTE_BIT ≠ 0 ∧
        ∃ f ∈ props, dedicated_compute queue_flags f = true) := fun h => hc h.1
    simp only []
    by_cases ht : queue_flags &&& VK_QUEUE_TRANSFER_BIT ≠ 0
    · rw [if_pos ht]
      cases h2 : find_family (dedicated_transfer queue_flags) props 0 with
      | some i => exact Or.inr (Or.inl ⟨hn1, ht, i, rfl, rfl⟩)
      | none =>
        have hn2 : ¬ (queue_flags &&& VK_QUEUE_TRANSFER_BIT ≠ 0 ∧
            ∃ f ∈ props, dedicated_transfer queue_flags f = true) := by
          rintro ⟨_, f, hf, hx⟩
          rw [find_family_none] at h2
          rw [h2 f hf] at hx
          cases hx
        simp only []
        cases h3 : find_family (supports_requested queue_flags) props 0 with
        | some i => exact Or.inr (Or.inr (Or.inl ⟨hn1, hn2, i, rfl, rfl⟩))
        | none => exact Or.inr (Or.inr (Or.inr ⟨rfl, rfl⟩))
    · rw [if_neg ht]
      have hn2 : ¬ (queue_flags &&& VK_QUEUE_TRANSFER_BIT ≠ 0 ∧
          ∃ f ∈ props, dedicated_transfer queue_flags f = true) := fun h => ht h.1
      simp only []
      cases h3 : find_family (supports_requested queue_flags) props 0 with
      | some i => exact Or.inr (Or.inr (Or.inl ⟨hn1, hn2, i, rfl, rfl⟩))
      | none => exact Or.inr (Or.inr (Or.inr ⟨rfl, rfl⟩))

/-! ## C28 -/

theorem get_queue_family_index_single (flag : Nat) (props : List Nat) (index : Nat) :
    ((get_queue_family_index flag props index).1 = true →
      FamilySupports flag props (get_queue_family_index flag props index).2) ∧
    ((get_queue_family_index flag props index).1 = false →
      (get_queue_family_index flag props index).2 = index ∧ ∀ f ∈ props, f &&& flag = 0) := by
  have hsup : ∀ f, supports_requested flag f = true ↔ f &&& flag ≠ 0 := by
    intro f
    simp [supports_requested]
  rcases get_queue_family_index_cases flag props index with
    ⟨_, i, hi, he⟩ | ⟨_, _, i, hi, he⟩ | ⟨_, _, i, hi, he⟩ | ⟨hn, he⟩
  · rw [he]
    have h := find_family_first _ _ _ hi
    exact ⟨fun _ => ⟨h.1, (hsup _).mp (dedicated_compute_supports _ _ h.2.1)⟩,
      fun hf => by cases hf⟩
  · rw [he]
    have h := find_family_first _ _ _ hi
    exact ⟨fun _ => ⟨h.1, (hsup _).mp (dedicated_transfer_supports _ _ h.2.1)⟩,
      fun hf => by cases hf⟩
  · rw [he]
    have h := find_family_first _ _ _ hi
    exact ⟨fun _ => ⟨h.1, (hsup _).mp h.2.1⟩, fun hf => by cases hf⟩
  · rw [he]
    refine ⟨fun hf => (by cases hf), fun _ => ⟨rfl, ?_⟩⟩
    intro f hf
    rw [find_family_none] at hn
    have := hn f hf
    simpa [supports_requested] using this

/-- C29, the code on every queue-family list and every earlier content of the
three indices: `get_queue_family_indices` returns `false` exactly when no family
supports graphics; when it returns `true` the graphics index names a family that
supports graphics and the transfer index names a family that supports transfer
or equals the graphics index; the compute index names a family that supports
compute or equals the graphics index when some family supports transfer, but
when no family supports transfer the compute index is not written at all and
keeps the content it had before the call. -/
theorem C29_queue_family_indices (c : QueueFamilyIndices) (props : List Nat) :
    ((get_queue_family_indices c props).1 = false ↔
      ∀ f ∈ props, f &&& VK_QUEUE_GRAPHICS_BIT = 0) ∧
    ((get_queue_family_indices c props).1 = true →
      FamilySupports VK_QUEUE_GRAPHICS_BIT props
        (get_queue_family_indices c props).2.queue_graphics_family_index ∧
      (FamilySupports VK_QUEUE_TRANSFER_BIT props
          (get_queue_family_indices c props).2.queue_transfer_family_index ∨
        (get_queue_family_indices c props).2.queue_transfer_family_index =
          (get_queue_family_indices c props).2.queue_graphics_family_index) ∧
      ((∃ f ∈ props, f &&& VK_QUEUE_TRANSFER_BIT ≠ 0) →
        FamilySupports VK_QUEUE_COMPUTE_BIT props
          (get_queue_family_indices c props).2.queue_compute_family_index ∨
        (get_queue_family_indices c props).2.queue_compute_family_index =
          (get_queue_family_indices c props).2.queue_graphics_family_index) ∧
      ((∀ f ∈ props, f &&& VK_QUEUE_TRANSFER_BIT = 0) →
        (get_queue_family_indices c props).2.queue_compute_family_index =
          c.queue_compute_family_index)) := by
  obtain ⟨g1, g2⟩ := get_queue_family_index_single VK_QUEUE_GRAPHICS_BIT props
    c.queue_graphics_family_index
  obtain ⟨t1, t2⟩ := get_queue_family_index_single VK_QUEUE_TRANSFER_BIT props
    c.queue_transfer_family_index
  obtain ⟨k1, k2⟩ := get_queue_family_index_single VK_QUEUE_COMPUTE_BIT props
    c.queue_compute_family_index
  unfold get_queue_family_indices
  simp only []
  cases hg : (get_queue_family_index VK_QUEUE_GRAPHICS_BIT props
      c.queue_graphics_family_index).1
  · simp only [Bool.not_false, if_true, true_iff, Bool.false_eq_true, false_implies, and_true]
    exact (g2 hg).2
  · have hgs := g1 hg
    have hng : ¬ ∀ f ∈ props, f &&& VK_QUEUE_GRAPHICS_BIT = 0 := by
      intro hall
      obtain ⟨hlt, hne⟩ := hgs
      apply hne
      rw [List.getD_eq_getElem _ _ hlt]
      exact hall _ (List.getElem_mem hlt)
    simp only [Bool.not_true, Bool.false_eq_true, if_false]
    cases ht : (get_queue_family_index VK_QUEUE_TRANSFER_BIT props
        c.queue_transfer_family_index).1
    · simp only [Bool.not_false, if_true, Bool.true_eq_false, false_iff, true_implies]
      refine ⟨hng, hgs, Or.inr trivial, ?_, fun _ => trivial⟩
      rintro ⟨f, hf, hne⟩
      exact absurd ((t2 ht).2 f hf) hne
    · have hts := t1 ht
      have hnt : ¬ ∀ f ∈ props, f &&& VK_QUEUE_TRANSFER_BIT = 0 := by
        intro hall
        obtain ⟨hlt, hne⟩ := hts
        apply hne
        rw [List.getD_eq_getElem _ _ hlt]
        exact hall _ (List.getElem_mem hlt)
      simp only [Bool.not_true, Bool.false_eq_true, if_false]
      cases hk : (get_queue_family_index VK_QUEUE_COMPUTE_BIT props
          c.queue_compute_family_index).1
      · simp only [Bool.not_false, if_true, Bool.true_eq_false, false_iff, true_implies]
        exact ⟨hng, hgs, Or.inl hts, fun _ => Or.inr trivial, fun hall => absurd hall hnt⟩
      · simp only [Bool.not_true, Bool.false_eq_true, if_false, Bool.true_eq_false, false_iff,
          true_implies]
        exact ⟨hng, hgs, Or.inl hts, fun _ => Or.inl (k1 hk), fun hall => absurd hall hnt⟩

/-- C29 at the failing input: one queue family with graphics and compute and
without the transfer bit, the three indices holding 9 before the call.  The call
returns `true`, the graphics and transfer indices are 0, and the compute index is
still 9, which is neither the index of a family nor the graphics index, although
family 0 supports compute. -/
theorem C29_queue_family_indices_witness :
    get_queue_family_indices (QueueFamilyIndices.mk 9 9 9)
      [VK_QUEUE_GRAPHICS_BIT ||| VK_QUEUE_COMPUTE_BIT] = (true, QueueFamilyIndices.mk 0 0 9) ∧
    (get_queue_family_indices (QueueFamilyIndices.mk 9 9 9)
      [VK_QUEUE_GRAPHICS_BIT ||| VK_QUEUE_COMPUTE_BIT]).2.queue_compute_family_index = 9 ∧
    ¬ FamilySupports VK_QUEUE_COMPUTE_BIT [VK_QUEUE_GRAPHICS_BIT ||| VK_QUEUE_COMPUTE_BIT] 9 ∧
    FamilySupports VK_QUEUE_COMPUTE_BIT [VK_QUEUE_GRAPHICS_BIT ||| VK_QUEUE_COMPUTE_BIT] 0 :=
  ⟨by decide,
    ((C29_queue_family_indices (QueueFamilyIndices.mk 9 9 9)
      [VK_QUEUE_GRAPHICS_BIT ||| VK_QUEUE_COMPUTE_BIT]).2 (by decide)).2.2.2
      (by decide),
    fun h => absurd h.1 (by decide),
    ⟨by decide, by decide⟩⟩

end Spartan
